import Mathlib

/-! Printipi: stepper selection and the G-code interpreter state.

A shallow embedding of `drivers/axisstepper.h`, `state.h`, `scheduler.cpp` and
`drivers/tempcontrol.h`.

* The `time` of an `AxisStepper` is a C `float` that the code compares and tests
  for NaN; it is embedded as `CFloat` (NaN, the two infinities, or a finite
  rational), with the IEEE-754 comparison rules.
* The `float` fields of `State` and `TempControl` are embedded as exact
  rationals: rounding, NaN and infinities are left out of their arithmetic.
* The two threads of `Scheduler` are embedded as a step relation: `queue` and
  the part of `nextEvent` that runs under the mutex are one step each.
-/

namespace Printipi

/-! ## drivers/axisstepper.h -/

/-- A C `float` as seen by `<=`, `<` and `std::isnan`. -/
inductive CFloat where
  | nan
  | negInf
  | finite (q : ℚ)
  | posInf
  deriving DecidableEq, Repr

namespace CFloat

/-- The literal `0`. -/
def zero : CFloat := finite 0

/-- Function `std::isnan`. -/
def isnan : CFloat → Bool
  | nan => true
  | _ => false

/-- IEEE-754 `a <= b`: false as soon as one side is NaN. -/
def le : CFloat → CFloat → Bool
  | nan, _ => false
  | _, nan => false
  | negInf, _ => true
  | finite _, negInf => false
  | finite a, finite b => decide (a ≤ b)
  | finite _, posInf => true
  | posInf, posInf => true
  | posInf, _ => false

/-- IEEE-754 `a < b`: false as soon as one side is NaN. -/
def lt : CFloat → CFloat → Bool
  | nan, _ => false
  | _, nan => false
  | negInf, negInf => false
  | negInf, _ => true
  | finite _, negInf => false
  | finite a, finite b => decide (a < b)
  | finite _, posInf => true
  | posInf, _ => false

/-- A time that announces a step: positive, hence not NaN (`0 < t`). -/
def isPositive (t : CFloat) : Bool := lt zero t

end CFloat

/-- Direction of a step (`StepDirection`). -/
inductive StepDirection where
  | StepForward
  | StepBackward
  deriving DecidableEq, Repr

/-- Class `drv::AxisStepper`: the fields every stepper of the tuple shares. -/
structure AxisStepper where
  _index : Int
  time : CFloat
  direction : StepDirection
  deriving DecidableEq, Repr

/-- Method `AxisStepper::index`. -/
def AxisStepper.index (a : AxisStepper) : Int := a._index

/-- Struct `_AxisStepper__getNextTime<TupleT, idx>::operator()`. The tuple `axes`
has `n + 1` elements, `std::get<i>(axes)` is `axes i`, and the reference the C++
returns is given by the position in the tuple of the element it refers to. -/
def _AxisStepper__getNextTime {n : Nat} (axes : Fin (n + 1) → AxisStepper) :
    (idx : Nat) → idx ≤ n → Fin (n + 1)
  | 0, _ => ⟨0, Nat.succ_pos n⟩
  | idx + 1, h =>
    let m1 := _AxisStepper__getNextTime axes idx (Nat.le_of_succ_le h)
    let m2 : Fin (n + 1) := ⟨idx + 1, Nat.lt_succ_of_le h⟩
    if CFloat.le (axes m1).time CFloat.zero then m2
    else if CFloat.le (axes m2).time CFloat.zero then m1
    else if CFloat.lt (axes m1).time (axes m2).time || CFloat.isnan (axes m2).time then m1
    else m2

/-- Method `AxisStepper::getNextTime`: starts the recursion at `tuple_size - 1`. -/
def AxisStepper.getNextTime {n : Nat} (axes : Fin (n + 1) → AxisStepper) : Fin (n + 1) :=
  _AxisStepper__getNextTime axes n (Nat.le_refl n)

/-! ## machines/rpi/kosselpi.h -/

/-- The machine interface `Drv` that `State<Drv>` calls. -/
structure Machine where
  defaultMoveRate : ℚ
  maxRetractRate : ℚ
  maxExtrudeRate : ℚ
  clampMoveRate : ℚ → ℚ
  clampHomeRate : ℚ → ℚ
  doHomeBeforeFirstMovement : Bool

/-- Constant `MAX_MOVE_RATE`. -/
def MAX_MOVE_RATE : ℚ := 120

/-- Constant `HOME_RATE`. -/
def HOME_RATE : ℚ := 10

/-- Constant `MAX_EXT_RATE`. -/
def MAX_EXT_RATE : ℚ := 150

/-- Function `std::min(a, b)`: `b` when `b < a`, otherwise `a`. -/
def std_min (a b : ℚ) : ℚ := if b < a then b else a

/-- Class `machines::rpi::KosselPi`. -/
def KosselPi : Machine where
  defaultMoveRate := MAX_MOVE_RATE
  maxRetractRate := MAX_EXT_RATE
  maxExtrudeRate := MAX_EXT_RATE
  clampMoveRate := fun inp => std_min inp MAX_MOVE_RATE
  clampHomeRate := fun _ => HOME_RATE
  doHomeBeforeFirstMovement := true

/-! ## state.h -/

/-- Enumeration `PositionMode` (common/typesettings/enums.h). -/
inductive PositionMode where
  | POS_ABSOLUTE
  | POS_RELATIVE
  deriving DecidableEq, Repr

/-- Enumeration `LengthUnit` (common/typesettings/enums.h). -/
inductive LengthUnit where
  | UNIT_MM
  | UNIT_IN
  deriving DecidableEq, Repr

/-- Modelled from the spec: the constant `mathutil::MM_PER_IN` of the absent
common/mathutil.h, "Inch mode multiplies incoming coordinates by 25.4". -/
def MM_PER_IN : ℚ := 127 / 5

/-- Modelled from the spec: `gparse::Command` of the absent gparse/command.h, a
parsed G-code line: its opcode and the parameters `State::execute` reads.
A parameter that is absent is `none` (`getX(hasX)` sets `hasX` to false). -/
structure Command where
  opcode : String
  x : Option ℚ := none
  y : Option ℚ := none
  z : Option ℚ := none
  e : Option ℚ := none
  f : Option ℚ := none
  s : Option ℚ := none
  filepath : String := ""

namespace Command

/-- Modelled from the spec: the test `Command::isG0` of the absent gparse/command.h. -/
def isG0 (c : Command) : Bool := c.opcode == "G0"

/-- Modelled from the spec: the test `Command::isG1` of the absent gparse/command.h. -/
def isG1 (c : Command) : Bool := c.opcode == "G1"

/-- Modelled from the spec: the test `Command::isG20` of the absent gparse/command.h. -/
def isG20 (c : Command) : Bool := c.opcode == "G20"

/-- Modelled from the spec: the test `Command::isG21` of the absent gparse/command.h. -/
def isG21 (c : Command) : Bool := c.opcode == "G21"

/-- Modelled from the spec: the test `Command::isG28` of the absent gparse/command.h. -/
def isG28 (c : Command) : Bool := c.opcode == "G28"

/-- Modelled from the spec: the test `Command::isG90` of the absent gparse/command.h. -/
def isG90 (c : Command) : Bool := c.opcode == "G90"

/-- Modelled from the spec: the test `Command::isG91` of the absent gparse/command.h. -/
def isG91 (c : Command) : Bool := c.opcode == "G91"

/-- Modelled from the spec: the test `Command::isG92` of the absent gparse/command.h. -/
def isG92 (c : Command) : Bool := c.opcode == "G92"

/-- Modelled from the spec: the test `Command::isM0` of the absent gparse/command.h. -/
def isM0 (c : Command) : Bool := c.opcode == "M0"

/-- Modelled from the spec: the test `Command::isM17` of the absent gparse/command.h. -/
def isM17 (c : Command) : Bool := c.opcode == "M17"

/-- Modelled from the spec: the test `Command::isM18` of the absent gparse/command.h. -/
def isM18 (c : Command) : Bool := c.opcode == "M18"

/-- Modelled from the spec: the test `Command::isM21` of the absent gparse/command.h. -/
def isM21 (c : Command) : Bool := c.opcode == "M21"

/-- Modelled from the spec: the test `Command::isM32` of the absent gparse/command.h. -/
def isM32 (c : Command) : Bool := c.opcode == "M32"

/-- Modelled from the spec: the test `Command::isM82` of the absent gparse/command.h. -/
def isM82 (c : Command) : Bool := c.opcode == "M82"

/-- Modelled from the spec: the test `Command::isM83` of the absent gparse/command.h. -/
def isM83 (c : Command) : Bool := c.opcode == "M83"

/-- Modelled from the spec: the test `Command::isM84` of the absent gparse/command.h. -/
def isM84 (c : Command) : Bool := c.opcode == "M84"

/-- Modelled from the spec: the test `Command::isM99` of the absent gparse/command.h. -/
def isM99 (c : Command) : Bool := c.opcode == "M99"

/-- Modelled from the spec: the test `Command::isM104` of the absent gparse/command.h. -/
def isM104 (c : Command) : Bool := c.opcode == "M104"

/-- Modelled from the spec: the test `Command::isM105` of the absent gparse/command.h. -/
def isM105 (c : Command) : Bool := c.opcode == "M105"

/-- Modelled from the spec: the test `Command::isM106` of the absent gparse/command.h. -/
def isM106 (c : Command) : Bool := c.opcode == "M106"

/-- Modelled from the spec: the test `Command::isM107` of the absent gparse/command.h. -/
def isM107 (c : Command) : Bool := c.opcode == "M107"

/-- Modelled from the spec: the test `Command::isM109` of the absent gparse/command.h. -/
def isM109 (c : Command) : Bool := c.opcode == "M109"

/-- Modelled from the spec: the test `Command::isM110` of the absent gparse/command.h. -/
def isM110 (c : Command) : Bool := c.opcode == "M110"

/-- Modelled from the spec: the test `Command::isM112` of the absent gparse/command.h. -/
def isM112 (c : Command) : Bool := c.opcode == "M112"

/-- Modelled from the spec: the test `Command::isM117` of the absent gparse/command.h. -/
def isM117 (c : Command) : Bool := c.opcode == "M117"

/-- Modelled from the spec: the test `Command::isM140` of the absent gparse/command.h. -/
def isM140 (c : Command) : Bool := c.opcode == "M140"

/-- Modelled from the spec: the test `Command::isTxxx` of the absent gparse/command.h. -/
def isTxxx (c : Command) : Bool := c.opcode.front == 'T'

/-- Modelled from the spec: the test `Command::hasX` of the absent gparse/command.h. -/
def hasX (c : Command) : Bool := c.x.isSome

/-- Modelled from the spec: the test `Command::hasY` of the absent gparse/command.h. -/
def hasY (c : Command) : Bool := c.y.isSome

/-- Modelled from the spec: the test `Command::hasZ` of the absent gparse/command.h. -/
def hasZ (c : Command) : Bool := c.z.isSome

/-- Modelled from the spec: the test `Command::hasE` of the absent gparse/command.h. -/
def hasE (c : Command) : Bool := c.e.isSome

/-- Modelled from the spec: the test `Command::hasAnyXYZEParam` of the absent gparse/command.h. -/
def hasAnyXYZEParam (c : Command) : Bool := c.hasX || c.hasY || c.hasZ || c.hasE

/-- One of the opcodes `State::execute` tests for. -/
def isRecognized (c : Command) : Bool :=
  c.isG0 || c.isG1 || c.isG20 || c.isG21 || c.isG28 || c.isG90 || c.isG91 || c.isG92 ||
  c.isM0 || c.isM17 || c.isM18 || c.isM21 || c.isM32 || c.isM82 || c.isM83 || c.isM84 ||
  c.isM99 || c.isM104 || c.isM105 || c.isM106 || c.isM107 || c.isM109 || c.isM110 ||
  c.isM112 || c.isM117 || c.isM140 || c.isTxxx

end Command

/-- Modelled from the spec: `gparse::Response` of the absent gparse/response.h.
`OkTemp t b` is the reply `Response(ResponseOk, "T:<t> B:<b>")` of `M105`. -/
inductive Response where
  | Null
  | Ok
  | OkTemp (t b : ℚ)
  deriving DecidableEq, Repr

/-- Method `Response::isNull`. -/
def Response.isNull : Response → Bool
  | .Null => true
  | _ => false

/-- Modelled from the spec: `gparse::Com` of the absent gparse/com.h, a
line-oriented command source: default-constructed, a channel handed to the
constructor of `State`, or a file opened by `M32`. -/
inductive Com where
  | null
  | channel (id : Nat)
  | file (path : String)
  deriving DecidableEq, Repr

/-- The address of a `gparse::Com` object, as `execute` compares it in `M99`:
the member `State::com`, the element of `gcodeFileStack` at a height counted
from the bottom of the stack, or an object that lives elsewhere. -/
inductive ComRef where
  | root
  | stack (height : Nat)
  | elsewhere (addr : Nat)
  deriving DecidableEq, Repr

/-- Modelled from the spec: the one method of the absent filesystem.h that
`State` calls. -/
structure FileSystem where
  relGcodePathToAbs : String → String

/-- A call that `State` makes on one of its collaborators (motion planner,
scheduler, IO drivers, command source), recorded in the order made. -/
inductive Call where
  | setMaxSleep1ms
  | homeEndstops (startTime : Int) (vHome : ℚ)
  | moveTo (startTime : Int) (x y z e velXyz minExtRate maxExtRate : ℚ)
  | lockAllAxis
  | unlockAllAxis
  | setHotendTemp (t : ℚ)
  | setBedTemp (t : ℚ)
  | setFanRate (rate : ℚ)
  | reply (com : ComRef) (resp : Response)
  deriving DecidableEq, Repr

/-- What the collaborators answer during one call of `execute`. -/
structure Env where
  /-- the value of `motionPlanner.readyForNextMove()` -/
  readyForNextMove : Bool
  /-- the value of `EventClockT::now()` read by `homeEndstops` -/
  nowHome : Int := 0
  /-- the value of `EventClockT::now()` read by `queueMovement` -/
  nowMove : Int := 0
  /-- the value of `drv::IODriver::getHotendTemp(ioDrivers)` -/
  hotendTemp : ℚ := 0
  /-- the value of `drv::IODriver::getBedTemp(ioDrivers)` -/
  bedTemp : ℚ := 0

/-- Class `State<Drv>`: its data members, with `calls` the record of the calls
made so far on the scheduler, the motion planner and the IO drivers. The stack
`gcodeFileStack` has its top at the head of the list. -/
structure State where
  _positionMode : PositionMode
  _extruderPosMode : PositionMode
  unitMode : LengthUnit
  _destXPrimitive : ℚ
  _destYPrimitive : ℚ
  _destZPrimitive : ℚ
  _destEPrimitive : ℚ
  _destMoveRatePrimitive : ℚ
  _hostZeroX : ℚ
  _hostZeroY : ℚ
  _hostZeroZ : ℚ
  _hostZeroE : ℚ
  _isHomed : Bool
  _lastMotionPlannedTime : Int
  com : Com
  gcodeFileStack : List Com
  driver : Machine
  filesystem : FileSystem
  calls : List Call

/-- How a call that may also end the process or raise comes back. -/
inductive Outcome (α : Type) where
  | returned (value : α) (st : State)
  | exited (status : Int) (st : State)
  | threw (what : String) (st : State)

/-- The state in which the call ended. -/
def Outcome.state {α : Type} : Outcome α → State
  | .returned _ st => st
  | .exited _ st => st
  | .threw _ st => st

/-- The value returned, if the call returned. -/
def Outcome.value? {α : Type} : Outcome α → Option α
  | .returned v _ => some v
  | .exited _ _ => none
  | .threw _ _ => none

namespace State

/-- Method `State::positionMode`. -/
def positionMode (st : State) : PositionMode := st._positionMode

/-- Method `State::setPositionMode`. -/
def setPositionMode (st : State) (mode : PositionMode) : State :=
  { st with _positionMode := mode }

/-- Method `State::extruderPosMode`. -/
def extruderPosMode (st : State) : PositionMode := st._extruderPosMode

/-- Method `State::setExtruderPosMode`. -/
def setExtruderPosMode (st : State) (mode : PositionMode) : State :=
  { st with _extruderPosMode := mode }

/-- Method `State::setUnitMode`. -/
def setUnitMode (st : State) (mode : LengthUnit) : State :=
  { st with unitMode := mode }

/-- Method `State::xUnitToAbsolute`. -/
def xUnitToAbsolute (st : State) (posUnit : ℚ) : ℚ :=
  match st.positionMode with
  | .POS_RELATIVE => posUnit + st._destXPrimitive
  | .POS_ABSOLUTE => posUnit

/-- Method `State::yUnitToAbsolute`. -/
def yUnitToAbsolute (st : State) (posUnit : ℚ) : ℚ :=
  match st.positionMode with
  | .POS_RELATIVE => posUnit + st._destYPrimitive
  | .POS_ABSOLUTE => posUnit

/-- Method `State::zUnitToAbsolute`. -/
def zUnitToAbsolute (st : State) (posUnit : ℚ) : ℚ :=
  match st.positionMode with
  | .POS_RELATIVE => posUnit + st._destZPrimitive
  | .POS_ABSOLUTE => posUnit

/-- Method `State::eUnitToAbsolute`. -/
def eUnitToAbsolute (st : State) (posUnit : ℚ) : ℚ :=
  match st.extruderPosMode with
  | .POS_RELATIVE => posUnit + st._destEPrimitive
  | .POS_ABSOLUTE => posUnit

/-- Method `State::posUnitToMM`. -/
def posUnitToMM (st : State) (posUnit : ℚ) : ℚ :=
  match st.unitMode with
  | .UNIT_IN => MM_PER_IN * posUnit
  | .UNIT_MM => posUnit

/-- Method `State::xUnitToPrimitive`. -/
def xUnitToPrimitive (st : State) (posUnit : ℚ) : ℚ :=
  st.posUnitToMM (st.xUnitToAbsolute posUnit) + st._hostZeroX

/-- Method `State::yUnitToPrimitive`. -/
def yUnitToPrimitive (st : State) (posUnit : ℚ) : ℚ :=
  st.posUnitToMM (st.yUnitToAbsolute posUnit) + st._hostZeroY

/-- Method `State::zUnitToPrimitive`. -/
def zUnitToPrimitive (st : State) (posUnit : ℚ) : ℚ :=
  st.posUnitToMM (st.zUnitToAbsolute posUnit) + st._hostZeroZ

/-- Method `State::eUnitToPrimitive`. -/
def eUnitToPrimitive (st : State) (posUnit : ℚ) : ℚ :=
  st.posUnitToMM (st.eUnitToAbsolute posUnit) + st._hostZeroE

/-- Method `State::fUnitToPrimitive`. -/
def fUnitToPrimitive (st : State) (posUnit : ℚ) : ℚ :=
  st.posUnitToMM (posUnit / 60)

/-- Method `State::destXPrimitive`. -/
def destXPrimitive (st : State) : ℚ := st._destXPrimitive

/-- Method `State::destYPrimitive`. -/
def destYPrimitive (st : State) : ℚ := st._destYPrimitive

/-- Method `State::destZPrimitive`. -/
def destZPrimitive (st : State) : ℚ := st._destZPrimitive

/-- Method `State::destEPrimitive`. -/
def destEPrimitive (st : State) : ℚ := st._destEPrimitive

/-- Method `State::destMoveRatePrimitive`. -/
def destMoveRatePrimitive (st : State) : ℚ := st._destMoveRatePrimitive

/-- Method `State::setDestMoveRatePrimitive`. -/
def setDestMoveRatePrimitive (st : State) (f : ℚ) : State :=
  { st with _destMoveRatePrimitive := st.driver.clampMoveRate f }

/-- Method `State::setHostZeroPos`. -/
def setHostZeroPos (st : State) (x y z e : ℚ) : State :=
  { st with
    _hostZeroX := st.destXPrimitive - x
    _hostZeroY := st.destYPrimitive - y
    _hostZeroZ := st.destZPrimitive - z
    _hostZeroE := st.destEPrimitive - e }

/-- Function `std::max` on time points. -/
def maxTime (a b : Int) : Int := if a < b then b else a

/-- Method `State::queueMovement`; `now` is the clock value it reads. -/
def queueMovement (st : State) (now : Int) (x y z e : ℚ) : State :=
  let st1 : State :=
    { st with _destXPrimitive := x, _destYPrimitive := y, _destZPrimitive := z,
              _destEPrimitive := e }
  let velXyz := st1.destMoveRatePrimitive
  let minExtRate := -st1.driver.maxRetractRate
  let maxExtRate := st1.driver.maxExtrudeRate
  { st1 with calls := st1.calls ++
      [Call.moveTo (maxTime st1._lastMotionPlannedTime now) x y z e velXyz minExtRate maxExtRate] }

/-- Method `State::homeEndstops`; `now` is the clock value it reads. -/
def homeEndstops (st : State) (now : Int) : State :=
  { st with
    calls := st.calls ++
      [Call.setMaxSleep1ms,
       Call.homeEndstops (maxTime st._lastMotionPlannedTime now)
         (st.driver.clampHomeRate st.destMoveRatePrimitive)]
    _isHomed := true }

/-- Method `State::setFanRate`: the rate goes to every fan among the IO drivers. -/
def setFanRate (st : State) (rate : ℚ) : State :=
  { st with calls := st.calls ++ [Call.setFanRate rate] }

/-- The address of `gcodeFileStack.top()`. -/
def topRef (st : State) : ComRef := ComRef.stack (st.gcodeFileStack.length - 1)

/-- The text of the `std::runtime_error` raised for an opcode that is not recognised. -/
def unrecognizedWhat (cmd : Command) : String :=
  "unrecognized gcode opcode: '" ++ cmd.opcode ++ "'"

/-- Method `State::execute`, branch by branch in the order of the source. `com`
is the address of the command source the command came from. -/
def execute (st : State) (env : Env) (cmd : Command) (com : ComRef) : Outcome Response :=
  if cmd.isG0 || cmd.isG1 then
    let st1 := if !st._isHomed && st.driver.doHomeBeforeFirstMovement
      then st.homeEndstops env.nowHome else st
    if !env.readyForNextMove then .returned .Null st1
    else
      let curX := st1.destXPrimitive
      let curY := st1.destYPrimitive
      let curZ := st1.destZPrimitive
      let curE := st1.destEPrimitive
      let x := match cmd.x with
        | some x => st1.xUnitToPrimitive x
        | none => curX
      let y := match cmd.y with
        | some y => st1.yUnitToPrimitive y
        | none => curY
      let z := match cmd.z with
        | some z => st1.zUnitToPrimitive z
        | none => curZ
      let e := match cmd.e with
        | some e => st1.eUnitToPrimitive e
        | none => curE
      let st2 := match cmd.f with
        | some f => st1.setDestMoveRatePrimitive (st1.fUnitToPrimitive f)
        | none => st1
      .returned .Ok (st2.queueMovement env.nowMove x y z e)
  else if cmd.isG20 then .returned .Ok (st.setUnitMode .UNIT_IN)
  else if cmd.isG21 then .returned .Ok (st.setUnitMode .UNIT_MM)
  else if cmd.isG28 then
    if !env.readyForNextMove then .returned .Null st
    else .returned .Ok (st.homeEndstops env.nowHome)
  else if cmd.isG90 then
    .returned .Ok ((st.setPositionMode .POS_ABSOLUTE).setExtruderPosMode .POS_ABSOLUTE)
  else if cmd.isG91 then
    .returned .Ok ((st.setPositionMode .POS_RELATIVE).setExtruderPosMode .POS_RELATIVE)
  else if cmd.isG92 then
    if !cmd.hasAnyXYZEParam then
      let zero := st.posUnitToMM 0
      .returned .Ok (st.setHostZeroPos zero zero zero zero)
    else
      let actualX := match cmd.x with
        | some x => st.posUnitToMM x
        | none => st.destXPrimitive - st._hostZeroX
      let actualY := match cmd.y with
        | some y => st.posUnitToMM y
        | none => st.destYPrimitive - st._hostZeroY
      let actualZ := match cmd.z with
        | some z => st.posUnitToMM z
        | none => st.destZPrimitive - st._hostZeroZ
      let actualE := match cmd.e with
        | some e => st.posUnitToMM e
        | none => st.destEPrimitive - st._hostZeroE
      .returned .Ok (st.setHostZeroPos actualX actualY actualZ actualE)
  else if cmd.isM0 then .exited 0 st
  else if cmd.isM17 then .returned .Ok { st with calls := st.calls ++ [Call.lockAllAxis] }
  else if cmd.isM18 then .returned .Ok { st with calls := st.calls ++ [Call.unlockAllAxis] }
  else if cmd.isM21 then .returned .Ok st
  else if cmd.isM32 then
    .returned .Ok
      { st with gcodeFileStack :=
          Com.file (st.filesystem.relGcodePathToAbs cmd.filepath) :: st.gcodeFileStack }
  else if cmd.isM82 then .returned .Ok (st.setExtruderPosMode .POS_ABSOLUTE)
  else if cmd.isM83 then .returned .Ok (st.setExtruderPosMode .POS_RELATIVE)
  else if cmd.isM84 then .returned .Ok st
  else if cmd.isM99 then
    if st.gcodeFileStack.isEmpty then .exited 0 st
    else if st.topRef = com then
      .returned .Null { st with gcodeFileStack := st.gcodeFileStack.tail }
    else
      .returned .Ok { st with gcodeFileStack := st.gcodeFileStack.tail }
  else if cmd.isM104 then
    match cmd.s with
    | some t => .returned .Ok { st with calls := st.calls ++ [Call.setHotendTemp t] }
    | none => .returned .Ok st
  else if cmd.isM105 then .returned (.OkTemp env.hotendTemp env.bedTemp) st
  else if cmd.isM106 then
    let s := cmd.s.getD 1
    let s := if s > 1 then s / 256 else s
    .returned .Ok (st.setFanRate s)
  else if cmd.isM107 then .returned .Ok (st.setFanRate 0)
  else if cmd.isM109 then
    match cmd.s with
    | some t => .returned .Ok { st with calls := st.calls ++ [Call.setHotendTemp t] }
    | none => .returned .Ok st
  else if cmd.isM110 then .returned .Ok st
  else if cmd.isM112 then .exited 1 st
  else if cmd.isM117 then .returned .Ok st
  else if cmd.isM140 then
    match cmd.s with
    | some t => .returned .Ok { st with calls := st.calls ++ [Call.setBedTemp t] }
    | none => .returned .Ok st
  else if cmd.isTxxx then .returned .Ok st
  else .threw (unrecognizedWhat cmd) st

/-- Method `State::tendComChannel`. `pending` is the command `com.getCommand()`
yields when `com.tendCom()` is true, and `none` when `com.tendCom()` is false.
An exit or an exception inside `execute` leaves through this method. -/
def tendComChannel (st : State) (env : Env) (pending : Option Command) (com : ComRef) :
    Outcome Unit :=
  match pending with
  | none => .returned () st
  | some cmd =>
    match st.execute env cmd com with
    | .returned resp st1 =>
      if !resp.isNull then
        .returned () { st1 with calls := st1.calls ++ [Call.reply com resp] }
      else .returned () st1
    | .exited status st1 => .exited status st1
    | .threw what st1 => .threw what st1

/-- Constructor `State::State`. -/
def init (drv : Machine) (fs : FileSystem) (com : Com) (needPersistentCom : Bool) : State :=
  let st : State :=
    { _positionMode := .POS_ABSOLUTE
      _extruderPosMode := .POS_ABSOLUTE
      unitMode := .UNIT_MM
      _destXPrimitive := 0
      _destYPrimitive := 0
      _destZPrimitive := 0
      _destEPrimitive := 0
      _destMoveRatePrimitive := 0
      _hostZeroX := 0
      _hostZeroY := 0
      _hostZeroZ := 0
      _hostZeroE := 0
      _isHomed := false
      _lastMotionPlannedTime := 0
      com := Com.null
      gcodeFileStack := []
      driver := drv
      filesystem := fs
      calls := [] }
  let st := st.setDestMoveRatePrimitive st.driver.defaultMoveRate
  if needPersistentCom then { st with com := com }
  else { st with gcodeFileStack := com :: st.gcodeFileStack }

end State

/-- A file system whose relative G-code paths are already absolute. -/
def idFileSystem : FileSystem := ⟨fun p => p⟩

/-- The state a `KosselPi` starts in, reading one persistent channel. -/
def initialState : State := State.init KosselPi idFileSystem (Com.channel 0) true

/-- The planner answers that it is ready for the next move. -/
def readyEnv : Env := { readyForNextMove := true }

/-- The planner answers that it is not ready for the next move. -/
def busyEnv : Env := { readyForNextMove := false }

/-- Runs `execute` on each command in turn, every one from the source `com` and
under the answers `env`, until one does not return. -/
def runAll (env : Env) (com : ComRef) : State → List Command → State
  | st, [] => st
  | st, cmd :: rest =>
    match st.execute env cmd com with
    | .returned _ st1 => runAll env com st1 rest
    | .exited _ st1 => st1
    | .threw _ st1 => st1

/-- The command `G1 X<x>`. -/
def cmdG1X (x : ℚ) : Command := { opcode := "G1", x := some x }

/-- The command `G1 X<x> F<f>`. -/
def cmdG1XF (x f : ℚ) : Command := { opcode := "G1", x := some x, f := some f }

/-- The command `G92 X<x>`. -/
def cmdG92X (x : ℚ) : Command := { opcode := "G92", x := some x }

/-- A command that has an opcode and no parameter. -/
def cmdBare (opcode : String) : Command := { opcode := opcode }

/-- The state after `G1 X5 F600` from the initial state, the planner ready. -/
def movedToFive : State := runAll readyEnv .root initialState [cmdG1XF 5 600]

/-- The state after `G1 X5`, `G92 X0` and `G91` from the initial state: relative
mode, millimetres, at X = 5 mm with the host zero of X at 5 mm. -/
def relativeAfterRezero : State :=
  runAll readyEnv .root initialState [cmdG1X 5, cmdG92X 0, cmdBare "G91"]

/-- The state after `G20`, `G91` and `G1 X1` from the initial state: relative
mode, inches, at X = 25.4 mm with the host zero of X at 0. -/
def relativeInches : State :=
  runAll readyEnv .root initialState [cmdBare "G20", cmdBare "G91", cmdG1X 1]

/-- The initial state switched to inches by `G20`. -/
def inchState : State := runAll readyEnv .root initialState [cmdBare "G20"]

/-! ## scheduler.cpp -/

/-- Modelled from the spec: `Event` of the absent event.h, the record
(time, pin, level); `time` is what `evt.time()` returns. -/
structure Event where
  time : Int
  pin : Nat
  level : Bool
  deriving DecidableEq, Repr

/-- Class `Scheduler` as scheduler.cpp uses it. `eventQueue` has its front at
the head of the list. `consumerOwnsMutex` is whether the consumer thread owns
`mutex` through `_lockPushes`, and `consumerWaiting` whether the consumer is
inside `nonemptyCond.wait`, where it does not own the mutex. -/
structure Scheduler where
  eventQueue : List Event
  consumerOwnsMutex : Bool
  _arePushesLocked : Bool
  lastEventHandledTime : Int
  consumerWaiting : Bool
  deriving DecidableEq, Repr

namespace Scheduler

/-- Constructor `Scheduler::Scheduler`; `now` is the clock value it reads. -/
def init (now : Int) : Scheduler :=
  { eventQueue := []
    consumerOwnsMutex := false
    _arePushesLocked := false
    lastEventHandledTime := now
    consumerWaiting := false }

/-- Method `Scheduler::queue`, run by the producer; `now` is the clock value it
reads. It takes `mutex` for its whole body, so while the consumer owns the mutex
the call does not proceed: the result is `none`. -/
def queue (s : Scheduler) (now : Int) (evt : Event) : Option Scheduler :=
  if s.consumerOwnsMutex then none
  else
    some { s with
      lastEventHandledTime := if s.eventQueue.isEmpty then now else s.lastEventHandledTime
      eventQueue := s.eventQueue ++ [evt] }

/-- Method `Scheduler::nextEvent`, run by the consumer (a call, or the wake-up
of a call that waits), with `SCHED_CAPACITY` as a parameter. The consumer takes
the mutex unless `_arePushesLocked` says it has it (a wake-up from the wait
always takes it). On an empty queue it waits, which gives the mutex back, and
nothing is returned yet. Otherwise it pops the front and gives the mutex back
when fewer than `SCHED_CAPACITY` events remain. -/
def nextEvent (SCHED_CAPACITY : Nat) (s : Scheduler) : Scheduler × Option Event :=
  let s1 : Scheduler :=
    if s.consumerWaiting || !s._arePushesLocked then { s with consumerOwnsMutex := true } else s
  match s1.eventQueue with
  | [] => ({ s1 with consumerOwnsMutex := false, consumerWaiting := true }, none)
  | evt :: rest =>
    if rest.length < SCHED_CAPACITY then
      ({ eventQueue := rest
         consumerOwnsMutex := false
         _arePushesLocked := false
         lastEventHandledTime := evt.time
         consumerWaiting := false }, some evt)
    else
      ({ eventQueue := rest
         consumerOwnsMutex := s1.consumerOwnsMutex
         _arePushesLocked := true
         lastEventHandledTime := evt.time
         consumerWaiting := false }, some evt)

end Scheduler

/-- One step of the two threads: a `queue` call of the producer, or the
consumer running `nextEvent`. -/
inductive SchedOp where
  | queue (now : Int) (evt : Event)
  | nextEvent
  deriving DecidableEq, Repr

/-- The events a sequence of steps hands to `queue`, in order. -/
def queuedEvents : List SchedOp → List Event
  | [] => []
  | .queue _ evt :: ops => evt :: queuedEvents ops
  | .nextEvent :: ops => queuedEvents ops

/-- Runs a sequence of steps and collects the events `nextEvent` returns, in
order. The result is `none` when a `queue` call of the sequence finds the
mutex owned by the consumer, so that the steps cannot happen in this order. -/
def Scheduler.run (SCHED_CAPACITY : Nat) : Scheduler → List SchedOp → Option (Scheduler × List Event)
  | s, [] => some (s, [])
  | s, .queue now evt :: ops =>
    match s.queue now evt with
    | none => none
    | some s1 => Scheduler.run SCHED_CAPACITY s1 ops
  | s, .nextEvent :: ops =>
    match Scheduler.run SCHED_CAPACITY (s.nextEvent SCHED_CAPACITY).1 ops with
    | none => none
    | some (s2, out) => some (s2, (s.nextEvent SCHED_CAPACITY).2.toList ++ out)

/-- The `queue` calls for a list of (clock value, event) pairs. -/
def queueCalls (calls : List (Int × Event)) : List SchedOp :=
  calls.map (fun c => SchedOp.queue c.1 c.2)

/-- Three events whose times decrease. -/
def sampleEvents : List (Int × Event) :=
  [(0, ⟨30, 1, true⟩), (1, ⟨20, 2, false⟩), (2, ⟨10, 1, false⟩)]

/-- The Scheduler after the three `queue` calls of `sampleEvents` on a new one. -/
def sampleQueued : Scheduler :=
  { eventQueue := [⟨30, 1, true⟩, ⟨20, 2, false⟩, ⟨10, 1, false⟩]
    consumerOwnsMutex := false
    _arePushesLocked := false
    lastEventHandledTime := 0
    consumerWaiting := false }

/-- The Scheduler after the three `queue` calls of `sampleEvents` and two
`nextEvent` calls, with `SCHED_CAPACITY` = 2. -/
def sampleDrained : Scheduler :=
  { eventQueue := [⟨10, 1, false⟩]
    consumerOwnsMutex := false
    _arePushesLocked := false
    lastEventHandledTime := 20
    consumerWaiting := false }

/-! ## drivers/tempcontrol.h -/

/-- The template parameters of `TempControl` and the behaviour of the classes
behind them, which are absent: the filter and the PID controller are state
machines whose `feed` returns a value and the state afterwards. Times are in
microseconds. -/
structure TempControlParams where
  DeviceIdx : Int
  Filter : Type
  PID : Type
  filterInit : Filter
  pidInit : PID
  filterFeed : Filter → ℚ → ℚ × Filter
  pidFeed : PID → ℚ → ℚ → ℚ × PID
  heaterPwmPeriod : ℚ
  RUNNING_IN_VM : Bool

/-- A call that `TempControl` makes on its heater pin, interval timer,
thermistor or scheduler, recorded in the order made. -/
inductive TempCall where
  | heaterMakeDigitalOutputLow
  | timerClock
  | timerClockCmp
  | thermStartRead
  | schedPwm (idx : Int) (pwm : ℚ) (period : ℚ)
  deriving DecidableEq, Repr

/-- Whether a recorded call is a PWM update handed to the scheduler. -/
def TempCall.isSchedPwm : TempCall → Bool
  | .schedPwm _ _ _ => true
  | _ => false

/-- Whether a recorded call starts a thermistor read. -/
def TempCall.isStartRead : TempCall → Bool
  | .thermStartRead => true
  | _ => false

/-- What the thermistor and the clock answer during one call of `onIdleCpu`. -/
structure TempEnv where
  /-- the value of `_therm.isReady()` -/
  thermIsReady : Bool := false
  /-- the time the interval timer has measured when `clockCmp` is called -/
  latency : Int := 0
  /-- the value of `_therm.value()` -/
  thermValue : ℚ := 0
  /-- the value of `_therm.timeSinceStartRead()` -/
  timeSinceStartRead : Int := 0
  /-- the value `_intervalTimer.clock()` returns -/
  now : Int := 0

/-- Modelled from the spec: `IntervalTimer::clockCmp` of the absent
common/intervaltimer.h, "If latency exceeds the threshold, the sample is
dropped": positive when the measured latency is above the threshold. -/
def clockCmp (latency thresh : Int) : Int :=
  if latency > thresh then 1 else if latency < thresh then -1 else 0

/-- Class `drv::TempControl`: its data members, with `calls` the record of the
calls made so far on the heater pin, the timer, the thermistor and the
scheduler. -/
structure TempControl (P : TempControlParams) where
  _pid : P.PID
  _filter : P.Filter
  _destTemp : ℚ
  _lastTemp : ℚ
  _isReading : Bool
  _nextReadTime : Int
  calls : List TempCall

namespace TempControl

variable {P : TempControlParams}

/-- Constant `_intervalThresh`. -/
def _intervalThresh (P : TempControlParams) : Int :=
  if P.RUNNING_IN_VM then 2000000 else 40000

/-- Constant `_readInterval`. -/
def _readInterval : Int := 3000000

/-- Constant `_maxRead`. -/
def _maxRead : Int := 1000000

/-- Constructor `TempControl::TempControl`; `now` is the clock value it reads. -/
def init (P : TempControlParams) (now : Int) : TempControl P :=
  { _pid := P.pidInit
    _filter := P.filterInit
    _destTemp := -300
    _lastTemp := -300
    _isReading := false
    _nextReadTime := now
    calls := [TempCall.heaterMakeDigitalOutputLow] }

/-- Method `TempControl::setTargetTemperature`. -/
def setTargetTemperature (tc : TempControl P) (t : ℚ) : TempControl P :=
  { tc with _destTemp := t }

/-- Method `TempControl::getMeasuredTemperature`. -/
def getMeasuredTemperature (tc : TempControl P) : ℚ := tc._lastTemp

/-- Method `TempControl::updatePwm`. -/
def updatePwm (tc : TempControl P) : TempControl P :=
  let filtered := P.filterFeed tc._filter tc._lastTemp
  let pwm := P.pidFeed tc._pid tc._destTemp filtered.1
  { tc with
    _filter := filtered.2
    _pid := pwm.2
    calls := tc.calls ++ [TempCall.schedPwm P.DeviceIdx pwm.1 P.heaterPwmPeriod] }

/-- Method `TempControl::onIdleCpu`: the state afterwards and the value returned. -/
def onIdleCpu (tc : TempControl P) (env : TempEnv) : TempControl P × Bool :=
  if tc._isReading then
    if env.thermIsReady then
      let tc1 : TempControl P :=
        { tc with _isReading := false, calls := tc.calls ++ [TempCall.timerClockCmp] }
      if clockCmp env.latency (_intervalThresh P) > 0 then (tc1, true)
      else
        let tc2 : TempControl P := { tc1 with _lastTemp := env.thermValue }
        (tc2.updatePwm, false)
    else
      let tc1 : TempControl P := { tc with calls := tc.calls ++ [TempCall.timerClock] }
      if env.timeSinceStartRead > _maxRead then ({ tc1 with _isReading := false }, false)
      else (tc1, true)
  else
    let tc1 : TempControl P := { tc with calls := tc.calls ++ [TempCall.timerClock] }
    let now := env.now
    if tc1._nextReadTime < now then
      ({ tc1 with
          _nextReadTime := tc1._nextReadTime + _readInterval
          calls := tc1.calls ++ [TempCall.thermStartRead]
          _isReading := true }, true)
    else (tc1, false)

end TempControl

/-- A sample instantiation with `DeviceIdx` 5 as in `KosselPi`: a filter that
passes its input on and a controller whose output is setpoint minus reading. -/
def sampleParams : TempControlParams :=
  { DeviceIdx := 5
    Filter := Unit
    PID := Unit
    filterInit := ()
    pidInit := ()
    filterFeed := fun f x => (x, f)
    pidFeed := fun c setpoint value => (setpoint - value, c)
    heaterPwmPeriod := 1
    RUNNING_IN_VM := false }

/-- A control built at time 0 whose first `onIdleCpu`, at 1000 us, has started a
read: `_nextReadTime` is 3000000 us. -/
def readingControl : TempControl sampleParams :=
  ((TempControl.init sampleParams 0).onIdleCpu { now := 1000 }).1

/-- The control `readingControl` after the sample came ready with a latency of
50000 us, above the threshold of 40000 us. -/
def droppedControl : TempControl sampleParams :=
  (readingControl.onIdleCpu { thermIsReady := true, latency := 50000, thermValue := 200 }).1

/-! ## common/tupleutil.h -/

/-- Struct `__callOnAllReduce<TupleT, IdxPlusOne, ...>::operator()`. The tuple
is the list of its elements; the handler `f` gets the index and the element,
acts on a state `σ` (whatever the handlers touch) and returns its result and
the state afterwards; `r` reduces two results and `d` is the default result. -/
def __callOnAllReduce {α β σ : Type} (t : List α) (f : Nat → α → σ → β × σ)
    (r : β → β → β) (d : β) : (IdxPlusOne : Nat) → IdxPlusOne ≤ t.length → σ → β × σ
  | 0, _, s => (d, s)
  | k + 1, h, s =>
    let prev := __callOnAllReduce t f r d k (Nat.le_of_succ_le h) s
    let cur := f k (t.get ⟨k, h⟩) prev.2
    (r prev.1 cur.1, cur.2)

/-- Function `tupleReduce`: starts the recursion at `tuple_size`. -/
def tupleReduce {α β σ : Type} (t : List α) (f : Nat → α → σ → β × σ) (r : β → β → β)
    (d : β) (s : σ) : β × σ :=
  __callOnAllReduce t f r d t.length (Nat.le_refl _) s

/-- Function `tupleReduceLogicalOr`: reduces with `a || b` on two results that
are already computed, from the default `false`. -/
def tupleReduceLogicalOr {α σ : Type} (t : List α) (f : Nat → α → σ → Bool × σ) (s : σ) :
    Bool × σ :=
  tupleReduce t f (fun a b => a || b) false s

/-- The handler `f` made to record, beside what it does, each invocation: the
index it was called with and the result it gave. -/
def traced {α σ : Type} (f : Nat → α → σ → Bool × σ) :
    Nat → α → σ × List (Nat × Bool) → Bool × (σ × List (Nat × Bool)) :=
  fun i a s => ((f i a s.1).1, ((f i a s.1).2, s.2 ++ [(i, (f i a s.1).1)]))

/-- Method `State::SchedInterface::onIdleCpu`: `hardware` is
`_hardwareScheduler.onIdleCpu` and `state` is `_state.onIdleCpu`, each acting
on what it touches and returning whether it needs more CPU. -/
def SchedInterface.onIdleCpu {σ ι : Type} (hardware state : ι → σ → Bool × σ) (interval : ι)
    (s : σ) : Bool × σ :=
  let hwNeedsCpu := hardware interval s
  let stateNeedsCpu := state interval hwNeedsCpu.2
  (hwNeedsCpu.1 || stateNeedsCpu.1, stateNeedsCpu.2)

/-! ## drivers/axisstepper.h: initialising and advancing the steppers -/

/-- A stepper of a type derived from `AxisStepper`: the base-class part and the
state the derived class adds. -/
structure DerivedStepper (δ : Type) where
  base : AxisStepper
  derived : δ

/-- The arguments of the standard initializer. -/
structure MoveArgs where
  curPos : List Int
  vx : ℚ
  vy : ℚ
  vz : ℚ
  ve : ℚ

/-- What the stepper types of a tuple, which are absent, provide at each tuple
position: the time, direction and own state their two constructors leave, and
their `_nextStep`, which computes a new time, direction and own state (the
field `_index` is private to `AxisStepper`, so `_nextStep` cannot write it). -/
structure StepperTypes (δ : Type) where
  construct : Nat → MoveArgs → CFloat × StepDirection × δ
  constructHome : Nat → ℚ → CFloat × StepDirection × δ
  _nextStep : Nat → DerivedStepper δ → CFloat × StepDirection × δ

namespace StepperTypes

variable {δ : Type}

/-- The object `T(idx, curPos, vx, vy, vz, ve)` for the type `T` at position
`idx`: the base-class initializer sets `_index(idx)`. -/
def build (T : StepperTypes δ) (idx : Nat) (args : MoveArgs) : DerivedStepper δ :=
  { base := { _index := idx, time := (T.construct idx args).1,
              direction := (T.construct idx args).2.1 }
    derived := (T.construct idx args).2.2 }

/-- The object `T(idx, vHome)` for the type `T` at position `idx`. -/
def buildHome (T : StepperTypes δ) (idx : Nat) (vHome : ℚ) : DerivedStepper δ :=
  { base := { _index := idx, time := (T.constructHome idx vHome).1,
              direction := (T.constructHome idx vHome).2.1 }
    derived := (T.constructHome idx vHome).2.2 }

/-- The call `s._nextStep()` on the stepper `s` at position `pos`. -/
def applyNextStep (T : StepperTypes δ) (pos : Nat) (s : DerivedStepper δ) : DerivedStepper δ :=
  { base := { s.base with time := (T._nextStep pos s).1, direction := (T._nextStep pos s).2.1 }
    derived := (T._nextStep pos s).2.2 }

end StepperTypes

/-- A constructor call or a `_nextStep` call on the stepper at a tuple position. -/
inductive StepperCall where
  | construct (pos : Nat)
  | nextStep (pos : Nat)
  deriving DecidableEq, Repr

/-- A tuple of `n` steppers together with the record of the calls made on its
elements, in the order made. -/
abbrev Steppers (δ : Type) (n : Nat) := (Fin n → DerivedStepper δ) × List StepperCall

/-- Struct `_AxisStepper__initAxisSteppers<TupleT, MechSize, idxPlusOne>::operator()`. -/
def _AxisStepper__initAxisSteppers {δ : Type} {n : Nat} (T : StepperTypes δ) (args : MoveArgs) :
    (idxPlusOne : Nat) → idxPlusOne ≤ n → Steppers δ n → Steppers δ n
  | 0, _, st => st
  | k + 1, h, st =>
    let st1 := _AxisStepper__initAxisSteppers T args k (Nat.le_of_succ_le h) st
    let assigned := Function.update st1.1 ⟨k, h⟩ (T.build k args)
    (Function.update assigned ⟨k, h⟩ (T.applyNextStep k (assigned ⟨k, h⟩)),
      st1.2 ++ [StepperCall.construct k, StepperCall.nextStep k])

/-- Method `AxisStepper::initAxisSteppers`: starts the recursion at `tuple_size`. -/
def AxisStepper.initAxisSteppers {δ : Type} {n : Nat} (T : StepperTypes δ)
    (steppers : Fin n → DerivedStepper δ) (args : MoveArgs) : Steppers δ n :=
  _AxisStepper__initAxisSteppers T args n (Nat.le_refl n) (steppers, [])

/-- Struct `_AxisStepper__initAxisHomeSteppers<TupleT, idxPlusOne>::operator()`. -/
def _AxisStepper__initAxisHomeSteppers {δ : Type} {n : Nat} (T : StepperTypes δ) (vHome : ℚ) :
    (idxPlusOne : Nat) → idxPlusOne ≤ n → Steppers δ n → Steppers δ n
  | 0, _, st => st
  | k + 1, h, st =>
    let st1 := _AxisStepper__initAxisHomeSteppers T vHome k (Nat.le_of_succ_le h) st
    let assigned := Function.update st1.1 ⟨k, h⟩ (T.buildHome k vHome)
    (Function.update assigned ⟨k, h⟩ (T.applyNextStep k (assigned ⟨k, h⟩)),
      st1.2 ++ [StepperCall.construct k, StepperCall.nextStep k])

/-- Method `AxisStepper::initAxisHomeSteppers`: starts the recursion at `tuple_size`. -/
def AxisStepper.initAxisHomeSteppers {δ : Type} {n : Nat} (T : StepperTypes δ)
    (steppers : Fin n → DerivedStepper δ) (vHome : ℚ) : Steppers δ n :=
  _AxisStepper__initAxisHomeSteppers T vHome n (Nat.le_refl n) (steppers, [])

/-- The calls of an initialisation of the first `k` positions, in increasing
index order: construct 0, `_nextStep` 0, construct 1, `_nextStep` 1, and so on. -/
def initTrace : Nat → List StepperCall
  | 0 => []
  | k + 1 => initTrace k ++ [StepperCall.construct k, StepperCall.nextStep k]

/-- The call `std::get<pos>(steppers)._nextStep()`. -/
def stepAt {δ : Type} {n : Nat} (T : StepperTypes δ) (pos : Fin n) (st : Steppers δ n) :
    Steppers δ n :=
  (Function.update st.1 pos (T.applyNextStep pos (st.1 pos)), st.2 ++ [StepperCall.nextStep pos])

/-- Struct `_AxisStepper__nextStep<TupleT, myIdx>::operator()`. -/
def _AxisStepper__nextStep {δ : Type} {n : Nat} (T : StepperTypes δ) :
    (myIdx : Nat) → myIdx < n → (desiredIdx : Int) → Steppers δ n → Steppers δ n
  | 0, h, desiredIdx, st => if desiredIdx = 0 then stepAt T ⟨0, h⟩ st else st
  | k + 1, h, desiredIdx, st =>
    let st1 := _AxisStepper__nextStep T k (Nat.lt_of_succ_lt h) desiredIdx st
    if desiredIdx = ((k + 1 : Nat) : Int) then stepAt T ⟨k + 1, h⟩ st1 else st1

/-- Method `AxisStepper::nextStep` called on the stepper `this`: starts the
recursion at `tuple_size - 1` with `this->index()`. -/
def AxisStepper.nextStep {δ : Type} {n : Nat} (T : StepperTypes δ) (this : AxisStepper)
    (axes : Fin (n + 1) → DerivedStepper δ) : Steppers δ (n + 1) :=
  _AxisStepper__nextStep T n (Nat.lt_succ_self n) this.index (axes, [])

/-- Stepper types for samples: no state of their own, constructed with time 0,
and `_nextStep` sets the time to 2 and keeps the direction. -/
def sampleStepperTypes : StepperTypes Unit :=
  { construct := fun _ _ => (.finite 0, .StepForward, ())
    constructHome := fun _ _ => (.finite 0, .StepBackward, ())
    _nextStep := fun _ s => (.finite 2, s.base.direction, ()) }

/-- Three steppers whose `index()` is their position and whose times tie. -/
def sampleSteppers : Fin 3 → DerivedStepper Unit :=
  fun i => { base := { _index := (i : Nat), time := .finite 1, direction := .StepForward },
             derived := () }

/-- A control built at time 1000 us: no read in progress, `_nextReadTime` = 1000 us. -/
def freshControl : TempControl sampleParams := TempControl.init sampleParams 1000

/-- The command `G1 E<e>`. -/
def cmdG1E (e : ℚ) : Command := { opcode := "G1", e := some e }

/-- The command `G92 E<e>`. -/
def cmdG92E (e : ℚ) : Command := { opcode := "G92", e := some e }

/-- The state after `G90`, `M83`, `G1 E5` from the initial state with the
planner ready: position mode absolute, extruder position mode relative, and the
extruder destination at 5 mm. -/
def extrudedRelative : State :=
  runAll readyEnv .root initialState [cmdBare "G90", cmdBare "M83", cmdG1E 5]

/-- The state after `G90`, `M83`, `G1 E5`, `G20` from the initial state with the
planner ready: as `extrudedRelative`, then switched to inch unit mode. -/
def inchExtrudedRelative : State :=
  runAll readyEnv .root initialState [cmdBare "G90", cmdBare "M83", cmdG1E 5, cmdBare "G20"]

/-- Whether a recorded call is a `motionPlanner.moveTo`. -/
def Call.isMoveTo : Call → Bool
  | .moveTo _ _ _ _ _ _ _ _ => true
  | _ => false

/-- The command `M32 <path>`. -/
def cmdM32 (path : String) : Command := { opcode := "M32", filepath := path }

/-- The initial state (persistent root source) after `M32 sub.gcode` from the
root: one file on the source stack. -/
def persistentWithFile : State :=
  runAll readyEnv .root initialState [cmdM32 "sub.gcode"]

/-- The state a `KosselPi` starts in when the root source is not persistent:
the root source is the one element of the source stack. -/
def nonPersistentState : State := State.init KosselPi idFileSystem (Com.channel 0) false

/-- Four steppers: a NaN time, two positive times and a negative time. -/
def sampleAxes : Fin 4 → AxisStepper :=
  ![⟨0, .nan, .StepForward⟩, ⟨1, .finite 2, .StepForward⟩, ⟨2, .finite 1, .StepBackward⟩,
    ⟨3, .finite (-1), .StepForward⟩]

/-- Three steppers of which the first two share the smallest positive time. -/
def tiedAxes : Fin 3 → AxisStepper :=
  ![⟨0, .finite 1, .StepForward⟩, ⟨1, .finite 1, .StepForward⟩, ⟨2, .finite 3, .StepForward⟩]

/-! ## Comparisons of `CFloat` -/

namespace CFloat

theorem le_zero_not_isPositive (a : CFloat) (h : le a zero = true) : isPositive a = false := by
  cases a <;> simp_all [le, lt, zero, isPositive]

theorem isPositive_of_not_le_zero (a : CFloat) (h : le a zero = false) (hn : isnan a = false) :
    isPositive a = true := by
  cases a <;> simp_all [le, lt, zero, isPositive, isnan]

theorem isPositive_not_isnan (a : CFloat) (h : isPositive a = true) : isnan a = false := by
  cases a <;> simp_all [lt, zero, isPositive, isnan]

theorem isPositive_not_le_zero (a : CFloat) (h : isPositive a = true) : le a zero = false := by
  cases a <;> simp_all [le, lt, zero, isPositive]

theorem le_of_lt (a b : CFloat) (h : lt a b = true) : le a b = true := by
  cases a <;> cases b <;> simp_all [le, lt]
  exact h.le

theorem lt_not_isnan_left (a b : CFloat) (h : lt a b = true) : isnan a = false := by
  cases a <;> cases b <;> simp_all [lt, isnan]

theorem le_of_not_lt (a b : CFloat) (h : lt a b = false) (ha : isnan a = false)
    (hb : isnan b = false) : le b a = true := by
  cases a <;> cases b <;> simp_all [le, lt, isnan]

theorem not_le_of_lt (a b : CFloat) (h : lt a b = true) : le b a = false := by
  cases a <;> cases b <;> simp_all [le, lt]

theorem le_trans (a b c : CFloat) (hab : le a b = true) (hbc : le b c = true) :
    le a c = true := by
  cases a <;> cases b <;> cases c <;> simp_all [le]
  exact hab.trans hbc

theorem le_refl_of_not_isnan (a : CFloat) (h : isnan a = false) : le a a = true := by
  cases a <;> simp_all [le, isnan]

end CFloat

/-! ## Selection of the next stepper -/

theorem fin_le_succ_cases {n : Nat} (idx : Nat) (h : idx + 1 ≤ n) (j : Fin (n + 1))
    (hj : (j : Nat) ≤ idx + 1) :
    (j : Nat) ≤ idx ∨ j = ⟨idx + 1, Nat.lt_succ_of_le h⟩ := by
  rcases Nat.lt_or_eq_of_le hj with hlt | heq
  · exact Or.inl (Nat.le_of_lt_succ hlt)
  · exact Or.inr (Fin.ext heq)

/-- What `_AxisStepper__getNextTime<TupleT, idx>` returns lies among the first
`idx + 1` elements, and when one of these has a positive time the element
returned has a positive time, no larger than any positive time among them, and
no element after it among them has a positive time as small. -/
theorem getNextTime_prefix {n : Nat} (axes : Fin (n + 1) → AxisStepper) :
    ∀ (idx : Nat) (h : idx ≤ n),
      ((_AxisStepper__getNextTime axes idx h : Fin (n + 1)) : Nat) ≤ idx ∧
      ((∃ i : Fin (n + 1), (i : Nat) ≤ idx ∧ (axes i).time.isPositive = true) →
        (axes (_AxisStepper__getNextTime axes idx h)).time.isPositive = true ∧
        (∀ j : Fin (n + 1), (j : Nat) ≤ idx → (axes j).time.isPositive = true →
          CFloat.le (axes (_AxisStepper__getNextTime axes idx h)).time (axes j).time = true) ∧
        (∀ j : Fin (n + 1), (j : Nat) ≤ idx → (axes j).time.isPositive = true →
          CFloat.le (axes j).time (axes (_AxisStepper__getNextTime axes idx h)).time = true →
          (j : Nat) ≤ (_AxisStepper__getNextTime axes idx h : Fin (n + 1)))) := by
  intro idx
  induction idx with
  | zero =>
    intro h
    refine ⟨Nat.le_refl 0, ?_⟩
    rintro ⟨i, hi, hpos⟩
    have hi0 : i = (⟨0, Nat.succ_pos n⟩ : Fin (n + 1)) := Fin.ext (Nat.le_zero.mp hi)
    have key : ∀ j : Fin (n + 1), (j : Nat) ≤ 0 → j = (⟨0, Nat.succ_pos n⟩ : Fin (n + 1)) :=
      fun j hj => Fin.ext (Nat.le_zero.mp hj)
    simp only [_AxisStepper__getNextTime]
    refine ⟨hi0 ▸ hpos, ?_, ?_⟩
    · intro j hj hjpos
      rw [key j hj]
      exact CFloat.le_refl_of_not_isnan _ (CFloat.isPositive_not_isnan _ (hi0 ▸ hpos))
    · intro j hj _ _
      rw [key j hj]
  | succ idx ih =>
    intro h
    obtain ⟨hr, ihr⟩ := ih (Nat.le_of_succ_le h)
    have split := fin_le_succ_cases idx h
    simp only [_AxisStepper__getNextTime]
    generalize _AxisStepper__getNextTime axes idx (Nat.le_of_succ_le h) = r at hr ihr ⊢
    by_cases c1 : CFloat.le (axes r).time CFloat.zero = true
    · -- the earlier elements hold no positive time
      rw [if_pos c1]
      have none_before : ∀ j : Fin (n + 1), (j : Nat) ≤ idx →
          (axes j).time.isPositive = true → False := by
        intro j hj hjpos
        have := (ihr ⟨j, hj, hjpos⟩).1
        rw [CFloat.le_zero_not_isPositive _ c1] at this
        exact Bool.false_ne_true this
      refine ⟨Nat.le_refl _, ?_⟩
      rintro ⟨i, hi, hpos⟩
      have him : i = ⟨idx + 1, Nat.lt_succ_of_le h⟩ := by
        rcases split i hi with hlt | heq
        · exact (none_before i hlt hpos).elim
        · exact heq
      refine ⟨him ▸ hpos, ?_, ?_⟩
      · intro j hj hjpos
        rcases split j hj with hlt | heq
        · exact (none_before j hlt hjpos).elim
        · rw [heq]
          exact CFloat.le_refl_of_not_isnan _ (CFloat.isPositive_not_isnan _ (him ▸ hpos))
      · intro j hj _ _
        exact hj
    · rw [if_neg c1]
      have c1f : CFloat.le (axes r).time CFloat.zero = false := by
        simpa using c1
      by_cases c2 : CFloat.le (axes ⟨idx + 1, Nat.lt_succ_of_le h⟩).time CFloat.zero = true
      · -- the new element has no positive time
        rw [if_pos c2]
        have m2np := CFloat.le_zero_not_isPositive _ c2
        have before : ∀ j : Fin (n + 1), (j : Nat) ≤ idx + 1 →
            (axes j).time.isPositive = true → (j : Nat) ≤ idx := by
          intro j hj hjpos
          rcases split j hj with hlt | heq
          · exact hlt
          · rw [heq, m2np] at hjpos
            exact (Bool.false_ne_true hjpos).elim
        refine ⟨Nat.le_succ_of_le hr, ?_⟩
        rintro ⟨i, hi, hpos⟩
        obtain ⟨p1, p2, p3⟩ := ihr ⟨i, before i hi hpos, hpos⟩
        exact ⟨p1, fun j hj hjpos => p2 j (before j hj hjpos) hjpos,
          fun j hj hjpos hle => p3 j (before j hj hjpos) hjpos hle⟩
      · rw [if_neg c2]
        have c2f : CFloat.le (axes ⟨idx + 1, Nat.lt_succ_of_le h⟩).time CFloat.zero = false := by
          simpa using c2
        by_cases c3 : (CFloat.lt (axes r).time (axes ⟨idx + 1, Nat.lt_succ_of_le h⟩).time ||
            CFloat.isnan (axes ⟨idx + 1, Nat.lt_succ_of_le h⟩).time) = true
        · rw [if_pos c3]
          refine ⟨Nat.le_succ_of_le hr, ?_⟩
          rcases Bool.or_eq_true _ _ ▸ c3 with hlt | hnan
          · -- both times are positive and the earlier one is strictly smaller
            have rpos : (axes r).time.isPositive = true :=
              CFloat.isPositive_of_not_le_zero _ c1f (CFloat.lt_not_isnan_left _ _ hlt)
            obtain ⟨p1, p2, p3⟩ := ihr ⟨r, hr, rpos⟩
            intro _
            refine ⟨p1, ?_, ?_⟩
            · intro j hj hjpos
              rcases split j hj with hjl | heq
              · exact p2 j hjl hjpos
              · rw [heq]
                exact CFloat.le_of_lt _ _ hlt
            · intro j hj hjpos hle
              rcases split j hj with hjl | heq
              · exact p3 j hjl hjpos hle
              · rw [heq, CFloat.not_le_of_lt _ _ hlt] at hle
                exact (Bool.false_ne_true hle).elim
          · -- the new element is NaN
            have before : ∀ j : Fin (n + 1), (j : Nat) ≤ idx + 1 →
                (axes j).time.isPositive = true → (j : Nat) ≤ idx := by
              intro j hj hjpos
              rcases split j hj with hjl | heq
              · exact hjl
              · rw [heq] at hjpos
                have := CFloat.isPositive_not_isnan _ hjpos
                rw [hnan] at this
                exact (Bool.false_ne_true this.symm).elim
            rintro ⟨i, hi, hpos⟩
            obtain ⟨p1, p2, p3⟩ := ihr ⟨i, before i hi hpos, hpos⟩
            exact ⟨p1, fun j hj hjpos => p2 j (before j hj hjpos) hjpos,
              fun j hj hjpos hle => p3 j (before j hj hjpos) hjpos hle⟩
        · -- the new element is positive and not larger than the earlier choice
          rw [if_neg c3]
          have c3f : (CFloat.lt (axes r).time (axes ⟨idx + 1, Nat.lt_succ_of_le h⟩).time ||
            CFloat.isnan (axes ⟨idx + 1, Nat.lt_succ_of_le h⟩).time) = false := by
            simpa using c3
          obtain ⟨nlt, nnan⟩ := Bool.or_eq_false_iff.mp c3f
          have m2pos := CFloat.isPositive_of_not_le_zero _ c2f nnan
          refine ⟨Nat.le_refl _, fun _ => ⟨m2pos, ?_, fun j hj _ _ => hj⟩⟩
          intro j hj hjpos
          rcases split j hj with hjl | heq
          · obtain ⟨p1, p2, _⟩ := ihr ⟨j, hjl, hjpos⟩
            exact CFloat.le_trans _ _ _
              (CFloat.le_of_not_lt _ _ nlt (CFloat.isPositive_not_isnan _ p1) nnan) (p2 j hjl hjpos)
          · rw [heq]
            exact CFloat.le_refl_of_not_isnan _ nnan

/-- C1: when some stepper of the tuple has a positive, non-NaN time,
`AxisStepper::getNextTime` returns a stepper whose time is positive and not NaN
(so neither NaN nor `<= 0`), and that time is `<=` the time of every stepper
with a positive non-NaN time. -/
theorem getNextTime_min_positive {n : Nat} (axes : Fin (n + 1) → AxisStepper)
    (h : ∃ i, (axes i).time.isPositive = true ∧ (axes i).time.isnan = false) :
    (axes (AxisStepper.getNextTime axes)).time.isPositive = true ∧
    (axes (AxisStepper.getNextTime axes)).time.isnan = false ∧
    CFloat.le (axes (AxisStepper.getNextTime axes)).time CFloat.zero = false ∧
    ∀ j, (axes j).time.isPositive = true ∧ (axes j).time.isnan = false →
      CFloat.le (axes (AxisStepper.getNextTime axes)).time (axes j).time = true := by
  obtain ⟨i, hi, _⟩ := h
  obtain ⟨_, hspec⟩ := getNextTime_prefix axes n (Nat.le_refl n)
  obtain ⟨p1, p2, _⟩ := hspec ⟨i, Nat.le_of_lt_succ i.isLt, hi⟩
  exact ⟨p1, CFloat.isPositive_not_isnan _ p1, CFloat.isPositive_not_le_zero _ p1,
    fun j hj => p2 j (Nat.le_of_lt_succ j.isLt) hj.1⟩

theorem getNextTime_min_positive_witness :
    (∃ i, (sampleAxes i).time.isPositive = true ∧ (sampleAxes i).time.isnan = false) ∧
    (sampleAxes (AxisStepper.getNextTime sampleAxes)).time.isPositive = true ∧
    (sampleAxes (AxisStepper.getNextTime sampleAxes)).time.isnan = false ∧
    CFloat.le (sampleAxes (AxisStepper.getNextTime sampleAxes)).time CFloat.zero = false ∧
    ∀ j, (sampleAxes j).time.isPositive = true ∧ (sampleAxes j).time.isnan = false →
      CFloat.le (sampleAxes (AxisStepper.getNextTime sampleAxes)).time (sampleAxes j).time = true :=
  ⟨⟨1, by decide⟩, getNextTime_min_positive sampleAxes ⟨1, by decide⟩⟩

/-- C2, as stated, fails: in `tiedAxes` the steppers at positions 0 and 1 share
the smallest positive time, and `AxisStepper::getNextTime` returns position 1,
not the lowest position 0. -/
theorem getNextTime_tie_not_lowest :
    (tiedAxes 0).time = (tiedAxes 1).time ∧
    (tiedAxes 0).time.isPositive = true ∧
    (∀ j, (tiedAxes j).time.isPositive = true →
      CFloat.le (tiedAxes 0).time (tiedAxes j).time = true) ∧
    AxisStepper.getNextTime tiedAxes = 1 ∧
    AxisStepper.getNextTime tiedAxes ≠ 0 := by
  decide

/-- C2, amended: when the stepper at position `j` holds the smallest positive
time of the tuple, `AxisStepper::getNextTime` returns a stepper that holds the
same time (each is `<=` the other) at a position not below `j`: among the
steppers that share the smallest positive time it returns the one with the
highest tuple index. -/
theorem getNextTime_tie_highest {n : Nat} (axes : Fin (n + 1) → AxisStepper) (j : Fin (n + 1))
    (hpos : (axes j).time.isPositive = true)
    (hmin : ∀ k, (axes k).time.isPositive = true → CFloat.le (axes j).time (axes k).time = true) :
    CFloat.le (axes j).time (axes (AxisStepper.getNextTime axes)).time = true ∧
    CFloat.le (axes (AxisStepper.getNextTime axes)).time (axes j).time = true ∧
    j ≤ AxisStepper.getNextTime axes := by
  obtain ⟨_, hspec⟩ := getNextTime_prefix axes n (Nat.le_refl n)
  obtain ⟨p1, p2, p3⟩ := hspec ⟨j, Nat.le_of_lt_succ j.isLt, hpos⟩
  have hjr := hmin _ p1
  exact ⟨hjr, p2 j (Nat.le_of_lt_succ j.isLt) hpos,
    Fin.le_def.mpr (p3 j (Nat.le_of_lt_succ j.isLt) hpos hjr)⟩

theorem getNextTime_tie_highest_witness :
    (tiedAxes 0).time.isPositive = true ∧
    (∀ k, (tiedAxes k).time.isPositive = true →
      CFloat.le (tiedAxes 0).time (tiedAxes k).time = true) ∧
    CFloat.le (tiedAxes 0).time (tiedAxes (AxisStepper.getNextTime tiedAxes)).time = true ∧
    CFloat.le (tiedAxes (AxisStepper.getNextTime tiedAxes)).time (tiedAxes 0).time = true ∧
    (0 : Fin 3) ≤ AxisStepper.getNextTime tiedAxes :=
  ⟨by decide, by decide, getNextTime_tie_highest tiedAxes 0 (by decide) (by decide)⟩

/-! ## The G-code interpreter -/

/-- In the G0/G1 branch with the planner ready, an `X` parameter becomes the X
destination through `xUnitToPrimitive`, read in the state before the call. -/
theorem execute_move_destX (st : State) (env : Env) (cmd : Command) (com : ComRef)
    (hop : (cmd.isG0 || cmd.isG1) = true) (hready : env.readyForNextMove = true)
    (a : ℚ) (hx : cmd.x = some a) :
    (st.execute env cmd com).state.destXPrimitive = st.xUnitToPrimitive a := by
  unfold State.execute
  rw [if_pos hop]
  cases hh : (!st._isHomed && st.driver.doHomeBeforeFirstMovement) <;>
  cases hf : cmd.f <;>
  simp [hready, hx, Outcome.state, State.queueMovement, State.destXPrimitive,
    State.setDestMoveRatePrimitive, State.homeEndstops, State.xUnitToPrimitive,
    State.xUnitToAbsolute, State.posUnitToMM, State.positionMode]

/-- In the G0/G1 branch with the planner ready, an `F` parameter becomes the
move rate through `fUnitToPrimitive` and the clamp of the machine. -/
theorem execute_move_rate (st : State) (env : Env) (cmd : Command) (com : ComRef)
    (hop : (cmd.isG0 || cmd.isG1) = true) (hready : env.readyForNextMove = true)
    (f : ℚ) (hf : cmd.f = some f) :
    (st.execute env cmd com).state.destMoveRatePrimitive =
      st.driver.clampMoveRate (st.fUnitToPrimitive f) := by
  unfold State.execute
  rw [if_pos hop]
  cases hh : (!st._isHomed && st.driver.doHomeBeforeFirstMovement) <;>
  simp [hready, hf, Outcome.state, State.queueMovement, State.destMoveRatePrimitive,
    State.setDestMoveRatePrimitive, State.homeEndstops, State.fUnitToPrimitive,
    State.posUnitToMM]

/-- The G0/G1 branch leaves the modes, the unit, the host-zero offsets and the
machine as they were, whether or not the planner is ready. -/
theorem execute_move_frame (st : State) (env : Env) (cmd : Command) (com : ComRef)
    (hop : (cmd.isG0 || cmd.isG1) = true) :
    (st.execute env cmd com).state._positionMode = st._positionMode ∧
    (st.execute env cmd com).state._extruderPosMode = st._extruderPosMode ∧
    (st.execute env cmd com).state.unitMode = st.unitMode ∧
    (st.execute env cmd com).state._hostZeroX = st._hostZeroX ∧
    (st.execute env cmd com).state._hostZeroY = st._hostZeroY ∧
    (st.execute env cmd com).state._hostZeroZ = st._hostZeroZ ∧
    (st.execute env cmd com).state._hostZeroE = st._hostZeroE ∧
    (st.execute env cmd com).state.driver = st.driver := by
  unfold State.execute
  rw [if_pos hop]
  cases hh : (!st._isHomed && st.driver.doHomeBeforeFirstMovement) <;>
  cases hr : env.readyForNextMove <;>
  cases hf : cmd.f <;>
  simp [Outcome.state, State.queueMovement, State.setDestMoveRatePrimitive, State.homeEndstops]

/-- In the G0/G1 branch with the planner not ready, the call returns `Null` and
the destination and the move rate stay as they were. -/
theorem execute_move_busy (st : State) (env : Env) (cmd : Command) (com : ComRef)
    (hop : (cmd.isG0 || cmd.isG1) = true) (hready : env.readyForNextMove = false) :
    (st.execute env cmd com).value? = some Response.Null ∧
    (st.execute env cmd com).state.destXPrimitive = st.destXPrimitive ∧
    (st.execute env cmd com).state.destMoveRatePrimitive = st.destMoveRatePrimitive := by
  unfold State.execute
  rw [if_pos hop]
  cases hh : (!st._isHomed && st.driver.doHomeBeforeFirstMovement) <;>
  simp [hready, Outcome.state, Outcome.value?, State.homeEndstops, State.destXPrimitive,
    State.destMoveRatePrimitive]

/-- The steps of `runAll`. -/
theorem runAll_nil (env : Env) (com : ComRef) (st : State) : runAll env com st [] = st := rfl

theorem runAll_cons_returned (env : Env) (com : ComRef) (st st1 : State) (cmd : Command)
    (rest : List Command) (resp : Response)
    (h : st.execute env cmd com = .returned resp st1) :
    runAll env com st (cmd :: rest) = runAll env com st1 rest := by
  simp [runAll, h]

/-- C3, the code at an input the claim covers. `extrudedRelative` is reached by
`G90`, `M83`, `G1 E5`: position mode absolute, extruder position mode relative,
extruder destination 5. `execute(G92 E0)` returns Ok and leaves the destination
at 5, and sets `_hostZeroE` = 5 - 0; but `eUnitToPrimitive` reads the extruder's
own mode (`eUnitToAbsolute` switches on `extruderPosMode()`), so in the new
state `eUnitToPrimitive(0)` = (0 + 5) + 5 = 10, not `destEPrimitive()` = 5. -/
theorem G92_E_not_read_back_in_relative_extruder_mode :
    extrudedRelative.positionMode = .POS_ABSOLUTE ∧
    extrudedRelative.extruderPosMode = .POS_RELATIVE ∧
    extrudedRelative.destEPrimitive = 5 ∧
    (extrudedRelative.execute readyEnv (cmdG92E 0) .root).value? = some Response.Ok ∧
    (extrudedRelative.execute readyEnv (cmdG92E 0) .root).state.destEPrimitive = 5 ∧
    (extrudedRelative.execute readyEnv (cmdG92E 0) .root).state._hostZeroE = 5 ∧
    (extrudedRelative.execute readyEnv (cmdG92E 0) .root).state.eUnitToPrimitive 0 = 10 ∧
    (extrudedRelative.execute readyEnv (cmdG92E 0) .root).state.eUnitToPrimitive 0 ≠
      (extrudedRelative.execute readyEnv (cmdG92E 0) .root).state.destEPrimitive := by
  simp [extrudedRelative, runAll, State.execute, Command.isG0, Command.isG1, Command.isG20,
    Command.isG21, Command.isG28, Command.isG90, Command.isG91, Command.isG92, Command.isM0,
    Command.isM17, Command.isM18, Command.isM21, Command.isM32, Command.isM82, Command.isM83,
    Command.hasAnyXYZEParam, Command.hasX, Command.hasY, Command.hasZ, Command.hasE,
    State.init, initialState, readyEnv, State.homeEndstops, State.queueMovement,
    KosselPi, cmdG1E, cmdG92E, cmdBare, State.setDestMoveRatePrimitive, State.xUnitToPrimitive,
    State.yUnitToPrimitive, State.zUnitToPrimitive, State.eUnitToPrimitive,
    State.fUnitToPrimitive, State.posUnitToMM, State.xUnitToAbsolute, State.yUnitToAbsolute,
    State.zUnitToAbsolute, State.eUnitToAbsolute, State.positionMode, State.extruderPosMode,
    State.destXPrimitive, State.destYPrimitive, State.destZPrimitive, State.destEPrimitive,
    State.destMoveRatePrimitive, State.setHostZeroPos, State.setUnitMode,
    State.setPositionMode, State.setExtruderPosMode, State.maxTime, Outcome.state,
    Outcome.value?, std_min, MAX_MOVE_RATE, HOME_RATE, MAX_EXT_RATE, MM_PER_IN]
  norm_num

/-- C3, amended: in absolute position mode `execute(G92 ...)` returns Ok and leaves the
four destination primitives as they were, and for each of X, Y, Z given in the
command with value `a` the new state reads the current position as `a`:
`xUnitToPrimitive(a)` in the new state equals `destXPrimitive()`. The same holds
for E, whose mode is `extruderPosMode` (absolute after `G90`, which sets both
modes). From the initial state, `G1 X5 F600`, `G92 X0`, `G1 X5 F600` leaves
`destXPrimitive = 10`. -/
theorem G92_reads_current_position_as_given (st : State) (env : Env) (cmd : Command)
    (com : ComRef) (hop : cmd.opcode = "G92") (hp : st.positionMode = .POS_ABSOLUTE) :
    (st.execute env cmd com).value? = some Response.Ok ∧
    (st.execute env cmd com).state.destXPrimitive = st.destXPrimitive ∧
    (st.execute env cmd com).state.destYPrimitive = st.destYPrimitive ∧
    (st.execute env cmd com).state.destZPrimitive = st.destZPrimitive ∧
    (st.execute env cmd com).state.destEPrimitive = st.destEPrimitive ∧
    (∀ a, cmd.x = some a → (st.execute env cmd com).state.xUnitToPrimitive a =
      (st.execute env cmd com).state.destXPrimitive) ∧
    (∀ a, cmd.y = some a → (st.execute env cmd com).state.yUnitToPrimitive a =
      (st.execute env cmd com).state.destYPrimitive) ∧
    (∀ a, cmd.z = some a → (st.execute env cmd com).state.zUnitToPrimitive a =
      (st.execute env cmd com).state.destZPrimitive) ∧
    (st.extruderPosMode = .POS_ABSOLUTE → ∀ a, cmd.e = some a →
      (st.execute env cmd com).state.eUnitToPrimitive a =
        (st.execute env cmd com).state.destEPrimitive) ∧
    (∀ (fs : FileSystem) (c : Com) (b : Bool),
      (runAll readyEnv .root (State.init KosselPi fs c b)
        [cmdG1XF 5 600, cmdG92X 0, cmdG1XF 5 600]).destXPrimitive = 10) := by
  have hp1 : st._positionMode = .POS_ABSOLUTE := hp
  have branch : st.execute env cmd com = .returned .Ok
      (if !cmd.hasAnyXYZEParam then
        st.setHostZeroPos (st.posUnitToMM 0) (st.posUnitToMM 0) (st.posUnitToMM 0)
          (st.posUnitToMM 0)
      else st.setHostZeroPos
        (match cmd.x with
          | some x => st.posUnitToMM x
          | none => st.destXPrimitive - st._hostZeroX)
        (match cmd.y with
          | some y => st.posUnitToMM y
          | none => st.destYPrimitive - st._hostZeroY)
        (match cmd.z with
          | some z => st.posUnitToMM z
          | none => st.destZPrimitive - st._hostZeroZ)
        (match cmd.e with
          | some e => st.posUnitToMM e
          | none => st.destEPrimitive - st._hostZeroE)) := by
    have e0 : cmd.isG0 = false := by simp [Command.isG0, hop]
    have e1 : cmd.isG1 = false := by simp [Command.isG1, hop]
    have e2 : cmd.isG20 = false := by simp [Command.isG20, hop]
    have e3 : cmd.isG21 = false := by simp [Command.isG21, hop]
    have e4 : cmd.isG28 = false := by simp [Command.isG28, hop]
    have e5 : cmd.isG90 = false := by simp [Command.isG90, hop]
    have e6 : cmd.isG91 = false := by simp [Command.isG91, hop]
    have e7 : cmd.isG92 = true := by simp [Command.isG92, hop]
    unfold State.execute
    simp only [e0, e1, e2, e3, e4, e5, e6, e7, Bool.or_false, Bool.false_eq_true, if_false,
      if_true]
    split_ifs <;> rfl
  rw [branch]
  refine ⟨rfl, ?_, ?_, ?_, ?_, ?_, ?_, ?_, ?_, ?_⟩
  · split_ifs <;> rfl
  · split_ifs <;> rfl
  · split_ifs <;> rfl
  · split_ifs <;> rfl
  · intro a ha
    simp [Outcome.state, Command.hasAnyXYZEParam, Command.hasX, ha, State.setHostZeroPos,
      State.xUnitToPrimitive, State.xUnitToAbsolute, State.posUnitToMM, State.positionMode,
      State.destXPrimitive, hp1]
  · intro a ha
    simp [Outcome.state, Command.hasAnyXYZEParam, Command.hasY, ha, State.setHostZeroPos,
      State.yUnitToPrimitive, State.yUnitToAbsolute, State.posUnitToMM, State.positionMode,
      State.destYPrimitive, hp1]
  · intro a ha
    simp [Outcome.state, Command.hasAnyXYZEParam, Command.hasZ, ha, State.setHostZeroPos,
      State.zUnitToPrimitive, State.zUnitToAbsolute, State.posUnitToMM, State.positionMode,
      State.destZPrimitive, hp1]
  · intro he a ha
    have he1 : st._extruderPosMode = .POS_ABSOLUTE := he
    simp [Outcome.state, Command.hasAnyXYZEParam, Command.hasE, ha, State.setHostZeroPos,
      State.eUnitToPrimitive, State.eUnitToAbsolute, State.posUnitToMM, State.extruderPosMode,
      State.destEPrimitive, he1]
  · intro fs c b
    cases b <;>
    simp [runAll, State.execute, Command.isG0, Command.isG1, Command.isG20, Command.isG21,
      Command.isG28, Command.isG90, Command.isG91, Command.isG92, Command.hasAnyXYZEParam,
      Command.hasX, State.init, readyEnv, State.homeEndstops, State.queueMovement, KosselPi,
      cmdG1XF, cmdG92X, State.setDestMoveRatePrimitive, State.xUnitToPrimitive,
      State.posUnitToMM, State.xUnitToAbsolute, State.positionMode, State.destXPrimitive,
      State.setHostZeroPos] <;>
    norm_num

theorem G92_reads_current_position_as_given_witness :
    movedToFive.positionMode = .POS_ABSOLUTE ∧
    movedToFive.destXPrimitive = 5 ∧
    (movedToFive.execute readyEnv (cmdG92X 0) .root).state.destXPrimitive =
      movedToFive.destXPrimitive ∧
    (movedToFive.execute readyEnv (cmdG92X 0) .root).state.xUnitToPrimitive 0 =
      (movedToFive.execute readyEnv (cmdG92X 0) .root).state.destXPrimitive :=
  have hp : movedToFive.positionMode = .POS_ABSOLUTE := by
    simp [movedToFive, runAll, State.execute, Command.isG0, Command.isG1, cmdG1XF, readyEnv,
      initialState, State.init, State.positionMode, State.queueMovement, State.homeEndstops,
      State.setDestMoveRatePrimitive, KosselPi]
  have hd : movedToFive.destXPrimitive = 5 := by
    simp [movedToFive, runAll, State.execute, Command.isG0, Command.isG1, cmdG1XF, readyEnv,
      initialState, State.init, State.positionMode, State.queueMovement, State.homeEndstops,
      State.setDestMoveRatePrimitive, State.destXPrimitive, State.xUnitToPrimitive,
      State.xUnitToAbsolute, State.posUnitToMM, KosselPi]
  have h := G92_reads_current_position_as_given movedToFive readyEnv (cmdG92X 0) .root rfl hp
  ⟨hp, hd, h.2.1, h.2.2.2.2.2.1 0 rfl⟩

/-- C4, the code at two inputs the claim covers. In `relativeAfterRezero`
(relative mode, millimetres, X at 5 mm, host zero of X at 5 mm) `G1 X1` sets
`destXPrimitive` to 11, not to 5 + 1: `xUnitToPrimitive` adds the host-zero
offset to a sum that already holds the primitive destination. In
`relativeInches` (relative mode, inches, X at 25.4 mm) `G1 X1` sets it to
25.4 * (1 + 25.4) = 670.56, not to 25.4 + 25.4: the previous destination, in
millimetres, is scaled as if it were inches. From the initial state, `G91`
followed by `G1 X10` twice does leave `destX = 20`. -/
theorem relative_move_adds_offset_and_rescales :
    relativeAfterRezero.positionMode = .POS_RELATIVE ∧
    relativeAfterRezero.unitMode = .UNIT_MM ∧
    relativeAfterRezero.destXPrimitive = 5 ∧
    relativeAfterRezero._hostZeroX = 5 ∧
    (relativeAfterRezero.execute readyEnv (cmdG1X 1) .root).state.destXPrimitive = 11 ∧
    relativeInches.positionMode = .POS_RELATIVE ∧
    relativeInches.unitMode = .UNIT_IN ∧
    relativeInches.destXPrimitive = 127 / 5 ∧
    relativeInches._hostZeroX = 0 ∧
    (relativeInches.execute readyEnv (cmdG1X 1) .root).state.destXPrimitive = 16764 / 25 ∧
    (runAll readyEnv .root initialState
      [cmdBare "G91", cmdG1X 10, cmdG1X 10]).destXPrimitive = 20 := by
  refine ⟨?_, ?_, ?_, ?_, ?_, ?_, ?_, ?_, ?_, ?_, ?_⟩ <;>
  simp [relativeAfterRezero, relativeInches, runAll, State.execute, Command.isG0, Command.isG1, Command.isG20, Command.isG21,
    Command.isG28, Command.isG90, Command.isG91, Command.isG92, Command.hasAnyXYZEParam,
    Command.hasX, Command.hasY, Command.hasZ, Command.hasE, State.init, initialState, readyEnv,
    busyEnv, State.homeEndstops, State.queueMovement, KosselPi, cmdG1X, cmdG1XF, cmdG92X, cmdBare,
    State.setDestMoveRatePrimitive, State.xUnitToPrimitive, State.fUnitToPrimitive,
    State.posUnitToMM, State.xUnitToAbsolute, State.positionMode, State.destXPrimitive,
    State.destYPrimitive, State.destZPrimitive, State.destEPrimitive,
    State.destMoveRatePrimitive, State.setHostZeroPos, State.setUnitMode, State.setPositionMode,
    State.setExtruderPosMode, State.maxTime, Outcome.state, Outcome.value?, std_min,
    MAX_MOVE_RATE, HOME_RATE, MAX_EXT_RATE, MM_PER_IN] <;>
  norm_num

/-- C5: in absolute position mode with the planner ready, `execute(G1 X a)` (or
`G0`) sets `destXPrimitive` to `posUnitToMM(a) + hostZeroX`, whatever the
previous X destination was, so a second execution of the same command leaves
`destX` as the first left it. From the initial state, `G90` followed by `G1 X10`
twice leaves `destX = 10`. -/
theorem absolute_move_ignores_previous_destination (st : State) (env env2 : Env)
    (cmd : Command) (com com2 : ComRef) (a : ℚ)
    (hop : (cmd.isG0 || cmd.isG1) = true) (hx : cmd.x = some a)
    (hp : st.positionMode = .POS_ABSOLUTE)
    (hready : env.readyForNextMove = true) (hready2 : env2.readyForNextMove = true) :
    (st.execute env cmd com).state.destXPrimitive = st.posUnitToMM a + st._hostZeroX ∧
    (∀ d : ℚ, ({ st with _destXPrimitive := d }.execute env cmd com).state.destXPrimitive =
      (st.execute env cmd com).state.destXPrimitive) ∧
    ((st.execute env cmd com).state.execute env2 cmd com2).state.destXPrimitive =
      (st.execute env cmd com).state.destXPrimitive ∧
    (∀ (fs : FileSystem) (c : Com) (b : Bool),
      (runAll readyEnv .root (State.init KosselPi fs c b)
        [cmdBare "G90", cmdG1X 10, cmdG1X 10]).destXPrimitive = 10) := by
  have hp1 : st._positionMode = .POS_ABSOLUTE := hp
  have first : (st.execute env cmd com).state.destXPrimitive =
      st.posUnitToMM a + st._hostZeroX := by
    rw [execute_move_destX st env cmd com hop hready a hx]
    simp [State.xUnitToPrimitive, State.xUnitToAbsolute, State.positionMode, hp1]
  obtain ⟨f1, _, f3, f4, _, _, _, _⟩ := execute_move_frame st env cmd com hop
  refine ⟨first, ?_, ?_, ?_⟩
  · intro d
    rw [first, execute_move_destX _ env cmd com hop hready a hx]
    simp [State.xUnitToPrimitive, State.xUnitToAbsolute, State.positionMode, hp1,
      State.posUnitToMM]
  · rw [execute_move_destX _ env2 cmd com2 hop hready2 a hx, first]
    simp [State.xUnitToPrimitive, State.xUnitToAbsolute, State.positionMode, hp1,
      State.posUnitToMM, f1, f3, f4]
  · intro fs c b
    cases b <;> simp [runAll, State.execute, Command.isG0, Command.isG1, Command.isG20, Command.isG21,
    Command.isG28, Command.isG90, Command.isG91, Command.isG92, Command.hasAnyXYZEParam,
    Command.hasX, Command.hasY, Command.hasZ, Command.hasE, State.init, initialState, readyEnv,
    busyEnv, State.homeEndstops, State.queueMovement, KosselPi, cmdG1X, cmdG1XF, cmdG92X, cmdBare,
    State.setDestMoveRatePrimitive, State.xUnitToPrimitive, State.fUnitToPrimitive,
    State.posUnitToMM, State.xUnitToAbsolute, State.positionMode, State.destXPrimitive,
    State.destYPrimitive, State.destZPrimitive, State.destEPrimitive,
    State.destMoveRatePrimitive, State.setHostZeroPos, State.setUnitMode, State.setPositionMode,
    State.setExtruderPosMode, State.maxTime, Outcome.state, Outcome.value?, std_min,
    MAX_MOVE_RATE, HOME_RATE, MAX_EXT_RATE, MM_PER_IN]

theorem absolute_move_ignores_previous_destination_witness :
    (((cmdG1X 10).isG0 || (cmdG1X 10).isG1) = true) ∧
    movedToFive.positionMode = .POS_ABSOLUTE ∧
    readyEnv.readyForNextMove = true ∧
    (movedToFive.execute readyEnv (cmdG1X 10) .root).state.destXPrimitive =
      movedToFive.posUnitToMM 10 + movedToFive._hostZeroX ∧
    ((movedToFive.execute readyEnv (cmdG1X 10) .root).state.execute readyEnv (cmdG1X 10)
      .root).state.destXPrimitive =
      (movedToFive.execute readyEnv (cmdG1X 10) .root).state.destXPrimitive :=
  have hp : movedToFive.positionMode = .POS_ABSOLUTE := by
    simp [movedToFive, runAll, State.execute, Command.isG0, Command.isG1, Command.isG20, Command.isG21,
    Command.isG28, Command.isG90, Command.isG91, Command.isG92, Command.hasAnyXYZEParam,
    Command.hasX, Command.hasY, Command.hasZ, Command.hasE, State.init, initialState, readyEnv,
    busyEnv, State.homeEndstops, State.queueMovement, KosselPi, cmdG1X, cmdG1XF, cmdG92X, cmdBare,
    State.setDestMoveRatePrimitive, State.xUnitToPrimitive, State.fUnitToPrimitive,
    State.posUnitToMM, State.xUnitToAbsolute, State.positionMode, State.destXPrimitive,
    State.destYPrimitive, State.destZPrimitive, State.destEPrimitive,
    State.destMoveRatePrimitive, State.setHostZeroPos, State.setUnitMode, State.setPositionMode,
    State.setExtruderPosMode, State.maxTime, Outcome.state, Outcome.value?, std_min,
    MAX_MOVE_RATE, HOME_RATE, MAX_EXT_RATE, MM_PER_IN]
  have h := absolute_move_ignores_previous_destination movedToFive readyEnv readyEnv
    (cmdG1X 10) .root .root 10 (by decide) rfl hp rfl rfl
  ⟨by decide, hp, rfl, h.1, h.2.2.1⟩

/-- C6, as stated, fails: from the initial state, after `G20` and `G1 X1 F60`
with the planner ready, the move rate handed to the planner is 25.4 mm/s, not
1 mm/s. -/
theorem inch_feed_rate_is_not_one :
    (runAll readyEnv .root initialState [cmdBare "G20", cmdG1XF 1 60]).destXPrimitive = 127 / 5 ∧
    (runAll readyEnv .root initialState
      [cmdBare "G20", cmdG1XF 1 60]).destMoveRatePrimitive = 127 / 5 ∧
    (runAll readyEnv .root initialState
      [cmdBare "G20", cmdG1XF 1 60]).destMoveRatePrimitive ≠ 1 := by
  refine ⟨?_, ?_, ?_⟩ <;> simp [runAll, State.execute, Command.isG0, Command.isG1, Command.isG20, Command.isG21,
    Command.isG28, Command.isG90, Command.isG91, Command.isG92, Command.hasAnyXYZEParam,
    Command.hasX, Command.hasY, Command.hasZ, Command.hasE, State.init, initialState, readyEnv,
    busyEnv, State.homeEndstops, State.queueMovement, KosselPi, cmdG1X, cmdG1XF, cmdG92X, cmdBare,
    State.setDestMoveRatePrimitive, State.xUnitToPrimitive, State.fUnitToPrimitive,
    State.posUnitToMM, State.xUnitToAbsolute, State.positionMode, State.destXPrimitive,
    State.destYPrimitive, State.destZPrimitive, State.destEPrimitive,
    State.destMoveRatePrimitive, State.setHostZeroPos, State.setUnitMode, State.setPositionMode,
    State.setExtruderPosMode, State.maxTime, Outcome.state, Outcome.value?, std_min,
    MAX_MOVE_RATE, HOME_RATE, MAX_EXT_RATE, MM_PER_IN] <;> norm_num

/-- C6, amended: from the initial state, after `G20` and `G1 X1 F60` with the
planner ready, `destXPrimitive` is 25.4 mm and the move rate is 25.4 mm/s (in
inch mode `fUnitToPrimitive` scales the feed by 25.4 as it does a coordinate),
so the length of the move divided by its rate is 1 s; the last call made is the
`moveTo` to X = 25.4 at that rate. -/
theorem inch_move_rate_is_scaled (fs : FileSystem) (c : Com) (b : Bool) :
    (runAll readyEnv .root (State.init KosselPi fs c b)
      [cmdBare "G20", cmdG1XF 1 60]).destXPrimitive = 25.4 ∧
    (runAll readyEnv .root (State.init KosselPi fs c b)
      [cmdBare "G20", cmdG1XF 1 60]).destMoveRatePrimitive = 25.4 ∧
    (runAll readyEnv .root (State.init KosselPi fs c b)
      [cmdBare "G20", cmdG1XF 1 60]).destXPrimitive /
      (runAll readyEnv .root (State.init KosselPi fs c b)
        [cmdBare "G20", cmdG1XF 1 60]).destMoveRatePrimitive = 1 ∧
    (runAll readyEnv .root (State.init KosselPi fs c b)
      [cmdBare "G20", cmdG1XF 1 60]).calls.getLast? =
      some (Call.moveTo 0 25.4 0 0 0 25.4 (-150) 150) ∧
    (∀ (st : State) (f : ℚ), st.unitMode = .UNIT_IN → st.fUnitToPrimitive f = 25.4 * (f / 60)) := by
  refine ⟨?_, ?_, ?_, ?_, ?_⟩
  · cases b <;> simp [runAll, State.execute, Command.isG0, Command.isG1, Command.isG20, Command.isG21,
    Command.isG28, Command.isG90, Command.isG91, Command.isG92, Command.hasAnyXYZEParam,
    Command.hasX, Command.hasY, Command.hasZ, Command.hasE, State.init, initialState, readyEnv,
    busyEnv, State.homeEndstops, State.queueMovement, KosselPi, cmdG1X, cmdG1XF, cmdG92X, cmdBare,
    State.setDestMoveRatePrimitive, State.xUnitToPrimitive, State.fUnitToPrimitive,
    State.posUnitToMM, State.xUnitToAbsolute, State.positionMode, State.destXPrimitive,
    State.destYPrimitive, State.destZPrimitive, State.destEPrimitive,
    State.destMoveRatePrimitive, State.setHostZeroPos, State.setUnitMode, State.setPositionMode,
    State.setExtruderPosMode, State.maxTime, Outcome.state, Outcome.value?, std_min,
    MAX_MOVE_RATE, HOME_RATE, MAX_EXT_RATE, MM_PER_IN] <;> norm_num
  · cases b <;> simp [runAll, State.execute, Command.isG0, Command.isG1, Command.isG20, Command.isG21,
    Command.isG28, Command.isG90, Command.isG91, Command.isG92, Command.hasAnyXYZEParam,
    Command.hasX, Command.hasY, Command.hasZ, Command.hasE, State.init, initialState, readyEnv,
    busyEnv, State.homeEndstops, State.queueMovement, KosselPi, cmdG1X, cmdG1XF, cmdG92X, cmdBare,
    State.setDestMoveRatePrimitive, State.xUnitToPrimitive, State.fUnitToPrimitive,
    State.posUnitToMM, State.xUnitToAbsolute, State.positionMode, State.destXPrimitive,
    State.destYPrimitive, State.destZPrimitive, State.destEPrimitive,
    State.destMoveRatePrimitive, State.setHostZeroPos, State.setUnitMode, State.setPositionMode,
    State.setExtruderPosMode, State.maxTime, Outcome.state, Outcome.value?, std_min,
    MAX_MOVE_RATE, HOME_RATE, MAX_EXT_RATE, MM_PER_IN] <;> norm_num
  · cases b <;> simp [runAll, State.execute, Command.isG0, Command.isG1, Command.isG20, Command.isG21,
    Command.isG28, Command.isG90, Command.isG91, Command.isG92, Command.hasAnyXYZEParam,
    Command.hasX, Command.hasY, Command.hasZ, Command.hasE, State.init, initialState, readyEnv,
    busyEnv, State.homeEndstops, State.queueMovement, KosselPi, cmdG1X, cmdG1XF, cmdG92X, cmdBare,
    State.setDestMoveRatePrimitive, State.xUnitToPrimitive, State.fUnitToPrimitive,
    State.posUnitToMM, State.xUnitToAbsolute, State.positionMode, State.destXPrimitive,
    State.destYPrimitive, State.destZPrimitive, State.destEPrimitive,
    State.destMoveRatePrimitive, State.setHostZeroPos, State.setUnitMode, State.setPositionMode,
    State.setExtruderPosMode, State.maxTime, Outcome.state, Outcome.value?, std_min,
    MAX_MOVE_RATE, HOME_RATE, MAX_EXT_RATE, MM_PER_IN] <;> norm_num
  · cases b <;> simp [runAll, State.execute, Command.isG0, Command.isG1, Command.isG20, Command.isG21,
    Command.isG28, Command.isG90, Command.isG91, Command.isG92, Command.hasAnyXYZEParam,
    Command.hasX, Command.hasY, Command.hasZ, Command.hasE, State.init, initialState, readyEnv,
    busyEnv, State.homeEndstops, State.queueMovement, KosselPi, cmdG1X, cmdG1XF, cmdG92X, cmdBare,
    State.setDestMoveRatePrimitive, State.xUnitToPrimitive, State.fUnitToPrimitive,
    State.posUnitToMM, State.xUnitToAbsolute, State.positionMode, State.destXPrimitive,
    State.destYPrimitive, State.destZPrimitive, State.destEPrimitive,
    State.destMoveRatePrimitive, State.setHostZeroPos, State.setUnitMode, State.setPositionMode,
    State.setExtruderPosMode, State.maxTime, Outcome.state, Outcome.value?, std_min,
    MAX_MOVE_RATE, HOME_RATE, MAX_EXT_RATE, MM_PER_IN] <;> norm_num
  · intro st f hin
    simp [State.fUnitToPrimitive, State.posUnitToMM, hin, MM_PER_IN]
    norm_num

/-- C7, as stated, fails: in the initial state (MM mode, maximum rate 120 mm/s)
with the planner not ready, `execute(G1 X10 F600)` returns `Null` and leaves
`destMoveRatePrimitive` at 120 mm/s, not at 600 / 60 = 10 mm/s. -/
theorem feed_not_applied_when_planner_busy :
    initialState.unitMode = .UNIT_MM ∧
    (600 : ℚ) / 60 ≤ initialState.driver.defaultMoveRate ∧
    (initialState.execute busyEnv (cmdG1XF 10 600) .root).value? = some Response.Null ∧
    (initialState.execute busyEnv (cmdG1XF 10 600) .root).state.destMoveRatePrimitive = 120 ∧
    (initialState.execute busyEnv (cmdG1XF 10 600) .root).state.destMoveRatePrimitive ≠
      600 / 60 := by
  refine ⟨?_, ?_, ?_, ?_, ?_⟩ <;> simp [runAll, State.execute, Command.isG0, Command.isG1, Command.isG20, Command.isG21,
    Command.isG28, Command.isG90, Command.isG91, Command.isG92, Command.hasAnyXYZEParam,
    Command.hasX, Command.hasY, Command.hasZ, Command.hasE, State.init, initialState, readyEnv,
    busyEnv, State.homeEndstops, State.queueMovement, KosselPi, cmdG1X, cmdG1XF, cmdG92X, cmdBare,
    State.setDestMoveRatePrimitive, State.xUnitToPrimitive, State.fUnitToPrimitive,
    State.posUnitToMM, State.xUnitToAbsolute, State.positionMode, State.destXPrimitive,
    State.destYPrimitive, State.destZPrimitive, State.destEPrimitive,
    State.destMoveRatePrimitive, State.setHostZeroPos, State.setUnitMode, State.setPositionMode,
    State.setExtruderPosMode, State.maxTime, Outcome.state, Outcome.value?, std_min,
    MAX_MOVE_RATE, HOME_RATE, MAX_EXT_RATE, MM_PER_IN] <;> norm_num

/-- C7, amended: on a `KosselPi` in MM unit mode with the planner ready, for
every feed value `f` with `f / 60` not above the maximum move rate,
`execute(G1 ... F f)` (or `G0`) sets `destMoveRatePrimitive` to `f / 60`; and
`G1 X10 F600` from the initial state gives `destX = 10`, move rate 10, so a
length over rate of 1. -/
theorem feed_is_divided_by_sixty (st : State) (env : Env) (cmd : Command) (com : ComRef)
    (f : ℚ) (hdrv : st.driver = KosselPi) (hunit : st.unitMode = .UNIT_MM)
    (hop : (cmd.isG0 || cmd.isG1) = true) (hready : env.readyForNextMove = true)
    (hf : cmd.f = some f) (hmax : f / 60 ≤ st.driver.defaultMoveRate) :
    (st.execute env cmd com).state.destMoveRatePrimitive = f / 60 ∧
    (∀ (fs : FileSystem) (c : Com) (b : Bool),
      ((State.init KosselPi fs c b).execute readyEnv (cmdG1XF 10 600) .root).state.destXPrimitive
        = 10 ∧
      ((State.init KosselPi fs c b).execute readyEnv (cmdG1XF 10 600)
        .root).state.destMoveRatePrimitive = 10 ∧
      ((State.init KosselPi fs c b).execute readyEnv (cmdG1XF 10 600) .root).state.destXPrimitive /
        ((State.init KosselPi fs c b).execute readyEnv (cmdG1XF 10 600)
          .root).state.destMoveRatePrimitive = 1) := by
  refine ⟨?_, ?_⟩
  · rw [execute_move_rate st env cmd com hop hready f hf]
    rw [hdrv] at hmax ⊢
    have hmax1 : f / 60 ≤ 120 := by simpa [KosselPi, MAX_MOVE_RATE] using hmax
    simp only [State.fUnitToPrimitive, State.posUnitToMM, hunit, KosselPi, std_min,
      MAX_MOVE_RATE]
    rw [if_neg (not_lt.mpr hmax1)]
  · intro fs c b
    refine ⟨?_, ?_, ?_⟩ <;> cases b <;> simp [runAll, State.execute, Command.isG0, Command.isG1, Command.isG20, Command.isG21,
    Command.isG28, Command.isG90, Command.isG91, Command.isG92, Command.hasAnyXYZEParam,
    Command.hasX, Command.hasY, Command.hasZ, Command.hasE, State.init, initialState, readyEnv,
    busyEnv, State.homeEndstops, State.queueMovement, KosselPi, cmdG1X, cmdG1XF, cmdG92X, cmdBare,
    State.setDestMoveRatePrimitive, State.xUnitToPrimitive, State.fUnitToPrimitive,
    State.posUnitToMM, State.xUnitToAbsolute, State.positionMode, State.destXPrimitive,
    State.destYPrimitive, State.destZPrimitive, State.destEPrimitive,
    State.destMoveRatePrimitive, State.setHostZeroPos, State.setUnitMode, State.setPositionMode,
    State.setExtruderPosMode, State.maxTime, Outcome.state, Outcome.value?, std_min,
    MAX_MOVE_RATE, HOME_RATE, MAX_EXT_RATE, MM_PER_IN] <;> norm_num

theorem feed_is_divided_by_sixty_witness :
    initialState.driver = KosselPi ∧
    initialState.unitMode = .UNIT_MM ∧
    (((cmdG1XF 10 600).isG0 || (cmdG1XF 10 600).isG1) = true) ∧
    readyEnv.readyForNextMove = true ∧
    (600 : ℚ) / 60 ≤ initialState.driver.defaultMoveRate ∧
    (initialState.execute readyEnv (cmdG1XF 10 600) .root).state.destMoveRatePrimitive =
      600 / 60 :=
  have hmax : (600 : ℚ) / 60 ≤ initialState.driver.defaultMoveRate := by
    simp [initialState, State.init, State.setDestMoveRatePrimitive, KosselPi, MAX_MOVE_RATE]
    norm_num
  ⟨rfl, rfl, by decide, rfl, hmax,
    (feed_is_divided_by_sixty initialState readyEnv (cmdG1XF 10 600) .root 600 rfl rfl
      (by decide) rfl rfl hmax).1⟩

/-- C8, the code at an input the claim covers. `inchExtrudedRelative` is reached
by `G90`, `M83`, `G1 E5`, `G20`: inch unit mode, position mode absolute, extruder
position mode relative, extruder destination 5, `_hostZeroE` = 0. There
`eUnitToPrimitive(1)` = 25.4 * (1 + 5) + 0 = 152.4, not 25.4 * 1 + 0:
`eUnitToAbsolute` switches on `extruderPosMode()` and adds the destination
before the scaling. -/
theorem inch_E_scaling_follows_extruder_mode :
    inchExtrudedRelative.unitMode = .UNIT_IN ∧
    inchExtrudedRelative.positionMode = .POS_ABSOLUTE ∧
    inchExtrudedRelative.extruderPosMode = .POS_RELATIVE ∧
    inchExtrudedRelative.destEPrimitive = 5 ∧
    inchExtrudedRelative._hostZeroE = 0 ∧
    inchExtrudedRelative.eUnitToPrimitive 1 = 152.4 ∧
    inchExtrudedRelative.eUnitToPrimitive 1 ≠ 25.4 * 1 + inchExtrudedRelative._hostZeroE := by
  simp [inchExtrudedRelative, runAll, State.execute, Command.isG0, Command.isG1, Command.isG20,
    Command.isG21, Command.isG28, Command.isG90, Command.isG91, Command.isG92, Command.isM0,
    Command.isM17, Command.isM18, Command.isM21, Command.isM32, Command.isM82, Command.isM83,
    Command.hasAnyXYZEParam, Command.hasX, Command.hasY, Command.hasZ, Command.hasE,
    State.init, initialState, readyEnv, State.homeEndstops, State.queueMovement,
    KosselPi, cmdG1E, cmdBare, State.setDestMoveRatePrimitive, State.xUnitToPrimitive,
    State.yUnitToPrimitive, State.zUnitToPrimitive, State.eUnitToPrimitive,
    State.fUnitToPrimitive, State.posUnitToMM, State.xUnitToAbsolute, State.yUnitToAbsolute,
    State.zUnitToAbsolute, State.eUnitToAbsolute, State.positionMode, State.extruderPosMode,
    State.destXPrimitive, State.destYPrimitive, State.destZPrimitive, State.destEPrimitive,
    State.destMoveRatePrimitive, State.setHostZeroPos, State.setUnitMode,
    State.setPositionMode, State.setExtruderPosMode, State.maxTime, Outcome.state,
    Outcome.value?, std_min, MAX_MOVE_RATE, HOME_RATE, MAX_EXT_RATE, MM_PER_IN]
  norm_num

/-- C8, amended: in absolute position mode, in inch unit mode `xUnitToPrimitive(x)` is
`25.4 * x + hostZeroX` (the coordinate is scaled, the offset is added after,
unscaled), likewise for Y and Z, and for E when `extruderPosMode` is absolute;
in MM unit mode the coordinate is not scaled: `xUnitToPrimitive(x)` is
`x + hostZeroX`, likewise for Y, Z and E. -/
theorem inch_scaling_before_host_zero (st : State) (x : ℚ)
    (hp : st.positionMode = .POS_ABSOLUTE) :
    (st.unitMode = .UNIT_IN →
      st.xUnitToPrimitive x = 25.4 * x + st._hostZeroX ∧
      st.yUnitToPrimitive x = 25.4 * x + st._hostZeroY ∧
      st.zUnitToPrimitive x = 25.4 * x + st._hostZeroZ ∧
      (st.extruderPosMode = .POS_ABSOLUTE → st.eUnitToPrimitive x = 25.4 * x + st._hostZeroE)) ∧
    (st.unitMode = .UNIT_MM →
      st.xUnitToPrimitive x = x + st._hostZeroX ∧
      st.yUnitToPrimitive x = x + st._hostZeroY ∧
      st.zUnitToPrimitive x = x + st._hostZeroZ ∧
      (st.extruderPosMode = .POS_ABSOLUTE → st.eUnitToPrimitive x = x + st._hostZeroE)) := by
  have hp1 : st._positionMode = .POS_ABSOLUTE := hp
  have scale : MM_PER_IN = 25.4 := by
    unfold MM_PER_IN
    norm_num
  refine ⟨fun hin => ⟨?_, ?_, ?_, fun he => ?_⟩, fun hmm => ⟨?_, ?_, ?_, fun he => ?_⟩⟩
  · simp [State.xUnitToPrimitive, State.xUnitToAbsolute, State.posUnitToMM,
      State.positionMode, hp1, hin, scale]
  · simp [State.yUnitToPrimitive, State.yUnitToAbsolute, State.posUnitToMM,
      State.positionMode, hp1, hin, scale]
  · simp [State.zUnitToPrimitive, State.zUnitToAbsolute, State.posUnitToMM,
      State.positionMode, hp1, hin, scale]
  · have he1 : st._extruderPosMode = .POS_ABSOLUTE := he
    simp [State.eUnitToPrimitive, State.eUnitToAbsolute, State.posUnitToMM,
      State.extruderPosMode, he1, hin, scale]
  · simp [State.xUnitToPrimitive, State.xUnitToAbsolute, State.posUnitToMM,
      State.positionMode, hp1, hmm]
  · simp [State.yUnitToPrimitive, State.yUnitToAbsolute, State.posUnitToMM,
      State.positionMode, hp1, hmm]
  · simp [State.zUnitToPrimitive, State.zUnitToAbsolute, State.posUnitToMM,
      State.positionMode, hp1, hmm]
  · have he1 : st._extruderPosMode = .POS_ABSOLUTE := he
    simp [State.eUnitToPrimitive, State.eUnitToAbsolute, State.posUnitToMM,
      State.extruderPosMode, he1, hmm]

theorem inch_scaling_before_host_zero_witness :
    inchState.positionMode = .POS_ABSOLUTE ∧
    inchState.unitMode = .UNIT_IN ∧
    inchState.xUnitToPrimitive 2 = 25.4 * 2 + inchState._hostZeroX :=
  have hp : inchState.positionMode = .POS_ABSOLUTE := by
    simp [inchState, runAll, State.execute, Command.isG0, Command.isG1, Command.isG20, Command.isG21,
    Command.isG28, Command.isG90, Command.isG91, Command.isG92, Command.hasAnyXYZEParam,
    Command.hasX, Command.hasY, Command.hasZ, Command.hasE, State.init, initialState, readyEnv,
    busyEnv, State.homeEndstops, State.queueMovement, KosselPi, cmdG1X, cmdG1XF, cmdG92X, cmdBare,
    State.setDestMoveRatePrimitive, State.xUnitToPrimitive, State.fUnitToPrimitive,
    State.posUnitToMM, State.xUnitToAbsolute, State.positionMode, State.destXPrimitive,
    State.destYPrimitive, State.destZPrimitive, State.destEPrimitive,
    State.destMoveRatePrimitive, State.setHostZeroPos, State.setUnitMode, State.setPositionMode,
    State.setExtruderPosMode, State.maxTime, Outcome.state, Outcome.value?, std_min,
    MAX_MOVE_RATE, HOME_RATE, MAX_EXT_RATE, MM_PER_IN]
  have hin : inchState.unitMode = .UNIT_IN := by
    simp [inchState, runAll, State.execute, Command.isG0, Command.isG1, Command.isG20, Command.isG21,
    Command.isG28, Command.isG90, Command.isG91, Command.isG92, Command.hasAnyXYZEParam,
    Command.hasX, Command.hasY, Command.hasZ, Command.hasE, State.init, initialState, readyEnv,
    busyEnv, State.homeEndstops, State.queueMovement, KosselPi, cmdG1X, cmdG1XF, cmdG92X, cmdBare,
    State.setDestMoveRatePrimitive, State.xUnitToPrimitive, State.fUnitToPrimitive,
    State.posUnitToMM, State.xUnitToAbsolute, State.positionMode, State.destXPrimitive,
    State.destYPrimitive, State.destZPrimitive, State.destEPrimitive,
    State.destMoveRatePrimitive, State.setHostZeroPos, State.setUnitMode, State.setPositionMode,
    State.setExtruderPosMode, State.maxTime, Outcome.state, Outcome.value?, std_min,
    MAX_MOVE_RATE, HOME_RATE, MAX_EXT_RATE, MM_PER_IN]
  ⟨hp, hin, ((inch_scaling_before_host_zero inchState 2 hp).1 hin).1⟩

/-- C9: for every state and every command whose opcode is `G90`, `execute`
returns Ok in the state in which `positionMode` and `extruderPosMode` are both
absolute and every other field is as before; for opcode `G91` both become
relative, every other field as before. -/
theorem G90_G91_set_both_position_modes (st : State) (env : Env) (cmd : Command)
    (com : ComRef) :
    st.execute env { cmd with opcode := "G90" } com =
      .returned .Ok
        { st with _positionMode := .POS_ABSOLUTE, _extruderPosMode := .POS_ABSOLUTE } ∧
    st.execute env { cmd with opcode := "G91" } com =
      .returned .Ok
        { st with _positionMode := .POS_RELATIVE, _extruderPosMode := .POS_RELATIVE } := by
  constructor <;>
  simp [State.execute, Command.isG0, Command.isG1, Command.isG20, Command.isG21,
    Command.isG28, Command.isG90, Command.isG91, State.setPositionMode,
    State.setExtruderPosMode]

/-- C10, as stated, fails: for the opcode `G5`, which `execute` does not
recognise, the call raises `std::runtime_error`; it returns no response, and
`tendComChannel` sends no reply. -/
theorem unknown_opcode_raises :
    (cmdBare "G5").isRecognized = false ∧
    initialState.execute readyEnv (cmdBare "G5") .root =
      .threw "unrecognized gcode opcode: 'G5'" initialState ∧
    (initialState.execute readyEnv (cmdBare "G5") .root).value? = none ∧
    initialState.tendComChannel readyEnv (some (cmdBare "G5")) .root =
      .threw "unrecognized gcode opcode: 'G5'" initialState := by
  have hrec : (cmdBare "G5").isRecognized = false := by decide
  have hex : initialState.execute readyEnv (cmdBare "G5") .root =
      .threw "unrecognized gcode opcode: 'G5'" initialState := by
    have hT : (cmdBare "G5").isTxxx = false := by decide
    simp [State.execute, Command.isG0, Command.isG1, Command.isG20, Command.isG21,
      Command.isG28, Command.isG90, Command.isG91, Command.isG92, Command.isM0, Command.isM17,
      Command.isM18, Command.isM21, Command.isM32, Command.isM82, Command.isM83, Command.isM84,
      Command.isM99, Command.isM104, Command.isM105, Command.isM106, Command.isM107,
      Command.isM109, Command.isM110, Command.isM112, Command.isM117, Command.isM140, hT,
      State.unrecognizedWhat]
    simp [cmdBare]
  refine ⟨hrec, hex, ?_, ?_⟩
  · rw [hex]
    rfl
  · simp [State.tendComChannel, hex]

/-- C10, amended: for every command whose opcode is not one of the recognised
codes, `State::execute` raises `std::runtime_error` naming the opcode, with the
state as it was before the call; no response is returned, and the exception
leaves `tendComChannel` before any reply is sent. -/
theorem unrecognized_opcode_throws (st : State) (env : Env) (cmd : Command) (com : ComRef)
    (h : cmd.isRecognized = false) :
    st.execute env cmd com = .threw (State.unrecognizedWhat cmd) st ∧
    (st.execute env cmd com).value? = none ∧
    st.tendComChannel env (some cmd) com = .threw (State.unrecognizedWhat cmd) st := by
  have hex : st.execute env cmd com = .threw (State.unrecognizedWhat cmd) st := by
    simp only [Command.isRecognized, Bool.or_eq_false_iff] at h
    obtain ⟨⟨⟨⟨⟨⟨⟨⟨⟨⟨⟨⟨⟨⟨⟨⟨⟨⟨⟨⟨⟨⟨⟨⟨⟨⟨h0, h1⟩, h2⟩, h3⟩, h4⟩, h5⟩, h6⟩, h7⟩, h8⟩, h9⟩, h10⟩, h11⟩,
      h12⟩, h13⟩, h14⟩, h15⟩, h16⟩, h17⟩, h18⟩, h19⟩, h20⟩, h21⟩, h22⟩, h23⟩, h24⟩, h25⟩, h26⟩ := h
    unfold State.execute
    simp only [h0, h1, h2, h3, h4, h5, h6, h7, h8, h9, h10, h11, h12, h13, h14, h15, h16, h17,
      h18, h19, h20, h21, h22, h23, h24, h25, h26, Bool.or_false, Bool.false_eq_true, if_false]
  refine ⟨hex, ?_, ?_⟩
  · rw [hex]
    rfl
  · simp [State.tendComChannel, hex]

theorem unrecognized_opcode_throws_witness :
    (cmdBare "G5").isRecognized = false ∧
    initialState.execute readyEnv (cmdBare "G5") .root =
      .threw (State.unrecognizedWhat (cmdBare "G5")) initialState :=
  ⟨by decide, (unrecognized_opcode_throws initialState readyEnv (cmdBare "G5") .root
    (by decide)).1⟩

/-! ## Sources, exits and the fan -/

/-- The M99 branch on a source stack that is not empty: the top is popped, and
the response is `Null` exactly when the command came from the top. -/
theorem execute_M99_nonempty (st : State) (env : Env) (cmd : Command) (com : ComRef)
    (hne : st.gcodeFileStack ≠ []) :
    st.execute env { cmd with opcode := "M99" } com =
      .returned (if st.topRef = com then Response.Null else Response.Ok)
        { st with gcodeFileStack := st.gcodeFileStack.tail } := by
  have hemp : st.gcodeFileStack.isEmpty = false := by
    cases hs : st.gcodeFileStack with
    | nil => exact absurd hs hne
    | cons a l => rfl
  unfold State.execute
  simp only [Command.isG0, Command.isG1, Command.isG20, Command.isG21, Command.isG28,
    Command.isG90, Command.isG91, Command.isG92, Command.isM0, Command.isM17, Command.isM18,
    Command.isM21, Command.isM32, Command.isM82, Command.isM83, Command.isM84, Command.isM99,
    Command.isM104, Command.isM105, Command.isM106, Command.isM107, Command.isM109,
    Command.isM110, Command.isM112, Command.isM117, Command.isM140]
  simp [hemp]
  split_ifs <;> rfl

/-- The M99 branch on an empty source stack: the process exits with status 0. -/
theorem execute_M99_empty (st : State) (env : Env) (cmd : Command) (com : ComRef)
    (hemp : st.gcodeFileStack = []) :
    st.execute env { cmd with opcode := "M99" } com = .exited 0 st := by
  unfold State.execute
  simp only [Command.isG0, Command.isG1, Command.isG20, Command.isG21, Command.isG28,
    Command.isG90, Command.isG91, Command.isG92, Command.isM0, Command.isM17, Command.isM18,
    Command.isM21, Command.isM32, Command.isM82, Command.isM83, Command.isM84, Command.isM99,
    Command.isM104, Command.isM105, Command.isM106, Command.isM107, Command.isM109,
    Command.isM110, Command.isM112, Command.isM117, Command.isM140]
  simp [hemp]

/-- C11: on a source stack that is not empty, `execute(M99, com)` removes
exactly the top source (the stack becomes its tail, one shorter, nothing else
in the state changes); it returns `Null` if and only if `com` is the source
that was on top and `Ok` otherwise; and `tendComChannel` sends no reply in the
first case and replies `Ok` to `com` in the second. -/
theorem M99_pops_top_source (st : State) (env : Env) (cmd : Command) (com : ComRef)
    (hne : st.gcodeFileStack ≠ []) :
    (st.execute env { cmd with opcode := "M99" } com).state =
      { st with gcodeFileStack := st.gcodeFileStack.tail } ∧
    (st.execute env { cmd with opcode := "M99" } com).state.gcodeFileStack.length + 1 =
      st.gcodeFileStack.length ∧
    ((st.execute env { cmd with opcode := "M99" } com).value? = some Response.Null ↔
      com = st.topRef) ∧
    (com ≠ st.topRef →
      (st.execute env { cmd with opcode := "M99" } com).value? = some Response.Ok) ∧
    (com = st.topRef →
      st.tendComChannel env (some { cmd with opcode := "M99" }) com =
        .returned () { st with gcodeFileStack := st.gcodeFileStack.tail }) ∧
    (com ≠ st.topRef →
      st.tendComChannel env (some { cmd with opcode := "M99" }) com =
        .returned () { st with
          gcodeFileStack := st.gcodeFileStack.tail
          calls := st.calls ++ [Call.reply com Response.Ok] }) := by
  have hex := execute_M99_nonempty st env cmd com hne
  refine ⟨?_, ?_, ?_, ?_, ?_, ?_⟩
  · rw [hex]
    rfl
  · rw [hex]
    cases hs : st.gcodeFileStack with
    | nil => exact absurd hs hne
    | cons a l => simp [Outcome.state, hs]
  · rw [hex]
    by_cases h : st.topRef = com
    · simp [Outcome.value?, h]
    · have h2 : ¬ com = st.topRef := fun e => h e.symm
      simp [Outcome.value?, h, h2]
  · intro h
    have h2 : ¬ st.topRef = com := fun e => h e.symm
    rw [hex]
    simp [Outcome.value?, h2]
  · intro h
    have h2 : st.topRef = com := h.symm
    simp only [State.tendComChannel, hex, if_pos h2, Response.isNull]
    rfl
  · intro h
    have h2 : ¬ st.topRef = com := fun e => h e.symm
    simp only [State.tendComChannel, hex, if_neg h2, Response.isNull]
    rfl

theorem M99_pops_top_source_witness :
    persistentWithFile.gcodeFileStack ≠ [] ∧
    (persistentWithFile.execute readyEnv (cmdBare "M99") (.stack 0)).state.gcodeFileStack = [] ∧
    ((persistentWithFile.execute readyEnv (cmdBare "M99") (.stack 0)).value? =
      some Response.Null ↔ ComRef.stack 0 = persistentWithFile.topRef) :=
  have hs : persistentWithFile.gcodeFileStack = [Com.file "sub.gcode"] := by
    simp [persistentWithFile, runAll, State.execute, Command.isG0, Command.isG1, Command.isG20, Command.isG21, Command.isG28,
    Command.isG90, Command.isG91, Command.isG92, Command.isM0, Command.isM17, Command.isM18,
    Command.isM21, Command.isM32, Command.isM82, Command.isM83, Command.isM84, Command.isM99,
    Command.isM104, Command.isM105, Command.isM106, Command.isM107, Command.isM109,
    Command.isM110, Command.isM112, Command.isM117, Command.isM140, cmdM32, initialState, State.init,
      State.setDestMoveRatePrimitive, idFileSystem]
  have hne : persistentWithFile.gcodeFileStack ≠ [] := by
    rw [hs]
    simp
  have h := M99_pops_top_source persistentWithFile readyEnv (cmdBare "M99") (.stack 0) hne
  have e := congrArg State.gcodeFileStack h.1
  ⟨hne, by simpa [hs] using e, h.2.2.1⟩

/-- C12, as stated, fails. With a persistent root source and one `M32` file
open, an `M99` from the root source pops the file and returns `Ok`; the process
does not exit. With a root source that is not persistent, the root is the one
element of the stack, and its `M99` pops it and returns `Null`; the process
does not exit. -/
theorem M99_from_root_does_not_always_exit :
    persistentWithFile.gcodeFileStack = [Com.file "sub.gcode"] ∧
    persistentWithFile.execute readyEnv (cmdBare "M99") .root =
      .returned .Ok { persistentWithFile with gcodeFileStack := [] } ∧
    nonPersistentState.gcodeFileStack = [Com.channel 0] ∧
    nonPersistentState.execute readyEnv (cmdBare "M99") (.stack 0) =
      .returned .Null { nonPersistentState with gcodeFileStack := [] } := by
  have hs : persistentWithFile.gcodeFileStack = [Com.file "sub.gcode"] := by
    simp [persistentWithFile, runAll, State.execute, Command.isG0, Command.isG1, Command.isG20, Command.isG21, Command.isG28,
    Command.isG90, Command.isG91, Command.isG92, Command.isM0, Command.isM17, Command.isM18,
    Command.isM21, Command.isM32, Command.isM82, Command.isM83, Command.isM84, Command.isM99,
    Command.isM104, Command.isM105, Command.isM106, Command.isM107, Command.isM109,
    Command.isM110, Command.isM112, Command.isM117, Command.isM140, cmdM32, initialState, State.init,
      State.setDestMoveRatePrimitive, idFileSystem]
  have hn : nonPersistentState.gcodeFileStack = [Com.channel 0] := by
    simp [nonPersistentState, State.init, State.setDestMoveRatePrimitive]
  refine ⟨hs, ?_, hn, ?_⟩
  · have h := execute_M99_nonempty persistentWithFile readyEnv (cmdBare "M99") .root
      (by rw [hs]; simp)
    have ht : ¬ persistentWithFile.topRef = ComRef.root := by
      simp [State.topRef]
    rw [if_neg ht, hs] at h
    exact h
  · have h := execute_M99_nonempty nonPersistentState readyEnv (cmdBare "M99") (.stack 0)
      (by rw [hn]; simp)
    have ht : nonPersistentState.topRef = ComRef.stack 0 := by
      simp [State.topRef, hn]
    rw [if_pos ht, hn] at h
    exact h

/-- C12, amended: for every State whose source stack is empty, `M99`
terminates the program with exit status 0, whichever source it came from; a
State constructed with `needPersistentCom = true` starts with an empty stack,
so there an `M99` from the root source exits. When the stack is not empty an
`M99` from the persistent root source pops the top source and returns `Ok`
instead. -/
theorem M99_exits_on_empty_stack (st : State) (env : Env) (cmd : Command) (com : ComRef)
    (hemp : st.gcodeFileStack = []) :
    st.execute env { cmd with opcode := "M99" } com = .exited 0 st ∧
    st.tendComChannel env (some { cmd with opcode := "M99" }) com = .exited 0 st ∧
    (∀ (drv : Machine) (fs : FileSystem) (c : Com),
      (State.init drv fs c true).execute env { cmd with opcode := "M99" } .root =
        .exited 0 (State.init drv fs c true)) ∧
    (∀ st2 : State, st2.gcodeFileStack ≠ [] →
      st2.execute env { cmd with opcode := "M99" } .root =
        .returned .Ok { st2 with gcodeFileStack := st2.gcodeFileStack.tail }) := by
  have hex := execute_M99_empty st env cmd com hemp
  refine ⟨hex, ?_, ?_, ?_⟩
  · simp only [State.tendComChannel, hex]
  · intro drv fs c
    exact execute_M99_empty _ env cmd .root
      (by simp [State.init, State.setDestMoveRatePrimitive])
  · intro st2 hne
    have h := execute_M99_nonempty st2 env cmd .root hne
    have ht : ¬ st2.topRef = ComRef.root := by
      simp [State.topRef]
    rw [if_neg ht] at h
    exact h

theorem M99_exits_on_empty_stack_witness :
    initialState.gcodeFileStack = [] ∧
    initialState.execute readyEnv (cmdBare "M99") .root = .exited 0 initialState :=
  have hemp : initialState.gcodeFileStack = [] := by
    simp [initialState, State.init, State.setDestMoveRatePrimitive]
  ⟨hemp, (M99_exits_on_empty_stack initialState readyEnv (cmdBare "M99") .root hemp).1⟩

/-- C13: from every state, `execute(M0)` ends the process with exit status 0
and `execute(M112)` ends it with exit status 1, which is not 0; in both cases
no response is returned, the state is as it was, and `tendComChannel` sends no
reply. -/
theorem M0_and_M112_exit (st : State) (env : Env) (cmd : Command) (com : ComRef) :
    st.execute env { cmd with opcode := "M0" } com = .exited 0 st ∧
    st.execute env { cmd with opcode := "M112" } com = .exited 1 st ∧
    (1 : Int) ≠ 0 ∧
    (st.execute env { cmd with opcode := "M0" } com).value? = none ∧
    (st.execute env { cmd with opcode := "M112" } com).value? = none ∧
    st.tendComChannel env (some { cmd with opcode := "M0" }) com = .exited 0 st ∧
    st.tendComChannel env (some { cmd with opcode := "M112" }) com = .exited 1 st := by
  have h0 : st.execute env { cmd with opcode := "M0" } com = .exited 0 st := by
    unfold State.execute
    simp only [Command.isG0, Command.isG1, Command.isG20, Command.isG21, Command.isG28,
    Command.isG90, Command.isG91, Command.isG92, Command.isM0, Command.isM17, Command.isM18,
    Command.isM21, Command.isM32, Command.isM82, Command.isM83, Command.isM84, Command.isM99,
    Command.isM104, Command.isM105, Command.isM106, Command.isM107, Command.isM109,
    Command.isM110, Command.isM112, Command.isM117, Command.isM140]
    simp
  have h112 : st.execute env { cmd with opcode := "M112" } com = .exited 1 st := by
    unfold State.execute
    simp only [Command.isG0, Command.isG1, Command.isG20, Command.isG21, Command.isG28,
    Command.isG90, Command.isG91, Command.isG92, Command.isM0, Command.isM17, Command.isM18,
    Command.isM21, Command.isM32, Command.isM82, Command.isM83, Command.isM84, Command.isM99,
    Command.isM104, Command.isM105, Command.isM106, Command.isM107, Command.isM109,
    Command.isM110, Command.isM112, Command.isM117, Command.isM140]
    simp
  refine ⟨h0, h112, by decide, ?_, ?_, ?_, ?_⟩
  · rw [h0]
    rfl
  · rw [h112]
    rfl
  · simp only [State.tendComChannel, h0]
  · simp only [State.tendComChannel, h112]

/-- C14: for every `S` with `0 <= S <= 255`, `execute(M106 S)` returns `Ok`
after one call `setFanRate(d)` whose duty `d` lies in `[0, 1]`: `d` is `S` when
`S <= 1` and `S / 256` when `1 < S`; `execute(M107)` calls `setFanRate(0)`. -/
theorem fan_duty_in_unit_interval (st : State) (env : Env) (cmd : Command) (com : ComRef)
    (S : ℚ) (h0 : 0 ≤ S) (h255 : S ≤ 255) :
    st.execute env { cmd with opcode := "M106", s := some S } com =
      .returned .Ok (st.setFanRate (if S > 1 then S / 256 else S)) ∧
    (st.setFanRate (if S > 1 then S / 256 else S)).calls =
      st.calls ++ [Call.setFanRate (if S > 1 then S / 256 else S)] ∧
    0 ≤ (if S > 1 then S / 256 else S) ∧
    (if S > 1 then S / 256 else S) ≤ 1 ∧
    (S ≤ 1 → (if S > 1 then S / 256 else S) = S) ∧
    (1 < S → (if S > 1 then S / 256 else S) = S / 256) ∧
    st.execute env { cmd with opcode := "M107" } com = .returned .Ok (st.setFanRate 0) ∧
    (st.setFanRate 0).calls = st.calls ++ [Call.setFanRate 0] := by
  refine ⟨?_, rfl, ?_, ?_, ?_, ?_, ?_, rfl⟩
  · unfold State.execute
    simp only [Command.isG0, Command.isG1, Command.isG20, Command.isG21, Command.isG28,
    Command.isG90, Command.isG91, Command.isG92, Command.isM0, Command.isM17, Command.isM18,
    Command.isM21, Command.isM32, Command.isM82, Command.isM83, Command.isM84, Command.isM99,
    Command.isM104, Command.isM105, Command.isM106, Command.isM107, Command.isM109,
    Command.isM110, Command.isM112, Command.isM117, Command.isM140]
    simp
  · split_ifs with h
    · exact div_nonneg h0 (by norm_num)
    · exact h0
  · split_ifs with h
    · rw [div_le_one (by norm_num)]
      linarith
    · exact not_lt.mp h
  · intro h
    rw [if_neg (not_lt.mpr h)]
  · intro h
    rw [if_pos h]
  · unfold State.execute
    simp only [Command.isG0, Command.isG1, Command.isG20, Command.isG21, Command.isG28,
    Command.isG90, Command.isG91, Command.isG92, Command.isM0, Command.isM17, Command.isM18,
    Command.isM21, Command.isM32, Command.isM82, Command.isM83, Command.isM84, Command.isM99,
    Command.isM104, Command.isM105, Command.isM106, Command.isM107, Command.isM109,
    Command.isM110, Command.isM112, Command.isM117, Command.isM140]
    simp

theorem fan_duty_in_unit_interval_witness :
    (0 : ℚ) ≤ 128 ∧ (128 : ℚ) ≤ 255 ∧
    initialState.execute readyEnv { cmdBare "M106" with opcode := "M106", s := some 128 } .root =
      .returned .Ok (initialState.setFanRate (if (128 : ℚ) > 1 then 128 / 256 else 128)) ∧
    (if (128 : ℚ) > 1 then (128 : ℚ) / 256 else 128) ≤ 1 :=
  have h := fan_duty_in_unit_interval initialState readyEnv (cmdBare "M106") .root 128
    (by norm_num) (by norm_num)
  ⟨by norm_num, by norm_num, h.1, h.2.2.2.1⟩

/-! ## The scheduler queue -/

/-- What `nextEvent` returns, followed by the queue it leaves, is the queue it found. -/
theorem nextEvent_splits_queue (cap : Nat) (s : Scheduler) :
    (s.nextEvent cap).2.toList ++ (s.nextEvent cap).1.eventQueue = s.eventQueue := by
  unfold Scheduler.nextEvent
  cases hq : s.eventQueue with
  | nil =>
    by_cases h1 : (s.consumerWaiting || !s._arePushesLocked) = true <;> simp [hq, h1]
  | cons evt rest =>
    by_cases h1 : (s.consumerWaiting || !s._arePushesLocked) = true <;>
    by_cases h2 : rest.length < cap <;>
    simp [hq, h1, h2]

/-- On a queue that is not empty `nextEvent` returns its front and leaves the rest. -/
theorem nextEvent_pops_front (cap : Nat) (s : Scheduler) (evt : Event) (rest : List Event)
    (hq : s.eventQueue = evt :: rest) :
    (s.nextEvent cap).2 = some evt ∧ (s.nextEvent cap).1.eventQueue = rest := by
  unfold Scheduler.nextEvent
  by_cases h1 : (s.consumerWaiting || !s._arePushesLocked) = true <;>
  by_cases h2 : rest.length < cap <;>
  simp [hq, h1, h2]

/-- A `queue` call that proceeds appends its event at the back. -/
theorem queue_appends (s s1 : Scheduler) (now : Int) (evt : Event)
    (h : s.queue now evt = some s1) :
    s1.eventQueue = s.eventQueue ++ [evt] ∧ s1.consumerOwnsMutex = s.consumerOwnsMutex ∧
    s1._arePushesLocked = s._arePushesLocked ∧ s1.consumerWaiting = s.consumerWaiting ∧
    s.consumerOwnsMutex = false := by
  unfold Scheduler.queue at h
  by_cases hown : s.consumerOwnsMutex = true
  · simp [hown] at h
  · rw [if_neg hown] at h
    have e := Option.some.inj h
    subst e
    simp at hown
    simp [hown]

/-- Every run keeps the order: the queue at the start followed by the events
queued is what was returned followed by the queue at the end. -/
theorem run_keeps_order (cap : Nat) (ops : List SchedOp) :
    ∀ (s s2 : Scheduler) (out : List Event), Scheduler.run cap s ops = some (s2, out) →
      s.eventQueue ++ queuedEvents ops = out ++ s2.eventQueue := by
  induction ops with
  | nil =>
    intro s s2 out h
    simp only [Scheduler.run] at h
    obtain ⟨rfl, rfl⟩ := Prod.mk.inj (Option.some.inj h)
    simp [queuedEvents]
  | cons op ops ih =>
    intro s s2 out h
    cases op with
    | queue now evt =>
      simp only [Scheduler.run] at h
      cases hq : s.queue now evt with
      | none => simp [hq] at h
      | some s1 =>
        simp only [hq] at h
        have := ih s1 s2 out h
        rw [(queue_appends s s1 now evt hq).1] at this
        simpa [queuedEvents] using this
    | nextEvent =>
      simp only [Scheduler.run] at h
      cases hr : Scheduler.run cap (s.nextEvent cap).1 ops with
      | none => simp [hr] at h
      | some p =>
        obtain ⟨s3, out3⟩ := p
        simp only [hr] at h
        obtain ⟨rfl, rfl⟩ := Prod.mk.inj (Option.some.inj h)
        have := ih _ _ _ hr
        rw [← nextEvent_splits_queue cap s]
        simp [queuedEvents, List.append_assoc, this]

/-- From a state in which the consumer does not own the mutex, any number of
`queue` calls in a row all proceed and append their events. -/
theorem run_queue_calls (cap : Nat) (calls : List (Int × Event)) :
    ∀ s : Scheduler, s.consumerOwnsMutex = false →
      ∃ s2, Scheduler.run cap s (queueCalls calls) = some (s2, []) ∧
        s2.eventQueue = s.eventQueue ++ calls.map Prod.snd ∧ s2.consumerOwnsMutex = false := by
  induction calls with
  | nil =>
    intro s hs
    exact ⟨s, rfl, by simp, hs⟩
  | cons c calls ih =>
    intro s hs
    have hq : s.queue c.1 c.2 = some { s with
        lastEventHandledTime := if s.eventQueue.isEmpty then c.1 else s.lastEventHandledTime
        eventQueue := s.eventQueue ++ [c.2] } := by
      simp [Scheduler.queue, hs]
    obtain ⟨s2, h1, h2, h3⟩ := ih _ (show ({ s with
        lastEventHandledTime := if s.eventQueue.isEmpty then c.1 else s.lastEventHandledTime
        eventQueue := s.eventQueue ++ [c.2] } : Scheduler).consumerOwnsMutex = false from hs)
    refine ⟨s2, ?_, ?_, h3⟩
    · simp only [queueCalls, List.map_cons, Scheduler.run, hq]
      exact h1
    · rw [h2]
      simp

/-- As many `nextEvent` steps as the queue holds events return the whole queue,
front first, and leave it empty. -/
theorem run_drains (cap : Nat) :
    ∀ (q : List Event) (s : Scheduler), s.eventQueue = q →
      ∃ s2, Scheduler.run cap s (List.replicate q.length SchedOp.nextEvent) = some (s2, q) ∧
        s2.eventQueue = [] := by
  intro q
  induction q with
  | nil =>
    intro s hs
    exact ⟨s, rfl, hs⟩
  | cons evt rest ih =>
    intro s hs
    obtain ⟨h1, h2⟩ := nextEvent_pops_front cap s evt rest hs
    obtain ⟨s2, h3, h4⟩ := ih _ h2
    refine ⟨s2, ?_, h4⟩
    simp only [List.length_cons, List.replicate_succ, Scheduler.run, h3, h1]
    rfl

/-- A run of one list of steps after another. -/
theorem run_append (cap : Nat) (a b : List SchedOp) :
    ∀ (s s1 s2 : Scheduler) (o1 o2 : List Event),
      Scheduler.run cap s a = some (s1, o1) → Scheduler.run cap s1 b = some (s2, o2) →
      Scheduler.run cap s (a ++ b) = some (s2, o1 ++ o2) := by
  induction a with
  | nil =>
    intro s s1 s2 o1 o2 h1 h2
    simp only [Scheduler.run] at h1
    obtain ⟨rfl, rfl⟩ := Prod.mk.inj (Option.some.inj h1)
    simpa using h2
  | cons op a ih =>
    intro s s1 s2 o1 o2 h1 h2
    cases op with
    | queue now evt =>
      simp only [Scheduler.run, List.cons_append] at h1 ⊢
      cases hq : s.queue now evt with
      | none => simp [hq] at h1
      | some s3 =>
        simp only [hq] at h1 ⊢
        exact ih _ _ _ _ _ h1 h2
    | nextEvent =>
      simp only [Scheduler.run, List.cons_append] at h1 ⊢
      cases hr : Scheduler.run cap (s.nextEvent cap).1 a with
      | none => simp [hr] at h1
      | some p =>
        obtain ⟨s3, o3⟩ := p
        simp only [hr] at h1
        obtain ⟨rfl, rfl⟩ := Prod.mk.inj (Option.some.inj h1)
        have e := ih _ _ _ _ _ hr h2
        simp only [List.append_eq] at e ⊢
        rw [e]
        simp [List.append_assoc]

/-- One consumer step keeps the lock discipline: outside the wait
`_arePushesLocked` tells whether the consumer owns the mutex, inside the wait
it does not own it, and it owns it only over a queue of at least
`SCHED_CAPACITY` events. -/
theorem nextEvent_keeps_discipline (cap : Nat) (s : Scheduler)
    (h : ((s.consumerWaiting = false → s._arePushesLocked = s.consumerOwnsMutex) ∧
      (s.consumerWaiting = true → s.consumerOwnsMutex = false) ∧
      (s.consumerOwnsMutex = true → cap ≤ s.eventQueue.length))) :
    (((s.nextEvent cap).1.consumerWaiting = false → (s.nextEvent cap).1._arePushesLocked = (s.nextEvent cap).1.consumerOwnsMutex) ∧
      ((s.nextEvent cap).1.consumerWaiting = true → (s.nextEvent cap).1.consumerOwnsMutex = false) ∧
      ((s.nextEvent cap).1.consumerOwnsMutex = true → cap ≤ (s.nextEvent cap).1.eventQueue.length)) := by
  obtain ⟨h1, h2, _⟩ := h
  unfold Scheduler.nextEvent
  cases hq : s.eventQueue with
  | nil =>
    by_cases c1 : (s.consumerWaiting || !s._arePushesLocked) = true <;> simp [hq, c1]
  | cons evt rest =>
    by_cases c1 : (s.consumerWaiting || !s._arePushesLocked) = true <;>
    by_cases c2 : rest.length < cap
    · simp [hq, c1, c2]
    · simp [hq, c1, c2]
      exact not_lt.mp c2
    · simp [hq, c1, c2]
    · have hw : s.consumerWaiting = false := by
        cases hw : s.consumerWaiting <;> simp_all
      have hl : s._arePushesLocked = true := by
        cases hl : s._arePushesLocked <;> simp_all
      have ho : s.consumerOwnsMutex = true := by
        rw [← h1 hw]
        exact hl
      simp [hq, c1, c2, ho]
      exact not_lt.mp c2

/-- Every run keeps the lock discipline. -/
theorem run_keeps_discipline (cap : Nat) (ops : List SchedOp) :
    ∀ (s s2 : Scheduler) (out : List Event), Scheduler.run cap s ops = some (s2, out) →
      ((s.consumerWaiting = false → s._arePushesLocked = s.consumerOwnsMutex) ∧
      (s.consumerWaiting = true → s.consumerOwnsMutex = false) ∧
      (s.consumerOwnsMutex = true → cap ≤ s.eventQueue.length)) →
      ((s2.consumerWaiting = false → s2._arePushesLocked = s2.consumerOwnsMutex) ∧
      (s2.consumerWaiting = true → s2.consumerOwnsMutex = false) ∧
      (s2.consumerOwnsMutex = true → cap ≤ s2.eventQueue.length)) := by
  induction ops with
  | nil =>
    intro s s2 out h hinv
    simp only [Scheduler.run] at h
    obtain ⟨rfl, rfl⟩ := Prod.mk.inj (Option.some.inj h)
    exact hinv
  | cons op ops ih =>
    intro s s2 out h hinv
    cases op with
    | queue now evt =>
      simp only [Scheduler.run] at h
      cases hq : s.queue now evt with
      | none => simp [hq] at h
      | some s1 =>
        simp only [hq] at h
        obtain ⟨q1, q2, q3, q4, q5⟩ := queue_appends s s1 now evt hq
        refine ih s1 s2 out h ⟨?_, ?_, ?_⟩
        · rw [q2, q3, q4]
          exact hinv.1
        · rw [q2, q4]
          exact hinv.2.1
        · rw [q2, q5]
          intro hf
          exact absurd hf (by simp)
    | nextEvent =>
      simp only [Scheduler.run] at h
      cases hr : Scheduler.run cap (s.nextEvent cap).1 ops with
      | none => simp [hr] at h
      | some p =>
        obtain ⟨s3, out3⟩ := p
        simp only [hr] at h
        obtain ⟨rfl, rfl⟩ := Prod.mk.inj (Option.some.inj h)
        exact ih _ _ _ hr (nextEvent_keeps_discipline cap s hinv)

/-- The state the constructor builds obeys the lock discipline. -/
theorem init_discipline (cap : Nat) (t0 : Int) :
    (((Scheduler.init t0).consumerWaiting = false → (Scheduler.init t0)._arePushesLocked = (Scheduler.init t0).consumerOwnsMutex) ∧
      ((Scheduler.init t0).consumerWaiting = true → (Scheduler.init t0).consumerOwnsMutex = false) ∧
      ((Scheduler.init t0).consumerOwnsMutex = true → cap ≤ (Scheduler.init t0).eventQueue.length)) := by
  simp [Scheduler.init]

/-- After a pop the consumer is not waiting, and `_arePushesLocked` tells
whether at least `SCHED_CAPACITY` events remain. -/
theorem nextEvent_pop_flag (cap : Nat) (s : Scheduler) (evt : Event) (rest : List Event)
    (hq : s.eventQueue = evt :: rest) :
    (s.nextEvent cap).1.consumerWaiting = false ∧
    ((s.nextEvent cap).1._arePushesLocked = true ↔ cap ≤ rest.length) := by
  unfold Scheduler.nextEvent
  by_cases h1 : (s.consumerWaiting || !s._arePushesLocked) = true <;>
  by_cases h2 : rest.length < cap <;>
  simp [hq, h1, h2] <;> omega

/-- C15: in every run of `queue` and `nextEvent` steps from a new Scheduler, the
events queued are, in order, the events returned followed by the events still
in the queue, so nothing is lost, duplicated or reordered, whatever the `time`
fields; the next `nextEvent` on a queue that is not empty returns its oldest
event; and for every sequence of `queue` calls, as many `nextEvent` calls
return exactly the queued events in insertion order and leave the queue
empty. -/
theorem scheduler_is_fifo (cap : Nat) (t0 : Int) (ops : List SchedOp) (s : Scheduler)
    (out : List Event) (hrun : Scheduler.run cap (Scheduler.init t0) ops = some (s, out)) :
    queuedEvents ops = out ++ s.eventQueue ∧
    (∀ evt rest, s.eventQueue = evt :: rest →
      (s.nextEvent cap).2 = some evt ∧ (s.nextEvent cap).1.eventQueue = rest) ∧
    (∀ calls : List (Int × Event), ∃ s2,
      Scheduler.run cap (Scheduler.init t0)
        (queueCalls calls ++ List.replicate calls.length SchedOp.nextEvent) =
        some (s2, calls.map Prod.snd) ∧ s2.eventQueue = []) := by
  refine ⟨?_, ?_, ?_⟩
  · have h := run_keeps_order cap ops _ s out hrun
    simpa [Scheduler.init] using h
  · intro evt rest hq
    exact nextEvent_pops_front cap s evt rest hq
  · intro calls
    obtain ⟨s1, h1, h2, _⟩ := run_queue_calls cap calls (Scheduler.init t0) rfl
    have hq : s1.eventQueue = calls.map Prod.snd := by
      simpa [Scheduler.init] using h2
    obtain ⟨s2, h3, h4⟩ := run_drains cap (calls.map Prod.snd) s1 hq
    rw [List.length_map] at h3
    refine ⟨s2, ?_, h4⟩
    have := run_append cap _ _ _ _ _ _ _ h1 h3
    simpa using this

theorem scheduler_is_fifo_witness :
    Scheduler.run 2 (Scheduler.init 0)
      (queueCalls sampleEvents ++ [SchedOp.nextEvent, SchedOp.nextEvent]) =
      some (sampleDrained, [⟨30, 1, true⟩, ⟨20, 2, false⟩]) ∧
    queuedEvents (queueCalls sampleEvents ++ [SchedOp.nextEvent, SchedOp.nextEvent]) =
      [⟨30, 1, true⟩, ⟨20, 2, false⟩] ++ sampleDrained.eventQueue :=
  have hrun : Scheduler.run 2 (Scheduler.init 0)
      (queueCalls sampleEvents ++ [SchedOp.nextEvent, SchedOp.nextEvent]) =
      some (sampleDrained, [⟨30, 1, true⟩, ⟨20, 2, false⟩]) := by decide
  ⟨hrun, (scheduler_is_fifo 2 0 _ sampleDrained _ hrun).1⟩

/-- C16, as stated, fails: whatever the value of `SCHED_CAPACITY`, one more
`queue` call than that, made on a new Scheduler before the consumer runs, all
proceed, and the queue then holds more than `SCHED_CAPACITY` events. -/
theorem queue_not_bounded_by_capacity :
    ¬ ∃ cap : Nat, ∀ (ops : List SchedOp) (s : Scheduler) (out : List Event),
      Scheduler.run cap (Scheduler.init 0) ops = some (s, out) → s.eventQueue.length ≤ cap := by
  rintro ⟨cap, h⟩
  obtain ⟨s1, h1, h2, _⟩ :=
    run_queue_calls cap (List.replicate (cap + 1) ((0 : Int), (⟨0, 0, false⟩ : Event)))
      (Scheduler.init 0) rfl
  have hlen := h _ _ _ h1
  rw [h2] at hlen
  simp [Scheduler.init] at hlen

/-- C16, amended: `queue(evt)` does not look at the size of the queue. It
appends whenever the consumer does not own the mutex, so a queue of any length
is reachable; it does not proceed while the consumer owns the mutex. In every
reachable state the consumer owns the mutex only over a queue of at least
`SCHED_CAPACITY` events, and after a pop it owns the mutex if and only if at
least `SCHED_CAPACITY` events remain. -/
theorem queue_blocks_only_while_consumer_owns_mutex (cap : Nat) (s : Scheduler) (now : Int)
    (evt : Event) :
    (s.consumerOwnsMutex = false →
      ∃ s1, s.queue now evt = some s1 ∧ s1.eventQueue = s.eventQueue ++ [evt]) ∧
    (s.consumerOwnsMutex = true → s.queue now evt = none) ∧
    (∀ n : Nat, ∃ ops s2 out,
      Scheduler.run cap (Scheduler.init 0) ops = some (s2, out) ∧ s2.eventQueue.length = n) ∧
    (∀ (t0 : Int) (ops : List SchedOp) (s2 : Scheduler) (out : List Event),
      Scheduler.run cap (Scheduler.init t0) ops = some (s2, out) →
        (s2.consumerOwnsMutex = true → cap ≤ s2.eventQueue.length) ∧
        (∀ e rest, s2.eventQueue = e :: rest →
          ((s2.nextEvent cap).1.consumerOwnsMutex = true ↔ cap ≤ rest.length))) := by
  refine ⟨?_, ?_, ?_, ?_⟩
  · intro h
    refine ⟨{ s with
      lastEventHandledTime := if s.eventQueue.isEmpty then now else s.lastEventHandledTime
      eventQueue := s.eventQueue ++ [evt] }, ?_, rfl⟩
    simp [Scheduler.queue, h]
  · intro h
    simp [Scheduler.queue, h]
  · intro n
    obtain ⟨s1, h1, h2, _⟩ :=
      run_queue_calls cap (List.replicate n ((0 : Int), (⟨0, 0, false⟩ : Event)))
        (Scheduler.init 0) rfl
    exact ⟨_, s1, [], h1, by simp [h2, Scheduler.init]⟩
  · intro t0 ops s2 out hrun
    have hinv := run_keeps_discipline cap ops _ s2 out hrun (init_discipline cap t0)
    refine ⟨hinv.2.2, ?_⟩
    intro e rest hq
    obtain ⟨n1, _, _⟩ := nextEvent_keeps_discipline cap s2 hinv
    obtain ⟨f1, f2⟩ := nextEvent_pop_flag cap s2 e rest hq
    rw [← n1 f1]
    exact f2

/-- C17: in every state reached from a new Scheduler, a `nextEvent` pop leaves
`_arePushesLocked` true and the mutex owned by the consumer if and only if at
least `SCHED_CAPACITY` events remain, and leaves `_arePushesLocked` false and
the mutex released when fewer remain; and between calls (whenever the consumer
is not inside the wait of a call) `_arePushesLocked` equals "the consumer owns
the mutex". -/
theorem push_lock_held_iff_queue_filled (cap : Nat) (t0 : Int) (ops : List SchedOp)
    (s : Scheduler) (out : List Event)
    (hrun : Scheduler.run cap (Scheduler.init t0) ops = some (s, out)) :
    (s.consumerWaiting = false → s._arePushesLocked = s.consumerOwnsMutex) ∧
    (∀ evt rest, s.eventQueue = evt :: rest →
      (s.nextEvent cap).2 = some evt ∧
      (s.nextEvent cap).1.eventQueue = rest ∧
      (s.nextEvent cap).1.consumerWaiting = false ∧
      (((s.nextEvent cap).1._arePushesLocked = true ∧
          (s.nextEvent cap).1.consumerOwnsMutex = true) ↔ cap ≤ rest.length) ∧
      (rest.length < cap →
        (s.nextEvent cap).1._arePushesLocked = false ∧
          (s.nextEvent cap).1.consumerOwnsMutex = false)) := by
  have hinv := run_keeps_discipline cap ops _ s out hrun (init_discipline cap t0)
  refine ⟨hinv.1, ?_⟩
  intro evt rest hq
  obtain ⟨p1, p2⟩ := nextEvent_pops_front cap s evt rest hq
  obtain ⟨n1, _, _⟩ := nextEvent_keeps_discipline cap s hinv
  obtain ⟨f1, f2⟩ := nextEvent_pop_flag cap s evt rest hq
  have heq := n1 f1
  refine ⟨p1, p2, f1, ?_, ?_⟩
  · rw [← heq]
    constructor
    · intro h
      exact f2.mp h.1
    · intro h
      exact ⟨f2.mpr h, f2.mpr h⟩
  · intro hlt
    have hf : (s.nextEvent cap).1._arePushesLocked = false := by
      cases hb : (s.nextEvent cap).1._arePushesLocked with
      | false => rfl
      | true => exact absurd (f2.mp hb) (not_le.mpr hlt)
    exact ⟨hf, by rw [← heq]; exact hf⟩

theorem push_lock_held_iff_queue_filled_witness :
    Scheduler.run 2 (Scheduler.init 0) (queueCalls sampleEvents) = some (sampleQueued, []) ∧
    (((sampleQueued.nextEvent 2).1._arePushesLocked = true ∧
        (sampleQueued.nextEvent 2).1.consumerOwnsMutex = true) ↔
      2 ≤ ([⟨20, 2, false⟩, ⟨10, 1, false⟩] : List Event).length) :=
  have hrun : Scheduler.run 2 (Scheduler.init 0) (queueCalls sampleEvents) =
      some (sampleQueued, []) := by decide
  ⟨hrun,
    ((push_lock_held_iff_queue_filled 2 0 (queueCalls sampleEvents) sampleQueued [] hrun).2
      ⟨30, 1, true⟩ [⟨20, 2, false⟩, ⟨10, 1, false⟩] rfl).2.2.2.1⟩

/-! ## Temperature control -/

/-- While no read is in progress, `onIdleCpu` starts one exactly when
`_nextReadTime` is before the clock value; otherwise it returns false, starts
nothing and stays out of reading. -/
theorem onIdleCpu_idle {P : TempControlParams} (tc : TempControl P) (env : TempEnv)
    (hidle : tc._isReading = false) :
    (tc._nextReadTime < env.now →
      (tc.onIdleCpu env).2 = true ∧ (tc.onIdleCpu env).1._isReading = true ∧
      (tc.onIdleCpu env).1._nextReadTime = tc._nextReadTime + TempControl._readInterval ∧
      (tc.onIdleCpu env).1.calls =
        tc.calls ++ [TempCall.timerClock, TempCall.thermStartRead]) ∧
    (¬ tc._nextReadTime < env.now →
      (tc.onIdleCpu env).2 = false ∧ (tc.onIdleCpu env).1._isReading = false ∧
      (tc.onIdleCpu env).1._nextReadTime = tc._nextReadTime ∧
      (tc.onIdleCpu env).1.calls = tc.calls ++ [TempCall.timerClock]) ∧
    (tc.onIdleCpu env).1._lastTemp = tc._lastTemp ∧
    (tc.onIdleCpu env).1.calls.filter TempCall.isSchedPwm =
      tc.calls.filter TempCall.isSchedPwm := by
  unfold TempControl.onIdleCpu
  by_cases h : tc._nextReadTime < env.now <;>
  simp [hidle, h, TempCall.isSchedPwm]

/-- C18, the code at an input the claim covers. `readingControl` has a read in
progress and `_nextReadTime` = 3000000 us. The sample comes ready with a latency
of 50000 us, above the threshold: it is dropped (the call returns true, the
measured temperature stays, no PWM update is scheduled, `_isReading` becomes
false). The next `onIdleCpu` call, at 60000 us, returns false and starts no
read, because `_nextReadTime` is not yet before the clock value; in general the
call after a dropped sample starts a read only when `_nextReadTime` is before
the clock value. -/
theorem dropped_sample_not_restarted_at_once :
    readingControl._isReading = true ∧
    readingControl._nextReadTime = 3000000 ∧
    clockCmp 50000 (TempControl._intervalThresh sampleParams) > 0 ∧
    (readingControl.onIdleCpu
      { thermIsReady := true, latency := 50000, thermValue := 200 }).2 = true ∧
    droppedControl._isReading = false ∧
    droppedControl._lastTemp = readingControl._lastTemp ∧
    droppedControl.calls.filter TempCall.isSchedPwm = [] ∧
    (droppedControl.onIdleCpu { now := 60000 }).2 = false ∧
    (droppedControl.onIdleCpu { now := 60000 }).1._isReading = false ∧
    (droppedControl.onIdleCpu { now := 60000 }).1.calls.filter TempCall.isStartRead =
      droppedControl.calls.filter TempCall.isStartRead ∧
    (∀ env : TempEnv, (droppedControl.onIdleCpu env).1._isReading = true ↔
      3000000 < env.now) := by
  refine ⟨by decide, by decide, by decide, by decide, by decide, by decide, by decide,
    by decide, by decide, by decide, ?_⟩
  intro env
  have hidle : droppedControl._isReading = false := by decide
  have hnext : droppedControl._nextReadTime = 3000000 := by decide
  obtain ⟨h1, h2, _⟩ := onIdleCpu_idle droppedControl env hidle
  rw [hnext] at h1 h2
  constructor
  · intro h
    by_contra hn
    rw [(h2 hn).2.1] at h
    exact Bool.false_ne_true h
  · intro h
    exact (h1 h).2.1

/-- C19: when a read is in progress, the thermistor is not ready and the time
since the start of the read is above `_maxRead` (1 s), `onIdleCpu` returns
false with `_isReading` false, the measured temperature, the setpoint and
`_nextReadTime` as they were, and no PWM update scheduled; and the next call
starts a read if and only if `_nextReadTime` is before the clock value,
returning false without starting one otherwise. -/
theorem read_timeout_aborts {P : TempControlParams} (tc : TempControl P) (env : TempEnv)
    (hread : tc._isReading = true) (hnot : env.thermIsReady = false)
    (htime : env.timeSinceStartRead > TempControl._maxRead) :
    TempControl._maxRead = 1000000 ∧
    (tc.onIdleCpu env).2 = false ∧
    (tc.onIdleCpu env).1._isReading = false ∧
    (tc.onIdleCpu env).1._lastTemp = tc._lastTemp ∧
    (tc.onIdleCpu env).1._destTemp = tc._destTemp ∧
    (tc.onIdleCpu env).1._nextReadTime = tc._nextReadTime ∧
    (tc.onIdleCpu env).1.calls = tc.calls ++ [TempCall.timerClock] ∧
    (tc.onIdleCpu env).1.calls.filter TempCall.isSchedPwm =
      tc.calls.filter TempCall.isSchedPwm ∧
    (∀ env2 : TempEnv,
      (((tc.onIdleCpu env).1.onIdleCpu env2).1._isReading = true ↔
        tc._nextReadTime < env2.now) ∧
      (tc._nextReadTime < env2.now →
        ((tc.onIdleCpu env).1.onIdleCpu env2).1.calls =
          tc.calls ++ [TempCall.timerClock, TempCall.timerClock, TempCall.thermStartRead]) ∧
      (¬ tc._nextReadTime < env2.now →
        ((tc.onIdleCpu env).1.onIdleCpu env2).2 = false ∧
        ((tc.onIdleCpu env).1.onIdleCpu env2).1.calls =
          tc.calls ++ [TempCall.timerClock, TempCall.timerClock])) := by
  have step : tc.onIdleCpu env =
      ({ tc with calls := tc.calls ++ [TempCall.timerClock], _isReading := false }, false) := by
    unfold TempControl.onIdleCpu
    simp [hread, hnot, htime]
  rw [step]
  refine ⟨rfl, rfl, rfl, rfl, rfl, rfl, rfl, ?_, ?_⟩
  · simp [TempCall.isSchedPwm]
  · intro env2
    obtain ⟨h1, h2, _⟩ := onIdleCpu_idle
      ({ tc with calls := tc.calls ++ [TempCall.timerClock], _isReading := false } :
        TempControl P) env2 rfl
    refine ⟨?_, ?_, ?_⟩
    · constructor
      · intro h
        by_contra hn
        rw [(h2 hn).2.1] at h
        exact Bool.false_ne_true h
      · intro h
        exact (h1 h).2.1
    · intro h
      rw [(h1 h).2.2.2]
      simp
    · intro h
      refine ⟨(h2 h).1, ?_⟩
      rw [(h2 h).2.2.2]
      simp

theorem read_timeout_aborts_witness :
    readingControl._isReading = true ∧
    (1200000 : Int) > TempControl._maxRead ∧
    (readingControl.onIdleCpu { thermIsReady := false, timeSinceStartRead := 1200000 }).2 =
      false ∧
    (readingControl.onIdleCpu
      { thermIsReady := false, timeSinceStartRead := 1200000 }).1._isReading = false ∧
    (readingControl.onIdleCpu
      { thermIsReady := false, timeSinceStartRead := 1200000 }).1._lastTemp =
      readingControl._lastTemp :=
  have h := read_timeout_aborts readingControl
    { thermIsReady := false, timeSinceStartRead := 1200000 } (by decide) rfl (by decide)
  ⟨by decide, by decide, h.2.1, h.2.2.1, h.2.2.2.1⟩

/-- C20: when a read is in progress and the sample comes ready with a latency
not above the threshold, `onIdleCpu` stores the sample as the measured
temperature and schedules exactly one PWM update, for `DeviceIdx`, with duty
`PID.feed(setpoint, Filter.feed(sample))`; in every other case the measured
temperature stays and no PWM update is scheduled. -/
theorem ready_sample_updates_pwm {P : TempControlParams} (tc : TempControl P) (env : TempEnv)
    (hread : tc._isReading = true) (hready : env.thermIsReady = true)
    (hlat : env.latency ≤ TempControl._intervalThresh P) :
    (tc.onIdleCpu env).1._lastTemp = env.thermValue ∧
    (tc.onIdleCpu env).1.getMeasuredTemperature = env.thermValue ∧
    (tc.onIdleCpu env).1.calls = tc.calls ++ [TempCall.timerClockCmp,
      TempCall.schedPwm P.DeviceIdx
        (P.pidFeed tc._pid tc._destTemp (P.filterFeed tc._filter env.thermValue).1).1
        P.heaterPwmPeriod] ∧
    (tc.onIdleCpu env).1.calls.filter TempCall.isSchedPwm =
      tc.calls.filter TempCall.isSchedPwm ++
        [TempCall.schedPwm P.DeviceIdx
          (P.pidFeed tc._pid tc._destTemp (P.filterFeed tc._filter env.thermValue).1).1
          P.heaterPwmPeriod] ∧
    (tc.onIdleCpu env).1._destTemp = tc._destTemp ∧
    (tc.onIdleCpu env).1._isReading = false ∧
    (tc.onIdleCpu env).2 = false ∧
    (∀ (tc2 : TempControl P) (env2 : TempEnv),
      ¬ (tc2._isReading = true ∧ env2.thermIsReady = true ∧
          env2.latency ≤ TempControl._intervalThresh P) →
      (tc2.onIdleCpu env2).1._lastTemp = tc2._lastTemp ∧
      (tc2.onIdleCpu env2).1.calls.filter TempCall.isSchedPwm =
        tc2.calls.filter TempCall.isSchedPwm) := by
  have hcmp : ¬ clockCmp env.latency (TempControl._intervalThresh P) > 0 := by
    unfold clockCmp
    split_ifs <;> omega
  have step : tc.onIdleCpu env =
      (({ tc with
          _isReading := false
          calls := tc.calls ++ [TempCall.timerClockCmp]
          _lastTemp := env.thermValue } : TempControl P).updatePwm, false) := by
    unfold TempControl.onIdleCpu
    simp [hread, hready, hcmp]
  rw [step]
  refine ⟨rfl, rfl, ?_, ?_, rfl, rfl, rfl, ?_⟩
  · simp [TempControl.updatePwm]
  · simp [TempControl.updatePwm, TempCall.isSchedPwm]
  · intro tc2 env2 hn
    by_cases c1 : tc2._isReading = true
    · by_cases c2 : env2.thermIsReady = true
      · have c3 : ¬ env2.latency ≤ TempControl._intervalThresh P := fun h => hn ⟨c1, c2, h⟩
        have hpos : clockCmp env2.latency (TempControl._intervalThresh P) > 0 := by
          unfold clockCmp
          split_ifs <;> omega
        unfold TempControl.onIdleCpu
        simp [c1, c2, hpos, TempCall.isSchedPwm]
      · have c2f : env2.thermIsReady = false := by simpa using c2
        unfold TempControl.onIdleCpu
        by_cases c4 : env2.timeSinceStartRead > TempControl._maxRead <;>
        simp [c1, c2f, c4, TempCall.isSchedPwm]
    · have c1f : tc2._isReading = false := by simpa using c1
      obtain ⟨_, _, h3, h4⟩ := onIdleCpu_idle tc2 env2 c1f
      exact ⟨h3, h4⟩

theorem ready_sample_updates_pwm_witness :
    readingControl._isReading = true ∧
    (30000 : Int) ≤ TempControl._intervalThresh sampleParams ∧
    (readingControl.onIdleCpu
      { thermIsReady := true, latency := 30000, thermValue := 200 }).1._lastTemp = 200 ∧
    (readingControl.onIdleCpu
      { thermIsReady := true, latency := 30000, thermValue := 200 }).1.calls =
      readingControl.calls ++ [TempCall.timerClockCmp,
        TempCall.schedPwm sampleParams.DeviceIdx
          (sampleParams.pidFeed readingControl._pid readingControl._destTemp
            (sampleParams.filterFeed readingControl._filter 200).1).1
          sampleParams.heaterPwmPeriod] :=
  have h := ready_sample_updates_pwm readingControl
    { thermIsReady := true, latency := 30000, thermValue := 200 } (by decide) rfl (by decide)
  ⟨by decide, by decide, h.1, h.2.2.1⟩

/-! ## What every `execute` call keeps -/

/-- A command other than G0/G1 leaves the move rate, the machine and the
`moveTo` calls as they were, and does not reset `_isHomed`. -/
theorem execute_other_frame (st : State) (env : Env) (cmd : Command) (com : ComRef)
    (hop : (cmd.isG0 || cmd.isG1) = false) :
    (st.execute env cmd com).state._destMoveRatePrimitive = st._destMoveRatePrimitive ∧
    (st.execute env cmd com).state.driver = st.driver ∧
    (st._isHomed = true → (st.execute env cmd com).state._isHomed = true) ∧
    (st.execute env cmd com).state.calls.filter Call.isMoveTo =
      st.calls.filter Call.isMoveTo := by
  unfold State.execute
  rw [hop]
  simp only [Bool.false_eq_true, if_false]
  by_cases h0 : cmd.isG20 = true
  · rw [if_pos h0]
    simp [Outcome.state, State.setUnitMode, State.setPositionMode, State.setExtruderPosMode,
      State.setHostZeroPos, State.homeEndstops, State.setFanRate, Call.isMoveTo]
  rw [if_neg h0]
  by_cases h1 : cmd.isG21 = true
  · rw [if_pos h1]
    simp [Outcome.state, State.setUnitMode, State.setPositionMode, State.setExtruderPosMode,
      State.setHostZeroPos, State.homeEndstops, State.setFanRate, Call.isMoveTo]
  rw [if_neg h1]
  by_cases h2 : cmd.isG28 = true
  · rw [if_pos h2]
    split_ifs <;>
    simp [Outcome.state, State.setUnitMode, State.setPositionMode, State.setExtruderPosMode,
      State.setHostZeroPos, State.homeEndstops, State.setFanRate, Call.isMoveTo]
  rw [if_neg h2]
  by_cases h3 : cmd.isG90 = true
  · rw [if_pos h3]
    simp [Outcome.state, State.setUnitMode, State.setPositionMode, State.setExtruderPosMode,
      State.setHostZeroPos, State.homeEndstops, State.setFanRate, Call.isMoveTo]
  rw [if_neg h3]
  by_cases h4 : cmd.isG91 = true
  · rw [if_pos h4]
    simp [Outcome.state, State.setUnitMode, State.setPositionMode, State.setExtruderPosMode,
      State.setHostZeroPos, State.homeEndstops, State.setFanRate, Call.isMoveTo]
  rw [if_neg h4]
  by_cases h5 : cmd.isG92 = true
  · rw [if_pos h5]
    split_ifs <;>
    simp [Outcome.state, State.setUnitMode, State.setPositionMode, State.setExtruderPosMode,
      State.setHostZeroPos, State.homeEndstops, State.setFanRate, Call.isMoveTo]
  rw [if_neg h5]
  by_cases h6 : cmd.isM0 = true
  · rw [if_pos h6]
    simp [Outcome.state, State.setUnitMode, State.setPositionMode, State.setExtruderPosMode,
      State.setHostZeroPos, State.homeEndstops, State.setFanRate, Call.isMoveTo]
  rw [if_neg h6]
  by_cases h7 : cmd.isM17 = true
  · rw [if_pos h7]
    simp [Outcome.state, State.setUnitMode, State.setPositionMode, State.setExtruderPosMode,
      State.setHostZeroPos, State.homeEndstops, State.setFanRate, Call.isMoveTo]
  rw [if_neg h7]
  by_cases h8 : cmd.isM18 = true
  · rw [if_pos h8]
    simp [Outcome.state, State.setUnitMode, State.setPositionMode, State.setExtruderPosMode,
      State.setHostZeroPos, State.homeEndstops, State.setFanRate, Call.isMoveTo]
  rw [if_neg h8]
  by_cases h9 : cmd.isM21 = true
  · rw [if_pos h9]
    simp [Outcome.state, State.setUnitMode, State.setPositionMode, State.setExtruderPosMode,
      State.setHostZeroPos, State.homeEndstops, State.setFanRate, Call.isMoveTo]
  rw [if_neg h9]
  by_cases h10 : cmd.isM32 = true
  · rw [if_pos h10]
    simp [Outcome.state, State.setUnitMode, State.setPositionMode, State.setExtruderPosMode,
      State.setHostZeroPos, State.homeEndstops, State.setFanRate, Call.isMoveTo]
  rw [if_neg h10]
  by_cases h11 : cmd.isM82 = true
  · rw [if_pos h11]
    simp [Outcome.state, State.setUnitMode, State.setPositionMode, State.setExtruderPosMode,
      State.setHostZeroPos, State.homeEndstops, State.setFanRate, Call.isMoveTo]
  rw [if_neg h11]
  by_cases h12 : cmd.isM83 = true
  · rw [if_pos h12]
    simp [Outcome.state, State.setUnitMode, State.setPositionMode, State.setExtruderPosMode,
      State.setHostZeroPos, State.homeEndstops, State.setFanRate, Call.isMoveTo]
  rw [if_neg h12]
  by_cases h13 : cmd.isM84 = true
  · rw [if_pos h13]
    simp [Outcome.state, State.setUnitMode, State.setPositionMode, State.setExtruderPosMode,
      State.setHostZeroPos, State.homeEndstops, State.setFanRate, Call.isMoveTo]
  rw [if_neg h13]
  by_cases h14 : cmd.isM99 = true
  · rw [if_pos h14]
    split_ifs <;>
    simp [Outcome.state, State.setUnitMode, State.setPositionMode, State.setExtruderPosMode,
      State.setHostZeroPos, State.homeEndstops, State.setFanRate, Call.isMoveTo]
  rw [if_neg h14]
  by_cases h15 : cmd.isM104 = true
  · rw [if_pos h15]
    cases hs : cmd.s <;>
    simp [Outcome.state, State.setUnitMode, State.setPositionMode, State.setExtruderPosMode,
      State.setHostZeroPos, State.homeEndstops, State.setFanRate, Call.isMoveTo]
  rw [if_neg h15]
  by_cases h16 : cmd.isM105 = true
  · rw [if_pos h16]
    simp [Outcome.state, State.setUnitMode, State.setPositionMode, State.setExtruderPosMode,
      State.setHostZeroPos, State.homeEndstops, State.setFanRate, Call.isMoveTo]
  rw [if_neg h16]
  by_cases h17 : cmd.isM106 = true
  · rw [if_pos h17]
    simp [Outcome.state, State.setUnitMode, State.setPositionMode, State.setExtruderPosMode,
      State.setHostZeroPos, State.homeEndstops, State.setFanRate, Call.isMoveTo]
  rw [if_neg h17]
  by_cases h18 : cmd.isM107 = true
  · rw [if_pos h18]
    simp [Outcome.state, State.setUnitMode, State.setPositionMode, State.setExtruderPosMode,
      State.setHostZeroPos, State.homeEndstops, State.setFanRate, Call.isMoveTo]
  rw [if_neg h18]
  by_cases h19 : cmd.isM109 = true
  · rw [if_pos h19]
    cases hs : cmd.s <;>
    simp [Outcome.state, State.setUnitMode, State.setPositionMode, State.setExtruderPosMode,
      State.setHostZeroPos, State.homeEndstops, State.setFanRate, Call.isMoveTo]
  rw [if_neg h19]
  by_cases h20 : cmd.isM110 = true
  · rw [if_pos h20]
    simp [Outcome.state, State.setUnitMode, State.setPositionMode, State.setExtruderPosMode,
      State.setHostZeroPos, State.homeEndstops, State.setFanRate, Call.isMoveTo]
  rw [if_neg h20]
  by_cases h21 : cmd.isM112 = true
  · rw [if_pos h21]
    simp [Outcome.state, State.setUnitMode, State.setPositionMode, State.setExtruderPosMode,
      State.setHostZeroPos, State.homeEndstops, State.setFanRate, Call.isMoveTo]
  rw [if_neg h21]
  by_cases h22 : cmd.isM117 = true
  · rw [if_pos h22]
    simp [Outcome.state, State.setUnitMode, State.setPositionMode, State.setExtruderPosMode,
      State.setHostZeroPos, State.homeEndstops, State.setFanRate, Call.isMoveTo]
  rw [if_neg h22]
  by_cases h23 : cmd.isM140 = true
  · rw [if_pos h23]
    cases hs : cmd.s <;>
    simp [Outcome.state, State.setUnitMode, State.setPositionMode, State.setExtruderPosMode,
      State.setHostZeroPos, State.homeEndstops, State.setFanRate, Call.isMoveTo]
  rw [if_neg h23]
  by_cases h24 : cmd.isTxxx = true
  · rw [if_pos h24]
    simp [Outcome.state, State.setUnitMode, State.setPositionMode, State.setExtruderPosMode,
      State.setHostZeroPos, State.homeEndstops, State.setFanRate, Call.isMoveTo]
  rw [if_neg h24]
  simp [Outcome.state, State.setUnitMode, State.setPositionMode, State.setExtruderPosMode,
    State.setHostZeroPos, State.homeEndstops, State.setFanRate, Call.isMoveTo]

/-- The G0/G1 branch: with the planner not ready nothing but a homing is done;
with the planner ready `queueMovement` is called on a state that is homed as
soon as the state before was homed or the machine homes before its first
movement. -/
theorem execute_move_shape (st : State) (env : Env) (cmd : Command) (com : ComRef)
    (hop : (cmd.isG0 || cmd.isG1) = true) :
    (env.readyForNextMove = false →
      (st.execute env cmd com).value? = some Response.Null ∧
      (st.execute env cmd com).state._destXPrimitive = st._destXPrimitive ∧
      (st.execute env cmd com).state._destYPrimitive = st._destYPrimitive ∧
      (st.execute env cmd com).state._destZPrimitive = st._destZPrimitive ∧
      (st.execute env cmd com).state._destEPrimitive = st._destEPrimitive ∧
      (st.execute env cmd com).state._destMoveRatePrimitive = st._destMoveRatePrimitive ∧
      (st.execute env cmd com).state.calls.filter Call.isMoveTo =
        st.calls.filter Call.isMoveTo ∧
      ((st.execute env cmd com).state.calls = st.calls ∨
        (st.execute env cmd com).state.calls = st.calls ++ [Call.setMaxSleep1ms,
          Call.homeEndstops (State.maxTime st._lastMotionPlannedTime env.nowHome)
            (st.driver.clampHomeRate st.destMoveRatePrimitive)])) ∧
    (env.readyForNextMove = true →
      (st.execute env cmd com).value? = some Response.Ok ∧
      ∃ (stq : State) (x y z e : ℚ),
        stq._isHomed = (st._isHomed || st.driver.doHomeBeforeFirstMovement) ∧
        (st.execute env cmd com).state = stq.queueMovement env.nowMove x y z e) ∧
    (st._isHomed = true → (st.execute env cmd com).state._isHomed = true) ∧
    (st.execute env cmd com).state.driver = st.driver ∧
    ((st.execute env cmd com).state._destMoveRatePrimitive = st._destMoveRatePrimitive ∨
      ∃ f, (st.execute env cmd com).state._destMoveRatePrimitive = st.driver.clampMoveRate f) := by
  refine ⟨?_, ?_, ?_, ?_, ?_⟩
  · intro hr
    unfold State.execute
    rw [if_pos hop]
    cases hh : st._isHomed <;>
    cases hd : st.driver.doHomeBeforeFirstMovement <;>
    simp [Outcome.state, Outcome.value?, State.homeEndstops, Call.isMoveTo,
      State.destMoveRatePrimitive, hh, hd, hr]
  · intro hr
    unfold State.execute
    rw [if_pos hop]
    simp only [hr, Bool.not_true, Bool.false_eq_true, if_false]
    refine ⟨rfl, _, _, _, _, _, ?_, rfl⟩
    cases hh : st._isHomed <;>
    cases hd : st.driver.doHomeBeforeFirstMovement <;>
    cases hf : cmd.f <;>
    simp [State.setDestMoveRatePrimitive, State.homeEndstops, hh, hd]
  · intro hh
    unfold State.execute
    rw [if_pos hop]
    cases hr : env.readyForNextMove <;>
    cases hf : cmd.f <;>
    simp [Outcome.state, State.queueMovement, State.setDestMoveRatePrimitive, hh]
  · exact (execute_move_frame st env cmd com hop).2.2.2.2.2.2.2
  · unfold State.execute
    rw [if_pos hop]
    cases hh : st._isHomed <;>
    cases hd : st.driver.doHomeBeforeFirstMovement <;>
    cases hr : env.readyForNextMove <;>
    cases hf : cmd.f <;>
    simp [Outcome.state, State.queueMovement, State.setDestMoveRatePrimitive,
      State.homeEndstops, hh, hd]

/-- No `execute` call resets `_isHomed`, and each keeps the machine. -/
theorem execute_keeps_homed (st : State) (env : Env) (cmd : Command) (com : ComRef) :
    (st._isHomed = true → (st.execute env cmd com).state._isHomed = true) ∧
    (st.execute env cmd com).state.driver = st.driver := by
  cases hop : (cmd.isG0 || cmd.isG1) with
  | true =>
    obtain ⟨_, _, h3, h4, _⟩ := execute_move_shape st env cmd com hop
    exact ⟨h3, h4⟩
  | false =>
    obtain ⟨_, h2, h3, _⟩ := execute_other_frame st env cmd com hop
    exact ⟨h3, h2⟩

/-- A run of commands does not reset `_isHomed` and keeps the machine. -/
theorem runAll_keeps_homed (env : Env) (com : ComRef) (cmds : List Command) :
    ∀ st : State, (st._isHomed = true → (runAll env com st cmds)._isHomed = true) ∧
      (runAll env com st cmds).driver = st.driver := by
  induction cmds with
  | nil =>
    intro st
    exact ⟨fun h => h, rfl⟩
  | cons cmd rest ih =>
    intro st
    obtain ⟨k1, k2⟩ := execute_keeps_homed st env cmd com
    cases hex : st.execute env cmd com with
    | returned resp st1 =>
      rw [hex] at k1 k2
      simp only [runAll, hex]
      obtain ⟨i1, i2⟩ := ih st1
      exact ⟨fun h => i1 (k1 h), i2.trans k2⟩
    | exited status st1 =>
      rw [hex] at k1 k2
      simp only [runAll, hex]
      exact ⟨k1, k2⟩
    | threw what st1 =>
      rw [hex] at k1 k2
      simp only [runAll, hex]
      exact ⟨k1, k2⟩

/-- C21: `homeEndstops` leaves `_isHomed` true; no `execute` call, no run of
commands and no other method of `State` resets it; and on a machine whose
`doHomeBeforeFirstMovement()` is true, as `KosselPi`, every `execute` call
either queues no movement or calls `queueMovement` on a state in which
`_isHomed` is true. -/
theorem homed_before_every_movement (st : State) (env : Env) (cmd : Command) (com : ComRef) :
    (∀ now, (st.homeEndstops now)._isHomed = true) ∧
    (st._isHomed = true → (st.execute env cmd com).state._isHomed = true) ∧
    (∀ cmds, st._isHomed = true → (runAll env com st cmds)._isHomed = true) ∧
    (∀ (x y z e f : ℚ) (mode : PositionMode) (unit : LengthUnit) (now : Int),
      (st.setPositionMode mode)._isHomed = st._isHomed ∧
      (st.setExtruderPosMode mode)._isHomed = st._isHomed ∧
      (st.setUnitMode unit)._isHomed = st._isHomed ∧
      (st.setDestMoveRatePrimitive f)._isHomed = st._isHomed ∧
      (st.setHostZeroPos x y z e)._isHomed = st._isHomed ∧
      (st.queueMovement now x y z e)._isHomed = st._isHomed ∧
      (st.setFanRate f)._isHomed = st._isHomed) ∧
    KosselPi.doHomeBeforeFirstMovement = true ∧
    (st.driver.doHomeBeforeFirstMovement = true →
      (st.execute env cmd com).state.calls.filter Call.isMoveTo =
        st.calls.filter Call.isMoveTo ∨
      ∃ (stq : State) (x y z e : ℚ), stq._isHomed = true ∧
        (st.execute env cmd com).state = stq.queueMovement env.nowMove x y z e) := by
  refine ⟨fun _ => rfl, (execute_keeps_homed st env cmd com).1,
    fun cmds => (runAll_keeps_homed env com cmds st).1,
    fun _ _ _ _ _ _ _ _ => ⟨rfl, rfl, rfl, rfl, rfl, rfl, rfl⟩, rfl, ?_⟩
  intro hd
  cases hop : (cmd.isG0 || cmd.isG1) with
  | false => exact Or.inl (execute_other_frame st env cmd com hop).2.2.2
  | true =>
    obtain ⟨hb, hr, _⟩ := execute_move_shape st env cmd com hop
    cases hready : env.readyForNextMove with
    | false => exact Or.inl (hb hready).2.2.2.2.2.2.1
    | true =>
      obtain ⟨_, stq, x, y, z, e, hq, heq⟩ := hr hready
      refine Or.inr ⟨stq, x, y, z, e, ?_, heq⟩
      rw [hq, hd]
      simp

/-- C22: when `readyForNextMove()` answers false no `execute` call makes a
`moveTo` call, so `moveTo` is called only after it answered true; and then
`execute(G0/G1)` returns `Null`, leaves the four destination primitives and
the move rate as they were, makes at most the homing calls, and
`tendComChannel` sends no reply. -/
theorem moveTo_only_when_planner_ready (st : State) (env : Env) (cmd : Command)
    (com : ComRef) (hbusy : env.readyForNextMove = false) :
    (st.execute env cmd com).state.calls.filter Call.isMoveTo =
      st.calls.filter Call.isMoveTo ∧
    ((cmd.isG0 || cmd.isG1) = true →
      (st.execute env cmd com).value? = some Response.Null ∧
      (st.execute env cmd com).state.destXPrimitive = st.destXPrimitive ∧
      (st.execute env cmd com).state.destYPrimitive = st.destYPrimitive ∧
      (st.execute env cmd com).state.destZPrimitive = st.destZPrimitive ∧
      (st.execute env cmd com).state.destEPrimitive = st.destEPrimitive ∧
      (st.execute env cmd com).state.destMoveRatePrimitive = st.destMoveRatePrimitive ∧
      ((st.execute env cmd com).state.calls = st.calls ∨
        (st.execute env cmd com).state.calls = st.calls ++ [Call.setMaxSleep1ms,
          Call.homeEndstops (State.maxTime st._lastMotionPlannedTime env.nowHome)
            (st.driver.clampHomeRate st.destMoveRatePrimitive)]) ∧
      st.tendComChannel env (some cmd) com = .returned () (st.execute env cmd com).state) := by
  constructor
  · cases hop : (cmd.isG0 || cmd.isG1) with
    | false => exact (execute_other_frame st env cmd com hop).2.2.2
    | true => exact ((execute_move_shape st env cmd com hop).1 hbusy).2.2.2.2.2.2.1
  · intro hop
    obtain ⟨v, dx, dy, dz, de, dr, _, hc⟩ := (execute_move_shape st env cmd com hop).1 hbusy
    refine ⟨v, dx, dy, dz, de, dr, hc, ?_⟩
    cases hex : st.execute env cmd com with
    | returned resp st1 =>
      rw [hex] at v
      have hresp : resp = Response.Null := by
        simpa [Outcome.value?] using v
      simp [State.tendComChannel, hex, hresp, Response.isNull, Outcome.state]
    | exited status st1 =>
      rw [hex] at v
      simp [Outcome.value?] at v
    | threw what st1 =>
      rw [hex] at v
      simp [Outcome.value?] at v

theorem moveTo_only_when_planner_ready_witness :
    busyEnv.readyForNextMove = false ∧
    (initialState.execute busyEnv (cmdG1XF 10 600) .root).state.calls.filter Call.isMoveTo =
      initialState.calls.filter Call.isMoveTo ∧
    (initialState.execute busyEnv (cmdG1XF 10 600) .root).value? = some Response.Null :=
  have h := moveTo_only_when_planner_ready initialState busyEnv (cmdG1XF 10 600) .root rfl
  ⟨rfl, h.1, (h.2 (by decide)).1⟩

/-- On a `KosselPi` an `execute` call keeps the move rate at or below 120. -/
theorem execute_keeps_rate_bound (st : State) (env : Env) (cmd : Command) (com : ComRef)
    (hdrv : st.driver = KosselPi) (hle : st._destMoveRatePrimitive ≤ 120) :
    (st.execute env cmd com).state._destMoveRatePrimitive ≤ 120 := by
  cases hop : (cmd.isG0 || cmd.isG1) with
  | false =>
    rw [(execute_other_frame st env cmd com hop).1]
    exact hle
  | true =>
    obtain ⟨_, _, _, _, h5⟩ := execute_move_shape st env cmd com hop
    rcases h5 with h | ⟨f, h⟩
    · rw [h]
      exact hle
    · rw [h, hdrv]
      simp only [KosselPi, std_min, MAX_MOVE_RATE]
      split_ifs with c
      · exact le_refl _
      · exact not_lt.mp c

/-- On a `KosselPi` a run of commands keeps the move rate at or below 120. -/
theorem runAll_keeps_rate_bound (env : Env) (com : ComRef) (cmds : List Command) :
    ∀ st : State, st.driver = KosselPi → st._destMoveRatePrimitive ≤ 120 →
      (runAll env com st cmds)._destMoveRatePrimitive ≤ 120 := by
  induction cmds with
  | nil =>
    intro st _ h
    exact h
  | cons cmd rest ih =>
    intro st hdrv hle
    have k1 := execute_keeps_rate_bound st env cmd com hdrv hle
    have k2 := (execute_keeps_homed st env cmd com).2
    cases hex : st.execute env cmd com with
    | returned resp st1 =>
      rw [hex] at k1 k2
      simp only [runAll, hex]
      exact ih st1 (k2.trans hdrv) k1
    | exited status st1 =>
      rw [hex] at k1
      simp only [runAll, hex]
      exact k1
    | threw what st1 =>
      rw [hex] at k1
      simp only [runAll, hex]
      exact k1

/-- C26: on a `KosselPi`, whose maximum move rate `defaultMoveRate()` is 120,
`destMoveRatePrimitive` is at most 120 after construction, every `execute` call
preserves the bound (and the machine), and so does every run of commands from
the constructed state; `clampMoveRate` returns `min(input, defaultMoveRate())`,
which is the input itself when the input is not above the maximum, and
`setDestMoveRatePrimitive` stores what `clampMoveRate` returns. -/
theorem move_rate_never_exceeds_maximum (st : State) (env : Env) (cmd : Command)
    (com : ComRef) (hdrv : st.driver = KosselPi)
    (hle : st.destMoveRatePrimitive ≤ KosselPi.defaultMoveRate) :
    KosselPi.defaultMoveRate = 120 ∧
    (st.execute env cmd com).state.destMoveRatePrimitive ≤ KosselPi.defaultMoveRate ∧
    (st.execute env cmd com).state.driver = KosselPi ∧
    (∀ (fs : FileSystem) (c : Com) (b : Bool),
      (State.init KosselPi fs c b).destMoveRatePrimitive ≤ KosselPi.defaultMoveRate ∧
      ∀ cmds, (runAll env com (State.init KosselPi fs c b) cmds).destMoveRatePrimitive ≤
        KosselPi.defaultMoveRate) ∧
    (∀ x : ℚ, KosselPi.clampMoveRate x = min x KosselPi.defaultMoveRate) ∧
    (∀ x : ℚ, x ≤ KosselPi.defaultMoveRate → KosselPi.clampMoveRate x = x) ∧
    (∀ f : ℚ, (st.setDestMoveRatePrimitive f).destMoveRatePrimitive =
      st.driver.clampMoveRate f) := by
  have hmax : KosselPi.defaultMoveRate = 120 := rfl
  rw [hmax] at hle ⊢
  have hinit : ∀ (fs : FileSystem) (c : Com) (b : Bool),
      (State.init KosselPi fs c b)._destMoveRatePrimitive ≤ 120 ∧
      (State.init KosselPi fs c b).driver = KosselPi := by
    intro fs c b
    cases b <;>
    simp [State.init, State.setDestMoveRatePrimitive, KosselPi, std_min, MAX_MOVE_RATE]
  refine ⟨rfl, execute_keeps_rate_bound st env cmd com hdrv hle,
    (execute_keeps_homed st env cmd com).2.trans hdrv, ?_, ?_, ?_, fun _ => rfl⟩
  · intro fs c b
    exact ⟨(hinit fs c b).1, fun cmds =>
      runAll_keeps_rate_bound env com cmds _ (hinit fs c b).2 (hinit fs c b).1⟩
  · intro x
    simp only [KosselPi, std_min, MAX_MOVE_RATE]
    split_ifs with c
    · exact (min_eq_right (le_of_lt c)).symm
    · exact (min_eq_left (not_lt.mp c)).symm
  · intro x hx
    simp only [KosselPi, std_min, MAX_MOVE_RATE]
    exact if_neg (not_lt.mpr hx)

theorem move_rate_never_exceeds_maximum_witness :
    initialState.driver = KosselPi ∧
    initialState.destMoveRatePrimitive ≤ KosselPi.defaultMoveRate ∧
    (initialState.execute readyEnv (cmdG1XF 10 60000) .root).state.destMoveRatePrimitive ≤
      KosselPi.defaultMoveRate :=
  have hle : initialState.destMoveRatePrimitive ≤ KosselPi.defaultMoveRate := by
    simp [initialState, State.init, State.setDestMoveRatePrimitive, KosselPi, std_min,
      MAX_MOVE_RATE, State.destMoveRatePrimitive]
  ⟨rfl, hle,
    (move_rate_never_exceeds_maximum initialState readyEnv (cmdG1XF 10 60000) .root rfl hle).2.1⟩

/-- C28: with the planner ready, `execute(G0/G1)` leaves the destination
primitive of every axis that has no parameter in the command as it was,
whatever the position mode, the unit mode and the host-zero offsets, and leaves
the move rate as it was when the command has no F parameter. -/
theorem move_keeps_axes_without_parameter (st : State) (env : Env) (cmd : Command)
    (com : ComRef) (hop : (cmd.isG0 || cmd.isG1) = true)
    (hready : env.readyForNextMove = true) :
    (cmd.x = none → (st.execute env cmd com).state.destXPrimitive = st.destXPrimitive) ∧
    (cmd.y = none → (st.execute env cmd com).state.destYPrimitive = st.destYPrimitive) ∧
    (cmd.z = none → (st.execute env cmd com).state.destZPrimitive = st.destZPrimitive) ∧
    (cmd.e = none → (st.execute env cmd com).state.destEPrimitive = st.destEPrimitive) ∧
    (cmd.f = none →
      (st.execute env cmd com).state.destMoveRatePrimitive = st.destMoveRatePrimitive) := by
  refine ⟨?_, ?_, ?_, ?_, ?_⟩ <;>
  · intro hnone
    unfold State.execute
    rw [if_pos hop]
    cases hh : (!st._isHomed && st.driver.doHomeBeforeFirstMovement) <;>
    cases hf : cmd.f <;>
    simp_all [Outcome.state, State.queueMovement, State.setDestMoveRatePrimitive,
      State.homeEndstops, State.destXPrimitive, State.destYPrimitive, State.destZPrimitive,
      State.destEPrimitive, State.destMoveRatePrimitive]

theorem move_keeps_axes_without_parameter_witness :
    (((cmdG1XF 10 600).isG0 || (cmdG1XF 10 600).isG1) = true) ∧
    readyEnv.readyForNextMove = true ∧
    (cmdG1XF 10 600).y = none ∧
    (relativeInches.execute readyEnv (cmdG1XF 10 600) .root).state.destYPrimitive =
      relativeInches.destYPrimitive :=
  ⟨by decide, rfl, rfl,
    (move_keeps_axes_without_parameter relativeInches readyEnv (cmdG1XF 10 600) .root
      (by decide) rfl).2.1 rfl⟩

/-! ## Setting the host zero -/

/-- The G92 branch: `Ok`, after `setHostZeroPos` with zeros when the command
has none of X, Y, Z, E, and otherwise with, for each axis, the given value in
millimetres or the present reading of the axis. -/
theorem execute_G92_branch (st : State) (env : Env) (cmd : Command) (com : ComRef)
    (hop : cmd.opcode = "G92") :
    st.execute env cmd com = .returned .Ok
      (if !cmd.hasAnyXYZEParam then
        st.setHostZeroPos (st.posUnitToMM 0) (st.posUnitToMM 0) (st.posUnitToMM 0)
          (st.posUnitToMM 0)
      else st.setHostZeroPos
        (match cmd.x with
          | some x => st.posUnitToMM x
          | none => st.destXPrimitive - st._hostZeroX)
        (match cmd.y with
          | some y => st.posUnitToMM y
          | none => st.destYPrimitive - st._hostZeroY)
        (match cmd.z with
          | some z => st.posUnitToMM z
          | none => st.destZPrimitive - st._hostZeroZ)
        (match cmd.e with
          | some e => st.posUnitToMM e
          | none => st.destEPrimitive - st._hostZeroE)) := by
  have e0 : cmd.isG0 = false := by simp [Command.isG0, hop]
  have e1 : cmd.isG1 = false := by simp [Command.isG1, hop]
  have e2 : cmd.isG20 = false := by simp [Command.isG20, hop]
  have e3 : cmd.isG21 = false := by simp [Command.isG21, hop]
  have e4 : cmd.isG28 = false := by simp [Command.isG28, hop]
  have e5 : cmd.isG90 = false := by simp [Command.isG90, hop]
  have e6 : cmd.isG91 = false := by simp [Command.isG91, hop]
  have e7 : cmd.isG92 = true := by simp [Command.isG92, hop]
  unfold State.execute
  simp only [e0, e1, e2, e3, e4, e5, e6, e7, Bool.or_false, Bool.false_eq_true, if_false,
    if_true]
  split_ifs <;> rfl

/-- C27: `execute(G92)` given at least one of X, Y, Z, E leaves the host-zero
offset of every axis the command omits as it was, and leaves the four
destination primitives, both position modes and the unit mode as they were. -/
theorem G92_keeps_omitted_axes (st : State) (env : Env) (cmd : Command) (com : ComRef)
    (hop : cmd.opcode = "G92") (hsome : cmd.hasAnyXYZEParam = true) :
    (cmd.x = none → (st.execute env cmd com).state._hostZeroX = st._hostZeroX) ∧
    (cmd.y = none → (st.execute env cmd com).state._hostZeroY = st._hostZeroY) ∧
    (cmd.z = none → (st.execute env cmd com).state._hostZeroZ = st._hostZeroZ) ∧
    (cmd.e = none → (st.execute env cmd com).state._hostZeroE = st._hostZeroE) ∧
    (st.execute env cmd com).state.destXPrimitive = st.destXPrimitive ∧
    (st.execute env cmd com).state.destYPrimitive = st.destYPrimitive ∧
    (st.execute env cmd com).state.destZPrimitive = st.destZPrimitive ∧
    (st.execute env cmd com).state.destEPrimitive = st.destEPrimitive ∧
    (st.execute env cmd com).state.positionMode = st.positionMode ∧
    (st.execute env cmd com).state.extruderPosMode = st.extruderPosMode ∧
    (st.execute env cmd com).state.unitMode = st.unitMode := by
  rw [execute_G92_branch st env cmd com hop]
  have hb : ¬ (!cmd.hasAnyXYZEParam) = true := by simp [hsome]
  rw [if_neg hb]
  refine ⟨?_, ?_, ?_, ?_, rfl, rfl, rfl, rfl, rfl, rfl, rfl⟩ <;>
  · intro hnone
    simp [Outcome.state, State.setHostZeroPos, hnone]

theorem G92_keeps_omitted_axes_witness :
    (cmdG92X 0).opcode = "G92" ∧
    (cmdG92X 0).hasAnyXYZEParam = true ∧
    (cmdG92X 0).y = none ∧
    (relativeAfterRezero.execute readyEnv (cmdG92X 0) .root).state._hostZeroY =
      relativeAfterRezero._hostZeroY :=
  ⟨rfl, by decide, rfl,
    (G92_keeps_omitted_axes relativeAfterRezero readyEnv (cmdG92X 0) .root rfl
      (by decide)).2.1 rfl⟩

/-! ## Reducing over a tuple -/

/-- The recursion over the first `k` elements with a traced handler: the trace
grows by the indices 0 to `k - 1` in order, the result is the disjunction of the
results recorded, and result and state are those of the handler without trace. -/
theorem callOnAllReduce_traced {α σ : Type} (t : List α) (f : Nat → α → σ → Bool × σ) :
    ∀ (k : Nat) (h : k ≤ t.length) (s : σ) (log0 : List (Nat × Bool)),
      ∃ ext : List (Nat × Bool),
        (__callOnAllReduce t (traced f) (fun a b => a || b) false k h (s, log0)).2.2 =
          log0 ++ ext ∧
        ext.map Prod.fst = List.range k ∧
        (__callOnAllReduce t (traced f) (fun a b => a || b) false k h (s, log0)).1 =
          ext.any (fun e => e.2) ∧
        __callOnAllReduce t f (fun a b => a || b) false k h s =
          ((__callOnAllReduce t (traced f) (fun a b => a || b) false k h (s, log0)).1,
            (__callOnAllReduce t (traced f) (fun a b => a || b) false k h (s, log0)).2.1) := by
  intro k
  induction k with
  | zero =>
    intro h s log0
    exact ⟨[], by simp [__callOnAllReduce], rfl, rfl, rfl⟩
  | succ k ih =>
    intro h s log0
    obtain ⟨ext, h1, h2, h3, h4⟩ := ih (Nat.le_of_succ_le h) s log0
    refine ⟨ext ++ [(k, (f k (t.get ⟨k, h⟩)
      (__callOnAllReduce t (traced f) (fun a b => a || b) false k
        (Nat.le_of_succ_le h) (s, log0)).2.1).1)], ?_, ?_, ?_, ?_⟩
    · simp only [__callOnAllReduce, traced, h1, List.append_assoc]
    · simp [h2, List.range_succ]
    · simp only [__callOnAllReduce, traced, h3, List.any_append, List.any_cons, List.any_nil,
        Bool.or_false]
    · simp only [__callOnAllReduce, traced, h4]

/-- With a handler that acts on no state, the recursion over the first `k`
elements returns true exactly when the handler is true at one of them. -/
theorem callOnAllReduce_pure {α : Type} (t : List α) (p : Nat → α → Bool) :
    ∀ (k : Nat) (h : k ≤ t.length),
      ((__callOnAllReduce t (fun i a (u : Unit) => (p i a, u)) (fun a b => a || b) false k h
        ()).1 = true ↔ ∃ (i : Nat) (hi : i < t.length), i < k ∧ p i (t.get ⟨i, hi⟩) = true) := by
  intro k
  induction k with
  | zero =>
    intro h
    simp [__callOnAllReduce]
  | succ k ih =>
    intro h
    simp only [__callOnAllReduce, Bool.or_eq_true, ih (Nat.le_of_succ_le h)]
    constructor
    · rintro (⟨i, hi, hik, hp⟩ | hp)
      · exact ⟨i, hi, Nat.lt_succ_of_lt hik, hp⟩
      · exact ⟨k, h, Nat.lt_succ_self k, hp⟩
    · rintro ⟨i, hi, hik, hp⟩
      rcases Nat.lt_or_eq_of_le (Nat.le_of_lt_succ hik) with hlt | heq
      · exact Or.inl ⟨i, hi, hlt, hp⟩
      · subst heq
        exact Or.inr hp

/-- C24: `tupleReduceLogicalOr(t, f)` invokes `f` exactly once on every
element, in increasing index order (the trace of invocations lists the indices
0 to n - 1), whatever the earlier results were; it returns true if and only if
one of these invocations returned true, for a handler without side effects if
and only if the handler is true at some element; on an empty tuple it returns
false and invokes nothing. `SchedInterface::onIdleCpu` calls the hardware
scheduler's handler, then the State's, whatever the first returned, and returns
their disjunction. -/
theorem tupleReduceLogicalOr_has_no_short_circuit {α σ : Type} (t : List α)
    (f : Nat → α → σ → Bool × σ) (s : σ) :
    (tupleReduceLogicalOr t (traced f) (s, [])).2.2.map Prod.fst = List.range t.length ∧
    ((tupleReduceLogicalOr t (traced f) (s, [])).1 = true ↔
      ∃ e ∈ (tupleReduceLogicalOr t (traced f) (s, [])).2.2, e.2 = true) ∧
    tupleReduceLogicalOr t f s =
      ((tupleReduceLogicalOr t (traced f) (s, [])).1,
        (tupleReduceLogicalOr t (traced f) (s, [])).2.1) ∧
    (∀ p : Nat → α → Bool,
      ((tupleReduceLogicalOr t (fun i a (u : Unit) => (p i a, u)) ()).1 = true ↔
        ∃ (i : Nat) (hi : i < t.length), p i (t.get ⟨i, hi⟩) = true)) ∧
    tupleReduceLogicalOr ([] : List α) f s = (false, s) ∧
    (tupleReduceLogicalOr ([] : List α) (traced f) (s, [])).2.2 = [] ∧
    (∀ (ι τ : Type) (hardware state : ι → τ → Bool × τ) (interval : ι) (s0 : τ),
      SchedInterface.onIdleCpu hardware state interval s0 =
        ((hardware interval s0).1 || (state interval (hardware interval s0).2).1,
          (state interval (hardware interval s0).2).2)) := by
  obtain ⟨ext, h1, h2, h3, h4⟩ := callOnAllReduce_traced t f t.length (Nat.le_refl _) s []
  refine ⟨?_, ?_, ?_, ?_, rfl, rfl, fun _ _ _ _ _ _ => rfl⟩
  · simp only [tupleReduceLogicalOr, tupleReduce, h1, List.nil_append, h2]
  · simp only [tupleReduceLogicalOr, tupleReduce, h1, List.nil_append, h3, List.any_eq_true]
  · exact h4
  · intro p
    have h := callOnAllReduce_pure t p t.length (Nat.le_refl _)
    simp only [tupleReduceLogicalOr, tupleReduce, h]
    constructor
    · rintro ⟨i, hi, _, hp⟩
      exact ⟨i, hi, hp⟩
    · rintro ⟨i, hi, hp⟩
      exact ⟨i, hi, hi, hp⟩

/-! ## Advancing and initialising the steppers -/

/-- The recursion of `nextStep` over the positions 0 to `m`, asked for the
position `k`: it makes the one call `_nextStep` at `k` when `k` is among them,
and nothing otherwise. -/
theorem nextStep_rec {δ : Type} {n : Nat} (T : StepperTypes δ) (k : Fin n) :
    ∀ (m : Nat) (h : m < n) (st : Steppers δ n),
      ((k : Nat) ≤ m → _AxisStepper__nextStep T m h ((k : Nat) : Int) st = stepAt T k st) ∧
      (m < (k : Nat) → _AxisStepper__nextStep T m h ((k : Nat) : Int) st = st) := by
  intro m
  induction m with
  | zero =>
    intro h st
    constructor
    · intro hk
      have hk0 : k = ⟨0, h⟩ := Fin.ext (Nat.le_zero.mp hk)
      have hc : (((k : Nat) : Int) = 0) := by omega
      simp only [_AxisStepper__nextStep]
      rw [if_pos hc]
      exact congrArg (fun j => stepAt T j st) hk0.symm
    · intro hk
      have hc : ¬ (((k : Nat) : Int) = 0) := by omega
      simp only [_AxisStepper__nextStep, if_neg hc]
  | succ m ih =>
    intro h st
    obtain ⟨ih1, ih2⟩ := ih (Nat.lt_of_succ_lt h) st
    constructor
    · intro hk
      rcases Nat.lt_or_eq_of_le hk with hlt | heq
      · have hc : ¬ (((k : Nat) : Int) = ((m + 1 : Nat) : Int)) := by omega
        simp only [_AxisStepper__nextStep, if_neg hc]
        exact ih1 (Nat.le_of_lt_succ hlt)
      · have hc : (((k : Nat) : Int) = ((m + 1 : Nat) : Int)) := by omega
        have hk1 : k = ⟨m + 1, h⟩ := Fin.ext heq
        simp only [_AxisStepper__nextStep]
        rw [if_pos hc, ih2 (by omega)]
        exact congrArg (fun j => stepAt T j st) hk1.symm
    · intro hk
      have hc : ¬ (((k : Nat) : Int) = ((m + 1 : Nat) : Int)) := by omega
      simp only [_AxisStepper__nextStep, if_neg hc]
      exact ih2 (by omega)

/-- C25: in a tuple whose stepper at position `i` has `index() = i`, the call
`s.nextStep(axes)` for the stepper `s` at position `k` makes exactly one
`_nextStep` call, on the stepper at position `k`, and leaves every other
stepper, so its time and direction, as it was. -/
theorem nextStep_advances_only_its_stepper {δ : Type} {n : Nat} (T : StepperTypes δ)
    (axes : Fin (n + 1) → DerivedStepper δ) (k : Fin (n + 1))
    (hidx : ∀ i : Fin (n + 1), (axes i).base.index = ((i : Nat) : Int)) :
    (AxisStepper.nextStep T (axes k).base axes).2 = [StepperCall.nextStep k] ∧
    (AxisStepper.nextStep T (axes k).base axes).1 k = T.applyNextStep k (axes k) ∧
    (∀ j, j ≠ k → (AxisStepper.nextStep T (axes k).base axes).1 j = axes j) ∧
    (∀ j, j ≠ k →
      ((AxisStepper.nextStep T (axes k).base axes).1 j).base.time = (axes j).base.time ∧
      ((AxisStepper.nextStep T (axes k).base axes).1 j).base.direction =
        (axes j).base.direction) := by
  have hrun : AxisStepper.nextStep T (axes k).base axes = stepAt T k (axes, []) := by
    unfold AxisStepper.nextStep
    rw [hidx k]
    exact (nextStep_rec T k n (Nat.lt_succ_self n) (axes, [])).1 (Nat.le_of_lt_succ k.isLt)
  rw [hrun]
  refine ⟨rfl, ?_, ?_, ?_⟩
  · simp [stepAt]
  · intro j hj
    simp [stepAt, Function.update_noteq hj]
  · intro j hj
    simp [stepAt, Function.update_noteq hj]

theorem nextStep_advances_only_its_stepper_witness :
    (∀ i : Fin 3, (sampleSteppers i).base.index = ((i : Nat) : Int)) ∧
    (AxisStepper.nextStep sampleStepperTypes (sampleSteppers 1).base sampleSteppers).2 =
      [StepperCall.nextStep 1] ∧
    ((AxisStepper.nextStep sampleStepperTypes (sampleSteppers 1).base sampleSteppers).1
      0).base.time = (sampleSteppers 0).base.time :=
  have hidx : ∀ i : Fin 3, (sampleSteppers i).base.index = ((i : Nat) : Int) := by decide
  have h := nextStep_advances_only_its_stepper sampleStepperTypes sampleSteppers 1 hidx
  ⟨hidx, h.1, (h.2.2.2 0 (by decide)).1⟩

/-- Each position below `k` has one construct call and one `_nextStep` call in
`initTrace k`, and the positions from `k` on have none. -/
theorem initTrace_count (i : Nat) :
    ∀ k : Nat,
      (initTrace k).count (StepperCall.construct i) = (if i < k then 1 else 0) ∧
      (initTrace k).count (StepperCall.nextStep i) = (if i < k then 1 else 0) := by
  intro k
  induction k with
  | zero => simp [initTrace]
  | succ k ih =>
    obtain ⟨ih1, ih2⟩ := ih
    by_cases h1 : i < k
    · have h2 : i < k + 1 := Nat.lt_succ_of_lt h1
      have h3 : ¬ k = i := by omega
      simp [initTrace, List.count_cons, ih1, ih2, h1, h2, h3]
    · by_cases h4 : i = k
      · subst h4
        simp [initTrace, List.count_cons, ih1, ih2]
      · have h2 : ¬ i < k + 1 := by omega
        have h3 : ¬ k = i := fun e => h4 e.symm
        simp [initTrace, List.count_cons, ih1, ih2, h1, h2, h3]

/-- The recursion of `initAxisSteppers` over the first `k` positions: each is
the object built for its position with `_nextStep` applied once, the later
positions are untouched, and the calls made are `initTrace k`. -/
theorem initAxisSteppers_rec {δ : Type} {n : Nat} (T : StepperTypes δ) (args : MoveArgs) :
    ∀ (k : Nat) (h : k ≤ n) (st : Steppers δ n),
      (_AxisStepper__initAxisSteppers T args k h st).2 = st.2 ++ initTrace k ∧
      (∀ i : Fin n, (i : Nat) < k →
        (_AxisStepper__initAxisSteppers T args k h st).1 i =
          T.applyNextStep i (T.build i args)) ∧
      (∀ i : Fin n, k ≤ (i : Nat) →
        (_AxisStepper__initAxisSteppers T args k h st).1 i = st.1 i) := by
  intro k
  induction k with
  | zero =>
    intro h st
    exact ⟨by simp [_AxisStepper__initAxisSteppers, initTrace], fun i hi => absurd hi (by omega),
      fun i _ => rfl⟩
  | succ k ih =>
    intro h st
    obtain ⟨i1, i2, i3⟩ := ih (Nat.le_of_succ_le h) st
    refine ⟨?_, ?_, ?_⟩
    · simp only [_AxisStepper__initAxisSteppers, i1, initTrace, List.append_assoc]
    · intro i hi
      simp only [_AxisStepper__initAxisSteppers]
      by_cases hik : i = ⟨k, h⟩
      · subst hik
        simp
      · have hlt : (i : Nat) < k := by
          have : (i : Nat) ≠ k := fun e => hik (Fin.ext e)
          omega
        rw [Function.update_noteq hik, Function.update_noteq hik]
        exact i2 i hlt
    · intro i hi
      simp only [_AxisStepper__initAxisSteppers]
      have hik : i ≠ ⟨k, h⟩ := by
        intro e
        have := congrArg Fin.val e
        simp at this
        omega
      rw [Function.update_noteq hik, Function.update_noteq hik]
      exact i3 i (by omega)

/-- The recursion of `initAxisHomeSteppers` over the first `k` positions. -/
theorem initAxisHomeSteppers_rec {δ : Type} {n : Nat} (T : StepperTypes δ) (vHome : ℚ) :
    ∀ (k : Nat) (h : k ≤ n) (st : Steppers δ n),
      (_AxisStepper__initAxisHomeSteppers T vHome k h st).2 = st.2 ++ initTrace k ∧
      (∀ i : Fin n, (i : Nat) < k →
        (_AxisStepper__initAxisHomeSteppers T vHome k h st).1 i =
          T.applyNextStep i (T.buildHome i vHome)) ∧
      (∀ i : Fin n, k ≤ (i : Nat) →
        (_AxisStepper__initAxisHomeSteppers T vHome k h st).1 i = st.1 i) := by
  intro k
  induction k with
  | zero =>
    intro h st
    exact ⟨by simp [_AxisStepper__initAxisHomeSteppers, initTrace],
      fun i hi => absurd hi (by omega), fun i _ => rfl⟩
  | succ k ih =>
    intro h st
    obtain ⟨i1, i2, i3⟩ := ih (Nat.le_of_succ_le h) st
    refine ⟨?_, ?_, ?_⟩
    · simp only [_AxisStepper__initAxisHomeSteppers, i1, initTrace, List.append_assoc]
    · intro i hi
      simp only [_AxisStepper__initAxisHomeSteppers]
      by_cases hik : i = ⟨k, h⟩
      · subst hik
        simp
      · have hlt : (i : Nat) < k := by
          have : (i : Nat) ≠ k := fun e => hik (Fin.ext e)
          omega
        rw [Function.update_noteq hik, Function.update_noteq hik]
        exact i2 i hlt
    · intro i hi
      simp only [_AxisStepper__initAxisHomeSteppers]
      have hik : i ≠ ⟨k, h⟩ := by
        intro e
        have := congrArg Fin.val e
        simp at this
        omega
      rw [Function.update_noteq hik, Function.update_noteq hik]
      exact i3 i (by omega)

/-- C29: after `initAxisSteppers`, and likewise after `initAxisHomeSteppers`, on
a tuple of `n` steppers, the stepper at every position `i` is the object
constructed for position `i` with `_nextStep` applied to it once, its `index()`
is `i`, and the calls made are, in increasing index order, construct 0,
`_nextStep` 0, construct 1, `_nextStep` 1, and so on: one construction and one
`_nextStep` per position. -/
theorem init_steppers_in_index_order {δ : Type} {n : Nat} (T : StepperTypes δ)
    (steppers : Fin n → DerivedStepper δ) (args : MoveArgs) (vHome : ℚ) (i : Fin n) :
    ((AxisStepper.initAxisSteppers T steppers args).1 i).base.index = ((i : Nat) : Int) ∧
    (AxisStepper.initAxisSteppers T steppers args).1 i = T.applyNextStep i (T.build i args) ∧
    (AxisStepper.initAxisSteppers T steppers args).2 = initTrace n ∧
    (AxisStepper.initAxisSteppers T steppers args).2.count (StepperCall.construct i) = 1 ∧
    (AxisStepper.initAxisSteppers T steppers args).2.count (StepperCall.nextStep i) = 1 ∧
    ((AxisStepper.initAxisHomeSteppers T steppers vHome).1 i).base.index = ((i : Nat) : Int) ∧
    (AxisStepper.initAxisHomeSteppers T steppers vHome).1 i =
      T.applyNextStep i (T.buildHome i vHome) ∧
    (AxisStepper.initAxisHomeSteppers T steppers vHome).2 = initTrace n ∧
    (AxisStepper.initAxisHomeSteppers T steppers vHome).2.count (StepperCall.construct i) = 1 ∧
    (AxisStepper.initAxisHomeSteppers T steppers vHome).2.count (StepperCall.nextStep i) = 1 ∧
    initTrace 2 = [StepperCall.construct 0, StepperCall.nextStep 0,
      StepperCall.construct 1, StepperCall.nextStep 1] := by
  obtain ⟨a1, a2, _⟩ := initAxisSteppers_rec T args n (Nat.le_refl n) (steppers, [])
  obtain ⟨b1, b2, _⟩ := initAxisHomeSteppers_rec T vHome n (Nat.le_refl n) (steppers, [])
  obtain ⟨c1, c2⟩ := initTrace_count i n
  have ta : (AxisStepper.initAxisSteppers T steppers args).2 = initTrace n := by
    simpa [AxisStepper.initAxisSteppers] using a1
  have tb : (AxisStepper.initAxisHomeSteppers T steppers vHome).2 = initTrace n := by
    simpa [AxisStepper.initAxisHomeSteppers] using b1
  have va : (AxisStepper.initAxisSteppers T steppers args).1 i =
      T.applyNextStep i (T.build i args) := a2 i i.isLt
  have vb : (AxisStepper.initAxisHomeSteppers T steppers vHome).1 i =
      T.applyNextStep i (T.buildHome i vHome) := b2 i i.isLt
  rw [if_pos i.isLt] at c1 c2
  refine ⟨?_, va, ta, ?_, ?_, ?_, vb, tb, ?_, ?_, rfl⟩
  · rw [va]
    rfl
  · rw [ta]
    exact c1
  · rw [ta]
    exact c2
  · rw [vb]
    rfl
  · rw [tb]
    exact c1
  · rw [tb]
    exact c2

/-! ## Starting a thermistor read -/

/-- C30, the code at an input the claim covers. `freshControl` has no read in
progress and `_nextReadTime` = 1000 us; `onIdleCpu` is called when the clock
reads 500 us, so `_nextReadTime` is not yet past. The call returns false and
starts no read, but it is not without effect: line 117 has called
`_intervalTimer.clock()` on the timer member before the comparison, and the
record of calls has grown by that call. -/
theorem idle_call_clocks_the_timer :
    freshControl._isReading = false ∧
    ¬ freshControl._nextReadTime < ({ now := 500 } : TempEnv).now ∧
    (freshControl.onIdleCpu { now := 500 }).2 = false ∧
    (freshControl.onIdleCpu { now := 500 }).1.calls ≠ freshControl.calls ∧
    (freshControl.onIdleCpu { now := 500 }).1.calls =
      freshControl.calls ++ [TempCall.timerClock] := by
  decide

/-- C30, amended: `onIdleCpu` starts a thermistor read only when no read is in
progress and `_nextReadTime` is strictly before the clock value; a started read
advances `_nextReadTime` by exactly the read interval of 3000000 us from its
previous value, sets `_isReading` and returns true; and when no read is in
progress and `_nextReadTime` is not yet past, the call returns false and changes
nothing but the interval timer, which it has clocked once. -/
theorem read_starts_only_when_due {P : TempControlParams} (tc : TempControl P)
    (env : TempEnv) :
    TempControl._readInterval = 3000000 ∧
    ((tc.onIdleCpu env).1.calls.filter TempCall.isStartRead ≠
        tc.calls.filter TempCall.isStartRead →
      tc._isReading = false ∧ tc._nextReadTime < env.now) ∧
    (tc._isReading = false → tc._nextReadTime < env.now →
      (tc.onIdleCpu env).2 = true ∧
      (tc.onIdleCpu env).1._nextReadTime = tc._nextReadTime + 3000000 ∧
      (tc.onIdleCpu env).1._isReading = true ∧
      (tc.onIdleCpu env).1.calls =
        tc.calls ++ [TempCall.timerClock, TempCall.thermStartRead]) ∧
    (tc._isReading = false → ¬ tc._nextReadTime < env.now →
      tc.onIdleCpu env = ({ tc with calls := tc.calls ++ [TempCall.timerClock] }, false)) := by
  refine ⟨rfl, ?_, ?_, ?_⟩
  · intro h
    by_contra hn
    apply h
    unfold TempControl.onIdleCpu
    by_cases hr : tc._isReading = true
    · by_cases ht : env.thermIsReady = true <;>
      by_cases hc : clockCmp env.latency (TempControl._intervalThresh P) > 0 <;>
      by_cases hm : env.timeSinceStartRead > TempControl._maxRead <;>
      simp [hr, ht, hc, hm, TempControl.updatePwm, TempCall.isStartRead]
    · have hr2 : tc._isReading = false := by simpa using hr
      have hd : ¬ tc._nextReadTime < env.now := fun hd => hn ⟨hr2, hd⟩
      simp [hr2, hd, TempCall.isStartRead]
  · intro hidle hdue
    obtain ⟨h1, _⟩ := onIdleCpu_idle tc env hidle
    obtain ⟨a, b, c, d⟩ := h1 hdue
    exact ⟨a, c, b, d⟩
  · intro hidle hnd
    unfold TempControl.onIdleCpu
    simp [hidle, hnd]

end Printipi
